import Mathlib

/-!
# Streaming control routes: session lifecycle

A shallow embedding of the request handlers of
`src/backend/routes/streaming-control.js` that own the `transmissoes` and
`recording_sessions` tables, of the handlers that delegate to
`StreamingControlService`, of the diagnostics handler and of the status and
platform catalog queries, followed by the properties proved about them.

Each handler is a function from the request, the store and an environment to
the store after the call, the calls issued to collaborators, and the HTTP
response.  Everything the handler cannot decide by itself is read from the
environment `Env`: whether a `db.execute` statement throws, what `NOW()`
returns, what the manifest service, the remote command channel, the spawned
process and the file system answer.

Conventions of the embedding:
* a `SELECT` returns the matching rows in the order of the table list;
* the request's owner id is the resolved `req.user?.id || req.user?.codigo`;
* `console.log` / `console.warn` / `console.error` calls are not modelled;
* collaborators (manifest service, remote channel, file system) do not write
  the two session tables.
-/

namespace StreamingControl

/-! ## Data model -/

/-- Values of `transmissoes.status` written by this module. -/
inductive TransmissaoStatus where
  | ativa
  | finalizada
  deriving DecidableEq, Repr

/-- Values of the column `recording_sessions.status`,
`ENUM('recording', 'stopped', 'error')`. -/
inductive RecordingStatus where
  | recording
  | stopped
  | error
  deriving DecidableEq, Repr

/-- Row of `transmissoes`. -/
structure Transmissao where
  codigo : Nat
  codigo_stm : Nat
  titulo : Option String
  descricao : String
  codigo_playlist : Option Nat
  status : TransmissaoStatus
  data_inicio : Nat
  data_fim : Option Nat
  tipo_transmissao : String
  deriving DecidableEq, Repr

/-- Row of `recording_sessions`. -/
structure RecordingSession where
  codigo : Nat
  codigo_stm : Nat
  arquivo_destino : String
  caminho_completo : Option String
  status : RecordingStatus
  data_inicio : Nat
  data_fim : Option Nat
  tamanho_arquivo : Nat
  process_id : Option Nat
  deriving DecidableEq, Repr

/-- Row of `playlists` (columns read by this module). -/
structure Playlist where
  id : Nat
  nome : String
  codigo_stm : Nat
  deriving DecidableEq, Repr

/-- Row of `playlist_videos`. -/
structure PlaylistVideo where
  playlist_id : Nat
  video_id : Nat
  deriving DecidableEq, Repr

/-- Row of `videos` (columns read by this module). -/
structure Video where
  id : Nat
  codigo_cliente : Nat
  deriving DecidableEq, Repr

/-- Row of `streamings` (columns read by this module). -/
structure Streaming where
  codigo_cliente : Nat
  codigo_servidor : Option Nat
  deriving DecidableEq, Repr

/-- Row of `wowza_servers` (columns read by this module). -/
structure WowzaServer where
  codigo : Nat
  ip : String
  dominio : Option String
  status : String
  deriving DecidableEq, Repr

/-- The tables read or written by the handlers, with the `AUTO_INCREMENT`
counters of the two session tables. -/
structure Store where
  playlists : List Playlist
  playlist_videos : List PlaylistVideo
  videos : List Video
  streamings : List Streaming
  wowza_servers : List WowzaServer
  transmissoes : List Transmissao
  next_transmissao : Nat
  recording_sessions : List RecordingSession
  next_recording : Nat
  deriving DecidableEq, Repr

/-- JSON values, as passed to `res.json`. -/
inductive Json where
  | null
  | bool (b : Bool)
  | num (n : Nat)
  | str (s : String)
  | arr (items : List Json)
  | obj (fields : List (String × Json))

/-- Member `k` of a JSON object. -/
def Json.field (j : Json) (k : String) : Option Json :=
  match j with
  | Json.obj fields => fields.lookup k
  | _ => none

/-- Characters of a JSON string; `none` for any other value. -/
def Json.asString (j : Json) : Option String :=
  match j with
  | Json.str s => some s
  | _ => none

/-- HTTP response: `res.status(status).json(body)`. -/
structure Response where
  status : Nat
  body : Json

/-- Writes on the session tables, logged once the statement has executed. -/
inductive DbWrite where
  | updateTransmissao (codigo : Nat)
  | insertTransmissao (codigo : Nat)
  | createRecordingTable
  | insertRecording (codigo : Nat)
  | updateRecording (codigo : Nat)
  deriving DecidableEq, Repr

/-- Effects of a handler on the store and calls issued to collaborators, in
program order.  A collaborator call is logged when it is issued, whatever it
answers. -/
inductive Effect where
  | dbWrite (w : DbWrite)
  | generatePlaylistSMIL (userId : Nat) (userLogin : String) (serverId : Option Nat)
      (playlist_id : Nat)
  | executeCommand (serverId : Option Nat) (command : String)
  | mkdir (path : String)
  | spawn (command : String) (args : List String)
  | kill (pid : Nat) (signal : String)
  | sleep (ms : Nat)
  | stat (path : String)
  deriving DecidableEq, Repr

/-- Answer of `PlaylistSMILService.generatePlaylistSMIL`. -/
inductive SmilResult where
  | success
  | failure (error : Json)
  | throws (message : String)

/-- Answer of `SSHManager.executeCommand`. -/
inductive SshResult where
  | result (stdout : String) (stderr : String)
  | throws (message : String)

/-- Answer of `spawn`: a child process, whose `pid` is `undefined` (`none`) when the process
could not be started, or a synchronous exception with its message and constructor name. -/
inductive SpawnResult where
  | child (pid : Option Nat)
  | throws (message : String) (type : String)

/-- Everything a handler reads from outside the store. -/
structure Env where
  /-- Failure of the `k`-th `db.execute` statement of the handler (numbered in
  source order): `some m` when it throws an error with message `m`. -/
  dbThrows : Nat → Option String
  /-- Constructor name of the error thrown by the `k`-th statement. -/
  dbErrorType : Nat → String
  /-- Value of `NOW()` in the `k`-th statement. -/
  now : Nat → Nat
  generatePlaylistSMIL : Nat → String → Option Nat → Nat → SmilResult
  executeCommand : Option Nat → String → SshResult
  /-- Whether `process.env.NODE_ENV === 'production'`. -/
  production : Bool
  /-- Result of `path.join`. -/
  pathJoin : List String → String
  /-- Whether `fs.mkdir` throws; the handler only logs the exception. -/
  mkdirThrows : String → Bool
  /-- Result of `new Date().toISOString()`. -/
  isoString : String
  spawn : String → List String → SpawnResult
  /-- Whether `process.kill` throws; the handler only logs the exception. -/
  killThrows : Nat → String → Bool
  /-- Result of `fs.stat(path).size`; `none` when `fs.stat` throws. -/
  statSize : String → Option Nat
  /-- Result of `(fileSize / 1024 / 1024).toFixed(2)`. -/
  toFixedMB : Nat → String

/-- Authenticated user of the request (`req.user`). -/
structure User where
  /-- Owner id, the resolved `req.user?.id || req.user?.codigo`. -/
  id : Nat
  usuario : Option String
  deriving DecidableEq, Repr

/-- Outcome of one handler call. -/
structure Outcome where
  store : Store
  effects : List Effect
  response : Response

/-! ## JavaScript helpers -/

/-- Truthiness of a request number: `undefined`, `null` and `0` are falsy. -/
def truthyNat : Option Nat → Option Nat
  | some 0 => none
  | some n => some n
  | none => none

/-- Truthiness of a string: `undefined`, `null` and `''` are falsy. -/
def truthyStr : Option String → Option String
  | some s => if s = "" then none else some s
  | none => none

/-- Whether `pat` occurs in `s`: `String.prototype.includes`. -/
def includes (s pat : String) : Bool :=
  s.toList.tails.any (fun t => pat.toList.isPrefixOf t)

/-- Login of the owner's application, `req.user.usuario` or `user_` followed by the owner id. -/
def userLoginOf (user : User) : String :=
  match truthyStr user.usuario with
  | some u => u
  | none => "user_" ++ toString user.id

/-- Command line shared by the remote administrative commands. -/
def jmxCommand : String :=
  "/usr/bin/java -cp /usr/local/WowzaMediaServer JMXCommandLine -jmx service:jmx:rmi://localhost:8084/jndi/rmi://localhost:8085/jmxrmi -user admin -pass admin"

/-- Response of an outer `catch (error)` block. -/
def caught (error : String) (message : String) : Response :=
  { status := 500,
    body := Json.obj [("success", Json.bool false), ("error", Json.str error),
      ("details", Json.str message)] }

/-! ## Queries and statements on the store -/

/-- Rows of `SELECT id, nome FROM playlists WHERE id = ? AND codigo_stm = ?`. -/
def selectPlaylists (s : Store) (playlist_id userId : Nat) : List Playlist :=
  s.playlists.filter (fun p => p.id = playlist_id ∧ p.codigo_stm = userId)

/-- Value of `SELECT COUNT(*) FROM playlist_videos pv INNER JOIN videos v ON pv.video_id = v.id
WHERE pv.playlist_id = ? AND v.codigo_cliente = ?`. -/
def countPlaylistVideos (s : Store) (playlist_id userId : Nat) : Nat :=
  ((s.playlist_videos.filter (fun pv => pv.playlist_id = playlist_id)).flatMap
    (fun pv => s.videos.filter (fun v => pv.video_id = v.id ∧ v.codigo_cliente = userId))).length

/-- Server id of the owner: the first row of
`SELECT codigo_servidor FROM streamings WHERE codigo_cliente = ? LIMIT 1`, or `1`. -/
def serverIdOf (s : Store) (userId : Nat) : Option Nat :=
  match s.streamings.filter (fun r => r.codigo_cliente = userId) with
  | r :: _ => r.codigo_servidor
  | [] => some 1

/-- Rows of `SELECT ip, dominio FROM wowza_servers WHERE codigo = ? AND status = "ativo"`. -/
def selectActiveServers (s : Store) (serverId : Option Nat) : List WowzaServer :=
  s.wowza_servers.filter (fun w => some w.codigo = serverId ∧ w.status = "ativo")

/-- Host of a server row, `dominio || ip`. -/
def hostOf (w : WowzaServer) : String :=
  match truthyStr w.dominio with
  | some d => d
  | none => w.ip

/-- Rows of `SELECT codigo FROM transmissoes WHERE codigo_stm = ? AND status = "ativa"`. -/
def selectActiveTransmissions (s : Store) (userId : Nat) : List Transmissao :=
  s.transmissoes.filter (fun t => t.codigo_stm = userId ∧ t.status = TransmissaoStatus.ativa)

/-- Statement `UPDATE transmissoes SET status = "finalizada", data_fim = NOW() WHERE codigo = ?`. -/
def finalizeTransmission (s : Store) (codigo now : Nat) : Store :=
  { s with transmissoes := s.transmissoes.map (fun t =>
      if t.codigo = codigo then
        { t with status := TransmissaoStatus.finalizada, data_fim := some now }
      else t) }

/-- Row written by the `INSERT INTO transmissoes` of `/start`. -/
def newTransmission (s : Store) (userId : Nat) (titulo : Option String) (descricao : String)
    (playlist_id now : Nat) : Transmissao :=
  { codigo := s.next_transmissao, codigo_stm := userId, titulo := titulo, descricao := descricao,
    codigo_playlist := some playlist_id, status := TransmissaoStatus.ativa, data_inicio := now,
    data_fim := none, tipo_transmissao := "playlist" }

/-- Statement `INSERT INTO transmissoes (...) VALUES (?, ?, ?, ?, 'ativa', NOW(), 'playlist')`;
`insertId` is the previous value of the counter. -/
def insertTransmission (s : Store) (userId : Nat) (titulo : Option String) (descricao : String)
    (playlist_id now : Nat) : Store :=
  { s with
    transmissoes := s.transmissoes ++ [newTransmission s userId titulo descricao playlist_id now],
    next_transmissao := s.next_transmissao + 1 }

/-- Rows of `SELECT * FROM transmissoes WHERE codigo = ? AND codigo_stm = ?`. -/
def selectTransmission (s : Store) (transmission_id userId : Nat) : List Transmissao :=
  s.transmissoes.filter (fun t => t.codigo = transmission_id ∧ t.codigo_stm = userId)

/-! ## POST /start -/

/-- Fields of the body of `POST /start` that the handler reads. -/
structure StartBody where
  titulo : Option String
  descricao : Option String
  playlist_id : Option Nat
  deriving DecidableEq, Repr

/-- Remote activation of the owner's application, the inner `try` block of `/start`: one
running-check command, then the activation command unless the check answered `loaded`.  The
answer of the activation command and any exception of the channel are only logged. -/
def activateApplication (env : Env) (serverId : Option Nat) (userLogin : String) : List Effect :=
  let checkCommand := jmxCommand ++ " getApplicationInstanceInfo " ++ userLogin
  match env.executeCommand serverId checkCommand with
  | SshResult.throws _ => [Effect.executeCommand serverId checkCommand]
  | SshResult.result stdout _ =>
    let isRunning := stdout ≠ "" ∧ includes stdout "loaded" = true
    if isRunning then [Effect.executeCommand serverId checkCommand]
    else
      let startCommand := jmxCommand ++ " startAppInstance " ++ userLogin
      [Effect.executeCommand serverId checkCommand, Effect.executeCommand serverId startCommand]

/-- Object `playerUrls` of `/start`. -/
def playerUrls (env : Env) (servidor userLogin : String) (playlist_id : Nat) :
    List (String × Json) :=
  let baseUrl := if env.production then "https://samhost.wcore.com.br:3001"
    else "http://localhost:3001"
  [("iframe", Json.str (baseUrl ++ "/api/player-port/iframe?login=" ++ userLogin ++ "&playlist="
      ++ toString playlist_id ++ "&player=1&contador=true&compartilhamento=true")),
   ("direct_hls", Json.str ("https://" ++ servidor ++ "/" ++ userLogin
      ++ "/smil:playlists_agendamentos.smil/playlist.m3u8")),
   ("direct_rtmp", Json.str ("rtmp://" ++ servidor ++ ":1935/" ++ userLogin
      ++ "/smil:playlists_agendamentos.smil")),
   ("wowza_url", Json.str ("https://" ++ servidor ++ "/" ++ userLogin ++ "/" ++ userLogin
      ++ "/playlist.m3u8"))]

/-- Success response of `/start`. -/
def startSuccess (env : Env) (playlist : Playlist) (playlist_id total : Nat)
    (servidor userLogin : String) (transmissionId : Nat) : Response :=
  { status := 200,
    body := Json.obj [
      ("success", Json.bool true),
      ("transmission_id", Json.num transmissionId),
      ("message", Json.str ("Transmissão da playlist \"" ++ playlist.nome
        ++ "\" iniciada com sucesso")),
      ("playlist_name", Json.str playlist.nome),
      ("videos_count", Json.num total),
      ("player_urls", Json.obj (playerUrls env servidor userLogin playlist_id)),
      ("streaming_info", Json.obj [
        ("server", Json.str servidor),
        ("user_login", Json.str userLogin),
        ("smil_file", Json.str "playlists_agendamentos.smil"),
        ("status", Json.str "Transmitindo")]),
      ("instructions", Json.obj [
        ("access", Json.str ("Acesse a transmissão em: " ++ "https://" ++ servidor ++ "/"
          ++ userLogin ++ "/smil:playlists_agendamentos.smil/playlist.m3u8")),
        ("player", Json.str "Use a URL do iframe para incorporar o player em seu site"),
        ("obs", Json.str "A transmissão está ativa e pode ser acessada pelos links acima")])] }

/-- Response of the outer `catch` of `/start`. -/
def startCaught (message : String) : Response :=
  caught "Erro interno ao iniciar transmissão" message

/-- Last part of `/start`, from the `INSERT` on: insert the new transmission in the store `s1`
reached with the effects `effects1`, provision the manifest, activate the remote application,
answer. -/
def startInsert (env : Env) (user : User) (body : StartBody) (s1 : Store)
    (effects1 : List Effect) (playlist : Playlist) (playlist_id total : Nat)
    (serverId : Option Nat) (servidor : String) : Outcome :=
  let userId := user.id
  let userLogin := userLoginOf user
  match env.dbThrows 6 with
  | some m => ⟨s1, effects1, startCaught m⟩
  | none =>
  let transmissionId := s1.next_transmissao
  let s2 := insertTransmission s1 userId body.titulo (body.descricao.getD "") playlist_id
    (env.now 6)
  let effects2 := effects1 ++ [Effect.dbWrite (DbWrite.insertTransmissao transmissionId),
    Effect.generatePlaylistSMIL userId userLogin serverId playlist_id]
  match env.generatePlaylistSMIL userId userLogin serverId playlist_id with
  | SmilResult.success =>
    ⟨s2, effects2 ++ activateApplication env serverId userLogin,
      startSuccess env playlist playlist_id total servidor userLogin transmissionId⟩
  | SmilResult.failure error =>
    ⟨s2, effects2, { status := 500, body := Json.obj [("success", Json.bool false),
      ("error", Json.str "Erro ao gerar arquivo SMIL da playlist"), ("details", error)] }⟩
  | SmilResult.throws m =>
    ⟨s2, effects2, { status := 500, body := Json.obj [("success", Json.bool false),
      ("error", Json.str "Erro ao preparar playlist para transmissão"),
      ("details", Json.str m)] }⟩

/-- Second part of `/start`, from the lookup of the active transmission on: finalize the first
active transmission of the owner if there is one, then `startInsert`. -/
def startTransmission (env : Env) (user : User) (body : StartBody) (s : Store)
    (playlist : Playlist) (playlist_id total : Nat) (serverId : Option Nat) (servidor : String) :
    Outcome :=
  match env.dbThrows 4 with
  | some m => ⟨s, [], startCaught m⟩
  | none =>
  match selectActiveTransmissions s user.id with
  | [] => startInsert env user body s [] playlist playlist_id total serverId servidor
  | active :: _ =>
    match env.dbThrows 5 with
    | some m => ⟨s, [], startCaught m⟩
    | none =>
      startInsert env user body (finalizeTransmission s active.codigo (env.now 5))
        [Effect.dbWrite (DbWrite.updateTransmissao active.codigo)]
        playlist playlist_id total serverId servidor

/-- Handler of `POST /start`: validation of the playlist and lookup of the owner's server,
then `startTransmission`. -/
def start (env : Env) (user : User) (body : StartBody) (s : Store) : Outcome :=
  let userId := user.id
  match truthyNat body.playlist_id with
  | none => ⟨s, [], { status := 400, body := Json.obj [("success", Json.bool false),
      ("error", Json.str "ID da playlist é obrigatório")] }⟩
  | some playlist_id =>
  match env.dbThrows 0 with
  | some m => ⟨s, [], startCaught m⟩
  | none =>
  match selectPlaylists s playlist_id userId with
  | [] => ⟨s, [], { status := 404, body := Json.obj [("success", Json.bool false),
      ("error", Json.str "Playlist não encontrada")] }⟩
  | playlist :: _ =>
  match env.dbThrows 1 with
  | some m => ⟨s, [], startCaught m⟩
  | none =>
  let total := countPlaylistVideos s playlist_id userId
  if total = 0 then
    ⟨s, [], { status := 400, body := Json.obj [("success", Json.bool false),
      ("error", Json.str
        "A playlist não possui vídeos. Adicione vídeos antes de iniciar a transmissão.")] }⟩
  else
  match env.dbThrows 2 with
  | some m => ⟨s, [], startCaught m⟩
  | none =>
  let serverId := serverIdOf s userId
  match env.dbThrows 3 with
  | some m => ⟨s, [], startCaught m⟩
  | none =>
  match selectActiveServers s serverId with
  | [] => ⟨s, [], { status := 500, body := Json.obj [("success", Json.bool false),
      ("error", Json.str "Servidor não encontrado ou inativo")] }⟩
  | server :: _ =>
  startTransmission env user body s playlist playlist_id total serverId (hostOf server)

/-! ## POST /stop -/

/-- Fields of the body of `POST /stop` that the handler reads. -/
structure StopBody where
  transmission_id : Option Nat
  deriving DecidableEq, Repr

/-- Response of the outer `catch` of `/stop`. -/
def stopCaught (message : String) : Response :=
  caught "Erro interno ao finalizar transmissão" message

/-- Handler of `POST /stop`.  For a playlist transmission the source then reads the owner's
server id inside a `try` whose `catch` only logs, and uses neither the login nor the server id:
that block (statement 1) has no effect on the outcome. -/
def stop (env : Env) (user : User) (body : StopBody) (s : Store) : Outcome :=
  let userId := user.id
  match truthyNat body.transmission_id with
  | none => ⟨s, [], { status := 400, body := Json.obj [("success", Json.bool false),
      ("error", Json.str "ID da transmissão é obrigatório")] }⟩
  | some transmission_id =>
  match env.dbThrows 0 with
  | some m => ⟨s, [], stopCaught m⟩
  | none =>
  match selectTransmission s transmission_id userId with
  | [] => ⟨s, [], { status := 404, body := Json.obj [("success", Json.bool false),
      ("error", Json.str "Transmissão não encontrada")] }⟩
  | _ :: _ =>
  match env.dbThrows 2 with
  | some m => ⟨s, [], stopCaught m⟩
  | none =>
    ⟨finalizeTransmission s transmission_id (env.now 2),
      [Effect.dbWrite (DbWrite.updateTransmissao transmission_id)],
      { status := 200, body := Json.obj [("success", Json.bool true),
        ("message", Json.str "Transmissão finalizada com sucesso")] }⟩

/-! ## POST /start-recording -/

/-- Rows of `SELECT ... FROM recording_sessions WHERE codigo_stm = ? AND status = "recording"`. -/
def selectActiveRecordings (s : Store) (userId : Nat) : List RecordingSession :=
  s.recording_sessions.filter
    (fun r => r.codigo_stm = userId ∧ r.status = RecordingStatus.recording)

/-- Host used by `/start-recording`: the first row of
`SELECT ip, dominio FROM wowza_servers WHERE codigo = ?`, or the default host. -/
def wowzaHostOf (s : Store) (serverId : Option Nat) : String :=
  match s.wowza_servers.filter (fun w => some w.codigo = serverId) with
  | w :: _ => hostOf w
  | [] => "stmv1.udicast.com"

/-- Value of `toISOString().replace(/[:.]/g, '-').slice(0, -5)`. -/
def recordingTimestamp (iso : String) : String :=
  let replaced := iso.toList.map (fun c => if c = ':' ∨ c = '.' then '-' else c)
  String.mk (replaced.take (replaced.length - 5))

/-- Row written by the `INSERT INTO recording_sessions` of `/start-recording`. -/
def newRecording (s : Store) (userId : Nat) (fileName fullPath : String) (now : Nat)
    (pid : Option Nat) : RecordingSession :=
  { codigo := s.next_recording, codigo_stm := userId, arquivo_destino := fileName,
    caminho_completo := some fullPath, status := RecordingStatus.recording, data_inicio := now,
    data_fim := none, tamanho_arquivo := 0, process_id := pid }

/-- Statement `INSERT INTO recording_sessions (...) VALUES (?, ?, ?, "recording", NOW(), ?)`;
`insertId` is the previous value of the counter. -/
def insertRecording (s : Store) (userId : Nat) (fileName fullPath : String) (now : Nat)
    (pid : Option Nat) : Store :=
  { s with
    recording_sessions := s.recording_sessions ++ [newRecording s userId fileName fullPath now pid],
    next_recording := s.next_recording + 1 }

/-- Message of the error with which the store driver rejects, before sending it, a statement
one of whose bind parameters is `undefined`; the error is a `TypeError`. -/
def undefinedBindMessage : String :=
  "Bind parameters must not contain undefined. To pass SQL NULL specify JS null"

/-- Response of the outer `catch` of `/start-recording`. -/
def startRecordingCaught (message type : String) : Response :=
  { status := 500,
    body := Json.obj [("success", Json.bool false), ("error", Json.str "Erro ao iniciar gravação"),
      ("details", Json.str message), ("type", Json.str type)] }

/-- Last part of `/start-recording`, once no recording of the owner is active: resolve the
source URL, provision the directory, spawn the capture process, insert the session.  The
process id of the child is bound as it is in the `INSERT`: when the child has none (`pid` is
`undefined`), the driver rejects the statement, which throws without reaching the store. -/
def startCapture (env : Env) (user : User) (s : Store) (effects0 : List Effect) : Outcome :=
  let userId := user.id
  let userLogin := userLoginOf user
  match env.dbThrows 3 with
  | some m => ⟨s, effects0, startRecordingCaught m (env.dbErrorType 3)⟩
  | none =>
  let serverId := serverIdOf s userId
  match env.dbThrows 4 with
  | some m => ⟨s, effects0, startRecordingCaught m (env.dbErrorType 4)⟩
  | none =>
  let wowzaHost := wowzaHostOf s serverId
  let streamUrl := "https://" ++ wowzaHost ++ "/" ++ userLogin ++ "/" ++ userLogin
    ++ "/playlist.m3u8"
  let recordingsDir := env.pathJoin ["/var/www/html/content", userLogin, "gravacoes"]
  let timestamp := recordingTimestamp env.isoString
  let fileName := "recording_" ++ timestamp ++ ".mp4"
  let fullPath := env.pathJoin [recordingsDir, fileName]
  let ffmpegArgs := ["-i", streamUrl, "-c", "copy", "-bsf:a", "aac_adtstoasc", "-y", fullPath]
  let effects1 := effects0 ++ [Effect.mkdir recordingsDir, Effect.spawn "ffmpeg" ffmpegArgs]
  match env.spawn "ffmpeg" ffmpegArgs with
  | SpawnResult.throws m type => ⟨s, effects1, startRecordingCaught m type⟩
  | SpawnResult.child pid =>
  match pid with
  | none => ⟨s, effects1, startRecordingCaught undefinedBindMessage "TypeError"⟩
  | some _ =>
  match env.dbThrows 5 with
  | some m => ⟨s, effects1, startRecordingCaught m (env.dbErrorType 5)⟩
  | none =>
    ⟨insertRecording s userId fileName fullPath (env.now 5) pid,
      effects1 ++ [Effect.dbWrite (DbWrite.insertRecording s.next_recording)],
      { status := 200, body := Json.obj [
          ("success", Json.bool true),
          ("recordingId", Json.num s.next_recording),
          ("fileName", Json.str fileName),
          ("fullPath", Json.str fullPath),
          ("message", Json.str "Gravação iniciada com sucesso"),
          ("streamUrl", Json.str streamUrl)] }⟩

/-- Second part of `/start-recording`, from the lookup of the active recording on: reject
when the owner has a session with status `recording`, else `startCapture`. -/
def startRecordingCheck (env : Env) (user : User) (s : Store) (effects0 : List Effect) :
    Outcome :=
  match env.dbThrows 2 with
  | some m => ⟨s, effects0, startRecordingCaught m (env.dbErrorType 2)⟩
  | none =>
  match selectActiveRecordings s user.id with
  | _ :: _ => ⟨s, effects0, { status := 200, body := Json.obj [("success", Json.bool false),
      ("error", Json.str "Já existe uma gravação em andamento")] }⟩
  | [] => startCapture env user s effects0

/-- Handler of `POST /start-recording`.  Statement 0 is `DESCRIBE recording_sessions`; when it
throws, statement 1 is `CREATE TABLE IF NOT EXISTS recording_sessions`, which adds no row. -/
def startRecording (env : Env) (user : User) (s : Store) : Outcome :=
  if user.id = 0 then
    ⟨s, [], { status := 400, body := Json.obj [("success", Json.bool false),
      ("error", Json.str "Usuário não identificado")] }⟩
  else
  match env.dbThrows 0 with
  | none => startRecordingCheck env user s []
  | some _ =>
    match env.dbThrows 1 with
    | some m => ⟨s, [], { status := 500, body := Json.obj [("success", Json.bool false),
        ("error", Json.str "Erro ao preparar sistema de gravação"), ("details", Json.str m)] }⟩
    | none => startRecordingCheck env user s [Effect.dbWrite DbWrite.createRecordingTable]

/-! ## POST /stop-recording -/

/-- Statement `UPDATE recording_sessions SET status = "stopped", data_fim = NOW(),
tamanho_arquivo = ? WHERE codigo = ?`. -/
def stopRecordingRow (s : Store) (codigo fileSize now : Nat) : Store :=
  { s with recording_sessions := s.recording_sessions.map (fun r =>
      if r.codigo = codigo then
        { r with status := RecordingStatus.stopped, data_fim := some now,
                 tamanho_arquivo := fileSize }
      else r) }

/-- Signal sent by `/stop-recording`: `process.kill(pid, 'SIGTERM')` when the session stores
a process id; an exception of the call is only logged. -/
def killEffects (recording : RecordingSession) : List Effect :=
  match truthyNat recording.process_id with
  | some pid => [Effect.kill pid "SIGTERM"]
  | none => []

/-- Size measured by `/stop-recording`: `fs.stat(path).size` when the session stores a path and
`fs.stat` does not throw, else the initial `0`. -/
def measuredSize (env : Env) (recording : RecordingSession) : Nat :=
  match truthyStr recording.caminho_completo with
  | some path => (env.statSize path).getD 0
  | none => 0

/-- The `fs.stat` call of `/stop-recording`, issued when the session stores a path. -/
def statEffects (recording : RecordingSession) : List Effect :=
  match truthyStr recording.caminho_completo with
  | some path => [Effect.stat path]
  | none => []

/-- Handler of `POST /stop-recording`. -/
def stopRecording (env : Env) (user : User) (s : Store) : Outcome :=
  match env.dbThrows 0 with
  | some m => ⟨s, [], caught "Erro ao parar gravação" m⟩
  | none =>
  match selectActiveRecordings s user.id with
  | [] => ⟨s, [], { status := 200, body := Json.obj [("success", Json.bool false),
      ("error", Json.str "Nenhuma gravação ativa encontrada")] }⟩
  | recording :: _ =>
  let fileSize := measuredSize env recording
  let effects := killEffects recording ++ [Effect.sleep 2000] ++ statEffects recording
  match env.dbThrows 1 with
  | some m => ⟨s, effects, caught "Erro ao parar gravação" m⟩
  | none =>
    ⟨stopRecordingRow s recording.codigo fileSize (env.now 1),
      effects ++ [Effect.dbWrite (DbWrite.updateRecording recording.codigo)],
      { status := 200, body := Json.obj [
          ("success", Json.bool true),
          ("message", Json.str "Gravação finalizada com sucesso"),
          ("fileName", Json.str recording.arquivo_destino),
          ("filePath", match recording.caminho_completo with
            | some path => Json.str path
            | none => Json.null),
          ("fileSize", Json.num fileSize),
          ("fileSizeMB", Json.str (env.toFixedMB fileSize))] }⟩

/-! ## Routes of `StreamingControlService`

The handlers `/ligar`, `/desligar`, `/bloquear`, `/desbloquear` and `/remover` issue no store
statement of their own: they check the request and delegate to `StreamingControlService`,
whose code is outside this module.  Their outcome is the list of service calls issued and the
response. -/

/-- JavaScript truthiness of a JSON value. -/
def Json.truthy (j : Json) : Bool :=
  match j with
  | Json.null => false
  | Json.bool b => b
  | Json.num n => n != 0
  | Json.str s => s != ""
  | Json.arr _ => true
  | Json.obj _ => true

/-- Truthiness of the member `k` of an object; a missing member is `undefined`. -/
def Json.truthyField (j : Json) (k : String) : Bool :=
  match j.field k with
  | some v => v.truthy
  | none => false

/-- Answer of an operation of `StreamingControlService`: the members of the result object, or
an exception.  A `null` or `undefined` result makes the handler throw as soon as it reads
`result.success`; that case is an exception too. -/
inductive ServiceAnswer where
  | result (fields : List (String × Json))
  | throws (message : String)

/-- Operations of `StreamingControlService` used by the five handlers. -/
structure Services where
  ligarStreaming : String → ServiceAnswer
  desligarStreaming : String → ServiceAnswer
  bloquearStreaming : String → String → ServiceAnswer
  desbloquearStreaming : String → String → ServiceAnswer
  removerStreaming : String → String → ServiceAnswer

/-- Calls issued to `StreamingControlService`, with their arguments. -/
inductive ServiceCall where
  | ligarStreaming (login : String)
  | desligarStreaming (login : String)
  | bloquearStreaming (login : String) (userType : String)
  | desbloquearStreaming (login : String) (userType : String)
  | removerStreaming (login : String) (userType : String)
  deriving DecidableEq, Repr

/-- Outcome of one of the five handlers. -/
structure ControlOutcome where
  calls : List ServiceCall
  response : Response

/-- Fields of the body read by the five handlers. -/
structure ControlBody where
  login : Option String
  deriving DecidableEq, Repr

/-- Role fields of `req.user`. -/
structure Actor where
  type : Option String
  tipo : Option String
  deriving DecidableEq, Repr

/-- Role of the actor, `req.user?.type || req.user?.tipo`. -/
def userTypeOf (actor : Actor) : Option String :=
  match truthyStr actor.type with
  | some t => some t
  | none => actor.tipo

/-- Response to a request without login. -/
def loginRequired : Response :=
  { status := 400, body := Json.obj [("success", Json.bool false),
      ("message", Json.str "Login do streaming é obrigatório")] }

/-- Response to an actor whose role is not sufficient. -/
def unauthorized : Response :=
  { status := 403, body := Json.obj [("success", Json.bool false),
      ("message", Json.str "Acesso não autorizado")] }

/-- Response of the `catch` block of the five handlers. -/
def controlCaught (message error : String) : Response :=
  { status := 500, body := Json.obj [("success", Json.bool false),
      ("message", Json.str message), ("error", Json.str error)] }

/-- Handler of `POST /ligar`. -/
def ligar (svc : Services) (body : ControlBody) : ControlOutcome :=
  match truthyStr body.login with
  | none => ⟨[], loginRequired⟩
  | some login =>
    match svc.ligarStreaming login with
    | ServiceAnswer.throws m =>
      ⟨[ServiceCall.ligarStreaming login], controlCaught "Erro interno ao ligar streaming" m⟩
    | ServiceAnswer.result fields =>
      let result := Json.obj fields
      if result.truthyField "success" then
        ⟨[ServiceCall.ligarStreaming login], { status := 200, body := result }⟩
      else
        ⟨[ServiceCall.ligarStreaming login],
          { status := if result.truthyField "alreadyActive" then 200 else 500,
            body := result }⟩

/-- Handler of `POST /desligar`. -/
def desligar (svc : Services) (body : ControlBody) : ControlOutcome :=
  match truthyStr body.login with
  | none => ⟨[], loginRequired⟩
  | some login =>
    match svc.desligarStreaming login with
    | ServiceAnswer.throws m =>
      ⟨[ServiceCall.desligarStreaming login],
        controlCaught "Erro interno ao desligar streaming" m⟩
    | ServiceAnswer.result fields =>
      let result := Json.obj fields
      if result.truthyField "success" then
        ⟨[ServiceCall.desligarStreaming login], { status := 200, body := result }⟩
      else
        ⟨[ServiceCall.desligarStreaming login],
          { status := if result.truthyField "alreadyInactive" then 200 else 500,
            body := result }⟩

/-- Common part of `/bloquear`, `/desbloquear` and `/remover`, which differ in the service
operation `operation` (logged as `call`) and in the message of the `catch` block: login
check, role check, service call, then 200 or 500 after `result.success`. -/
def restricted (operation : String → String → ServiceAnswer)
    (call : String → String → ServiceCall) (caughtMessage : String) (actor : Actor)
    (body : ControlBody) : ControlOutcome :=
  let userType := userTypeOf actor
  match truthyStr body.login with
  | none => ⟨[], loginRequired⟩
  | some login =>
    match truthyStr userType with
    | none => ⟨[], unauthorized⟩
    | some role =>
      if role ≠ "admin" ∧ role ≠ "revenda" then ⟨[], unauthorized⟩
      else
        match operation login role with
        | ServiceAnswer.throws m => ⟨[call login role], controlCaught caughtMessage m⟩
        | ServiceAnswer.result fields =>
          let result := Json.obj fields
          if result.truthyField "success" then
            ⟨[call login role], { status := 200, body := result }⟩
          else
            ⟨[call login role], { status := 500, body := result }⟩

/-- Handler of `POST /bloquear`. -/
def bloquear (svc : Services) (actor : Actor) (body : ControlBody) : ControlOutcome :=
  restricted svc.bloquearStreaming ServiceCall.bloquearStreaming
    "Erro interno ao bloquear streaming" actor body

/-- Handler of `POST /desbloquear`. -/
def desbloquear (svc : Services) (actor : Actor) (body : ControlBody) : ControlOutcome :=
  restricted svc.desbloquearStreaming ServiceCall.desbloquearStreaming
    "Erro interno ao desbloquear streaming" actor body

/-- Handler of `DELETE /remover`. -/
def remover (svc : Services) (actor : Actor) (body : ControlBody) : ControlOutcome :=
  restricted svc.removerStreaming ServiceCall.removerStreaming
    "Erro interno ao remover streaming" actor body

/-! ## POST /diagnostics -/

/-- Field of the body of `POST /diagnostics` that the handler reads. -/
structure DiagnosticsBody where
  testType : Option String
  deriving DecidableEq, Repr

/-- Entry pushed by the server test: the first row of
`SELECT * FROM wowza_servers WHERE codigo = ?` must exist and have status `ativo`. -/
def wowzaDiagnostic (s : Store) (serverId : Option Nat) : Json :=
  match s.wowza_servers.filter (fun w => some w.codigo = serverId) with
  | w :: _ =>
    if w.status = "ativo" then
      Json.obj [("status", Json.str "success"), ("title", Json.str "Servidor Wowza"),
        ("message", Json.str "Servidor está ativo e configurado corretamente"),
        ("details", Json.str ("Host: " ++ hostOf w))]
    else
      Json.obj [("status", Json.str "error"), ("title", Json.str "Servidor Wowza"),
        ("message", Json.str "Servidor não está ativo ou não configurado")]
  | [] =>
    Json.obj [("status", Json.str "error"), ("title", Json.str "Servidor Wowza"),
      ("message", Json.str "Servidor não está ativo ou não configurado")]

/-- Entry pushed by the link test. -/
def m3u8Diagnostic (userLogin : String) : Json :=
  Json.obj [("status", Json.str "success"), ("title", Json.str "Link M3U8"),
    ("message", Json.str "Link de transmissão configurado"),
    ("details", Json.str ("https://" ++ "stmv1.udicast.com" ++ "/" ++ userLogin ++ "/"
      ++ userLogin ++ "/playlist.m3u8"))]

/-- Entry pushed by the certificate test. -/
def sslDiagnostic : Json :=
  Json.obj [("status", Json.str "success"), ("title", Json.str "Certificado SSL"),
    ("message", Json.str "Certificado SSL válido e ativo")]

/-- Entry pushed when no test has run. -/
def noTestDiagnostic : Json :=
  Json.obj [("status", Json.str "warning"), ("title", Json.str "Nenhum teste executado"),
    ("message", Json.str "Selecione um tipo de diagnóstico válido")]

/-- Entries pushed by the selected tests, in order, for an owner with a streaming on the
server `serverId`. -/
def selectedDiagnostics (user : User) (testType : Option String) (s : Store)
    (serverId : Option Nat) : List Json :=
  (if testType = some "all" ∨ testType = some "wowza" then [wowzaDiagnostic s serverId] else [])
  ++ (if testType = some "all" ∨ testType = some "m3u8" then [m3u8Diagnostic (userLoginOf user)]
      else [])
  ++ (if testType = some "all" ∨ testType = some "ssl" then [sslDiagnostic] else [])

/-- Handler of `POST /diagnostics`.  Statement 0 reads the owner's streaming; statement 1, the
server lookup, is executed for the selectors `all` and `wowza` only. -/
def diagnostics (env : Env) (user : User) (body : DiagnosticsBody) (s : Store) : Outcome :=
  match env.dbThrows 0 with
  | some m => ⟨s, [], caught "Erro ao executar diagnóstico" m⟩
  | none =>
  match s.streamings.filter (fun r => r.codigo_cliente = user.id) with
  | [] =>
    ⟨s, [], { status := 200, body := Json.obj [("success", Json.bool true),
      ("results", Json.arr [Json.obj [("status", Json.str "error"),
        ("title", Json.str "Streaming não configurado"),
        ("message", Json.str "Usuário não possui streaming configurado no sistema")]])] }⟩
  | row :: _ =>
    let serverId := row.codigo_servidor
    match (if body.testType = some "all" ∨ body.testType = some "wowza" then env.dbThrows 1
      else none) with
    | some m => ⟨s, [], caught "Erro ao executar diagnóstico" m⟩
    | none =>
      let results := selectedDiagnostics user body.testType s serverId
      let results := if results.length = 0 then [noTestDiagnostic] else results
      ⟨s, [], { status := 200, body := Json.obj [("success", Json.bool true),
        ("results", Json.arr results)] }⟩

/-- Status of a diagnostic entry is one of `success`, `warning`, `error`. -/
def KnownStatus (entry : Json) : Prop :=
  entry.field "status" = some (Json.str "success")
    ∨ entry.field "status" = some (Json.str "warning")
    ∨ entry.field "status" = some (Json.str "error")

/-! ## GET /status -/

/-- Rows of the query of `GET /status` before ordering: each active transmission of the owner
joined (`LEFT JOIN playlists p ON t.codigo_playlist = p.id`) with the playlists of that id, or
with no playlist when there is none. -/
def statusRows (s : Store) (userId : Nat) : List (Transmissao × Option Playlist) :=
  (selectActiveTransmissions s userId).flatMap (fun t =>
    match s.playlists.filter (fun p => t.codigo_playlist = some p.id) with
    | [] => [(t, none)]
    | p :: ps => (p :: ps).map (fun q => (t, some q)))

/-- First row of the query of `GET /status`, `ORDER BY t.data_inicio DESC LIMIT 1`; among rows
with the same start timestamp, whose order the query leaves open, the earliest in the table
comes first. -/
def latestStatusRow (s : Store) (userId : Nat) : Option (Transmissao × Option Playlist) :=
  ((statusRows s userId).insertionSort
    (fun a b => b.1.data_inicio ≤ a.1.data_inicio)).head?

/-- Handler of `GET /status`.  The query selects `t.*` and then `p.id as codigo_playlist`: in
the row object the member `codigo_playlist` is the id of the joined playlist, `null` when the
join found none. -/
def status (env : Env) (user : User) (s : Store) : Response :=
  match env.dbThrows 0 with
  | some m =>
    { status := 500, body := Json.obj [("success", Json.bool false),
        ("message", Json.str "Erro interno ao verificar status"), ("error", Json.str m)] }
  | none =>
  match latestStatusRow s user.id with
  | none =>
    { status := 200, body := Json.obj [("is_live", Json.bool false),
        ("stream_type", Json.null), ("transmission", Json.null)] }
  | some (transmission, playlist) =>
    let codigo_playlist := playlist.map (fun p => p.id)
    { status := 200, body := Json.obj [
        ("is_live", Json.bool true),
        ("stream_type", match truthyNat codigo_playlist with
          | some _ => Json.str "playlist"
          | none => Json.str "obs"),
        ("transmission", Json.obj [
          ("id", Json.num transmission.codigo),
          ("titulo", match transmission.titulo with
            | some titulo => Json.str titulo
            | none => Json.null),
          ("codigo_playlist", match codigo_playlist with
            | some id => Json.num id
            | none => Json.null),
          ("stats", Json.obj [("viewers", Json.num 0), ("bitrate", Json.num 0),
            ("uptime", Json.str "00:00:00"), ("isActive", Json.bool true)]),
          ("platforms", Json.arr [])])] }

/-! ## GET /platforms -/

/-- Row of `streaming_platforms`, a table declared outside this module: the column `ativo`,
the column `nome`, and the other selected columns as the driver returns them. -/
structure StreamingPlatform where
  id : Json
  nome : String
  rtmp_base_url : Json
  requer_stream_key : Json
  supports_https : Json
  special_config : Json
  ativo : Nat

/-- Object returned for a row of `SELECT id, nome, rtmp_base_url, requer_stream_key,
supports_https, special_config FROM streaming_platforms`. -/
def StreamingPlatform.toJson (p : StreamingPlatform) : Json :=
  Json.obj [("id", p.id), ("nome", Json.str p.nome), ("rtmp_base_url", p.rtmp_base_url),
    ("requer_stream_key", p.requer_stream_key), ("supports_https", p.supports_https),
    ("special_config", p.special_config)]

/-- Array `defaultPlatforms` returned when the catalog has no active row. -/
def defaultPlatforms : List Json :=
  [Json.obj [("id", Json.str "youtube"), ("nome", Json.str "YouTube Live"),
      ("rtmp_base_url", Json.str "rtmp://a.rtmp.youtube.com/live2/"),
      ("requer_stream_key", Json.bool true), ("supports_https", Json.bool true)],
   Json.obj [("id", Json.str "facebook"), ("nome", Json.str "Facebook Live"),
      ("rtmp_base_url", Json.str "rtmps://live-api-s.facebook.com:443/rtmp/"),
      ("requer_stream_key", Json.bool true), ("supports_https", Json.bool true)],
   Json.obj [("id", Json.str "twitch"), ("nome", Json.str "Twitch"),
      ("rtmp_base_url", Json.str "rtmp://live.twitch.tv/app/"),
      ("requer_stream_key", Json.bool true), ("supports_https", Json.bool false)],
   Json.obj [("id", Json.str "custom"), ("nome", Json.str "Servidor Personalizado"),
      ("rtmp_base_url", Json.str ""),
      ("requer_stream_key", Json.bool true), ("supports_https", Json.bool false)]]

/-- Array `defaultPlatforms` of the `catch` block, returned when the read throws. -/
def defaultPlatformsCaught : List Json :=
  [Json.obj [("id", Json.str "youtube"), ("nome", Json.str "YouTube Live"),
      ("rtmp_base_url", Json.str "rtmp://a.rtmp.youtube.com/live2/"),
      ("requer_stream_key", Json.bool true), ("supports_https", Json.bool true)],
   Json.obj [("id", Json.str "facebook"), ("nome", Json.str "Facebook Live"),
      ("rtmp_base_url", Json.str "rtmps://live-api-s.facebook.com:443/rtmp/"),
      ("requer_stream_key", Json.bool true), ("supports_https", Json.bool true)],
   Json.obj [("id", Json.str "twitch"), ("nome", Json.str "Twitch"),
      ("rtmp_base_url", Json.str "rtmp://live.twitch.tv/app/"),
      ("requer_stream_key", Json.bool true), ("supports_https", Json.bool false)],
   Json.obj [("id", Json.str "custom"), ("nome", Json.str "Servidor Personalizado"),
      ("rtmp_base_url", Json.str ""),
      ("requer_stream_key", Json.bool true), ("supports_https", Json.bool false)]]

/-- Rows of `SELECT ... FROM streaming_platforms WHERE ativo = 1 ORDER BY nome`, where `le` is
the order of the collation of the column `nome`. -/
def selectActivePlatforms (le : String → String → Bool) (table : List StreamingPlatform) :
    List StreamingPlatform :=
  (table.filter (fun p => p.ativo = 1)).insertionSort (fun a b => le a.nome b.nome = true)

/-- Handler of `GET /platforms` over the catalog `table`. -/
def platforms (env : Env) (le : String → String → Bool) (table : List StreamingPlatform) :
    Response :=
  match env.dbThrows 0 with
  | some _ =>
    { status := 200, body := Json.obj [("success", Json.bool true),
        ("platforms", Json.arr defaultPlatformsCaught)] }
  | none =>
  match selectActivePlatforms le table with
  | [] =>
    { status := 200, body := Json.obj [("success", Json.bool true),
        ("platforms", Json.arr defaultPlatforms)] }
  | row :: rows =>
    { status := 200, body := Json.obj [("success", Json.bool true),
        ("platforms", Json.arr ((row :: rows).map StreamingPlatform.toJson))] }

/-! ## Effects by kind and values bound by `/start-recording` -/

/-- Whether an effect is a command executed on the remote channel. -/
def Effect.isExecuteCommand (e : Effect) : Bool :=
  match e with
  | Effect.executeCommand _ _ => true
  | _ => false

/-- Whether an effect is a signal sent to a process. -/
def Effect.isKill (e : Effect) : Bool :=
  match e with
  | Effect.kill _ _ => true
  | _ => false

/-- Whether an effect is the spawn of a process. -/
def Effect.isSpawn (e : Effect) : Bool :=
  match e with
  | Effect.spawn _ _ => true
  | _ => false

/-- Value of `streamUrl` in `/start-recording`. -/
def streamUrlOf (s : Store) (user : User) : String :=
  "https://" ++ wowzaHostOf s (serverIdOf s user.id) ++ "/" ++ userLoginOf user ++ "/"
    ++ userLoginOf user ++ "/playlist.m3u8"

/-- Value of `fileName` in `/start-recording`. -/
def recordingFileName (env : Env) : String :=
  "recording_" ++ recordingTimestamp env.isoString ++ ".mp4"

/-- Value of `fullPath` in `/start-recording`. -/
def recordingFullPath (env : Env) (user : User) : String :=
  env.pathJoin [env.pathJoin ["/var/www/html/content", userLoginOf user, "gravacoes"],
    recordingFileName env]

/-- Value of `ffmpegArgs` in `/start-recording`. -/
def ffmpegArgsOf (env : Env) (user : User) (s : Store) : List String :=
  ["-i", streamUrlOf s user, "-c", "copy", "-bsf:a", "aac_adtstoasc", "-y",
    recordingFullPath env user]

/-! ## Overlapping calls

The statements of a handler are separated by `await`, and each statement is committed on its
own: between two statements of one call, statements of another call may execute.  The
definitions below are the two start handlers in which the `SELECT` statements are answered
from a store `sRead` and the `UPDATE` and `INSERT` statements are applied to a store `sWrite`,
the store as other calls have left it between the reads and the writes of this call.  With
`sWrite = sRead` they are the handlers themselves. -/

/-- Second part of `/start` with reads from `sRead` and writes on `sWrite`; see
`startTransmission`. -/
def startTransmissionOn (env : Env) (user : User) (body : StartBody) (sRead sWrite : Store)
    (playlist : Playlist) (playlist_id total : Nat) (serverId : Option Nat) (servidor : String) :
    Outcome :=
  match env.dbThrows 4 with
  | some m => ⟨sWrite, [], startCaught m⟩
  | none =>
  match selectActiveTransmissions sRead user.id with
  | [] => startInsert env user body sWrite [] playlist playlist_id total serverId servidor
  | active :: _ =>
    match env.dbThrows 5 with
    | some m => ⟨sWrite, [], startCaught m⟩
    | none =>
      startInsert env user body (finalizeTransmission sWrite active.codigo (env.now 5))
        [Effect.dbWrite (DbWrite.updateTransmissao active.codigo)]
        playlist playlist_id total serverId servidor

/-- Handler of `POST /start` with reads from `sRead` and writes on `sWrite`; see `start`. -/
def startOn (env : Env) (user : User) (body : StartBody) (sRead sWrite : Store) : Outcome :=
  let userId := user.id
  match truthyNat body.playlist_id with
  | none => ⟨sWrite, [], { status := 400, body := Json.obj [("success", Json.bool false),
      ("error", Json.str "ID da playlist é obrigatório")] }⟩
  | some playlist_id =>
  match env.dbThrows 0 with
  | some m => ⟨sWrite, [], startCaught m⟩
  | none =>
  match selectPlaylists sRead playlist_id userId with
  | [] => ⟨sWrite, [], { status := 404, body := Json.obj [("success", Json.bool false),
      ("error", Json.str "Playlist não encontrada")] }⟩
  | playlist :: _ =>
  match env.dbThrows 1 with
  | some m => ⟨sWrite, [], startCaught m⟩
  | none =>
  let total := countPlaylistVideos sRead playlist_id userId
  if total = 0 then
    ⟨sWrite, [], { status := 400, body := Json.obj [("success", Json.bool false),
      ("error", Json.str
        "A playlist não possui vídeos. Adicione vídeos antes de iniciar a transmissão.")] }⟩
  else
  match env.dbThrows 2 with
  | some m => ⟨sWrite, [], startCaught m⟩
  | none =>
  let serverId := serverIdOf sRead userId
  match env.dbThrows 3 with
  | some m => ⟨sWrite, [], startCaught m⟩
  | none =>
  match selectActiveServers sRead serverId with
  | [] => ⟨sWrite, [], { status := 500, body := Json.obj [("success", Json.bool false),
      ("error", Json.str "Servidor não encontrado ou inativo")] }⟩
  | server :: _ =>
  startTransmissionOn env user body sRead sWrite playlist playlist_id total serverId
    (hostOf server)

/-- Last part of `/start-recording` with reads from `sRead` and the insertion on `sWrite`; see
`startCapture`. -/
def startCaptureOn (env : Env) (user : User) (sRead sWrite : Store) (effects0 : List Effect) :
    Outcome :=
  let userId := user.id
  let userLogin := userLoginOf user
  match env.dbThrows 3 with
  | some m => ⟨sWrite, effects0, startRecordingCaught m (env.dbErrorType 3)⟩
  | none =>
  let serverId := serverIdOf sRead userId
  match env.dbThrows 4 with
  | some m => ⟨sWrite, effects0, startRecordingCaught m (env.dbErrorType 4)⟩
  | none =>
  let wowzaHost := wowzaHostOf sRead serverId
  let streamUrl := "https://" ++ wowzaHost ++ "/" ++ userLogin ++ "/" ++ userLogin
    ++ "/playlist.m3u8"
  let recordingsDir := env.pathJoin ["/var/www/html/content", userLogin, "gravacoes"]
  let timestamp := recordingTimestamp env.isoString
  let fileName := "recording_" ++ timestamp ++ ".mp4"
  let fullPath := env.pathJoin [recordingsDir, fileName]
  let ffmpegArgs := ["-i", streamUrl, "-c", "copy", "-bsf:a", "aac_adtstoasc", "-y", fullPath]
  let effects1 := effects0 ++ [Effect.mkdir recordingsDir, Effect.spawn "ffmpeg" ffmpegArgs]
  match env.spawn "ffmpeg" ffmpegArgs with
  | SpawnResult.throws m type => ⟨sWrite, effects1, startRecordingCaught m type⟩
  | SpawnResult.child pid =>
  match pid with
  | none => ⟨sWrite, effects1, startRecordingCaught undefinedBindMessage "TypeError"⟩
  | some _ =>
  match env.dbThrows 5 with
  | some m => ⟨sWrite, effects1, startRecordingCaught m (env.dbErrorType 5)⟩
  | none =>
    ⟨insertRecording sWrite userId fileName fullPath (env.now 5) pid,
      effects1 ++ [Effect.dbWrite (DbWrite.insertRecording sWrite.next_recording)],
      { status := 200, body := Json.obj [
          ("success", Json.bool true),
          ("recordingId", Json.num sWrite.next_recording),
          ("fileName", Json.str fileName),
          ("fullPath", Json.str fullPath),
          ("message", Json.str "Gravação iniciada com sucesso"),
          ("streamUrl", Json.str streamUrl)] }⟩

/-- Second part of `/start-recording` with reads from `sRead` and writes on `sWrite`; see
`startRecordingCheck`. -/
def startRecordingCheckOn (env : Env) (user : User) (sRead sWrite : Store)
    (effects0 : List Effect) : Outcome :=
  match env.dbThrows 2 with
  | some m => ⟨sWrite, effects0, startRecordingCaught m (env.dbErrorType 2)⟩
  | none =>
  match selectActiveRecordings sRead user.id with
  | _ :: _ => ⟨sWrite, effects0, { status := 200, body := Json.obj [("success", Json.bool false),
      ("error", Json.str "Já existe uma gravação em andamento")] }⟩
  | [] => startCaptureOn env user sRead sWrite effects0

/-- Handler of `POST /start-recording` with reads from `sRead` and writes on `sWrite`; see
`startRecording`. -/
def startRecordingOn (env : Env) (user : User) (sRead sWrite : Store) : Outcome :=
  if user.id = 0 then
    ⟨sWrite, [], { status := 400, body := Json.obj [("success", Json.bool false),
      ("error", Json.str "Usuário não identificado")] }⟩
  else
  match env.dbThrows 0 with
  | none => startRecordingCheckOn env user sRead sWrite []
  | some _ =>
    match env.dbThrows 1 with
    | some m => ⟨sWrite, [], { status := 500, body := Json.obj [("success", Json.bool false),
        ("error", Json.str "Erro ao preparar sistema de gravação"), ("details", Json.str m)] }⟩
    | none =>
      startRecordingCheckOn env user sRead sWrite [Effect.dbWrite DbWrite.createRecordingTable]

/-! ## Rows kept by a call -/

/-- Row `t'` is the row `t` up to its status and its end timestamp: same identity, owner,
title, description, playlist, start timestamp and kind. -/
def SameTransmission (t t' : Transmissao) : Prop :=
  t'.codigo = t.codigo ∧ t'.codigo_stm = t.codigo_stm ∧ t'.titulo = t.titulo
    ∧ t'.descricao = t.descricao ∧ t'.codigo_playlist = t.codigo_playlist
    ∧ t'.data_inicio = t.data_inicio ∧ t'.tipo_transmissao = t.tipo_transmissao

/-- Every transmission of `s` is kept in `s'`, in the same position and up to its status and
end timestamp; `s'` may hold further rows, after them. -/
def TransmissionsKept (s s' : Store) : Prop :=
  ∃ kept added : List Transmissao,
    s'.transmissoes = kept ++ added ∧ List.Forall₂ SameTransmission s.transmissoes kept

/-! ## Every route of the module and the store

The module registers 26 routes.  Four of them issue write statements, on `transmissoes`
(`/start`, `/stop`) and on `recording_sessions` (`/start-recording`, `/stop-recording`); the
others issue `SELECT` statements only, or no statement, and some call an operation of
`StreamingControlService` or of `WowzaLiveManager`. -/

/-- Modelled from the spec: the store left by an operation of `StreamingControlService` or of
`WowzaLiveManager`, whose code is outside this module.  The spec has these operations act on
the power state of the endpoint, on the Endpoint Configuration (block, unblock, remove), on
the manifest (reload) and on the social live sessions; it has a Transmission created by start,
mutated to finished by stop or by a new start, and "never physically deleted".  Of the
tables of the store, such an operation may therefore rewrite the endpoint configuration
`streamings`, in any way (`rewrite`), and leaves the other tables as they are. -/
def afterService (rewrite : List Streaming → List Streaming) (s : Store) : Store :=
  { s with streamings := rewrite s.streamings }

/-- Store after the service calls `calls`, in order. -/
def afterCalls (rewrite : List Streaming → List Streaming) (calls : List ServiceCall)
    (s : Store) : Store :=
  calls.foldl (fun store _ => afterService rewrite store) s

/-- A request to one of the 26 routes of the module, with the part of the request on which
the statements and service calls issued by the route depend. -/
inductive Request where
  /-- Route `POST /ligar`. -/
  | ligar (body : ControlBody)
  /-- Route `POST /desligar`. -/
  | desligar (body : ControlBody)
  /-- Route `POST /reiniciar`. -/
  | reiniciar (body : ControlBody)
  /-- Route `POST /bloquear`. -/
  | bloquear (actor : Actor) (body : ControlBody)
  /-- Route `POST /desbloquear`. -/
  | desbloquear (actor : Actor) (body : ControlBody)
  /-- Route `DELETE /remover`. -/
  | remover (actor : Actor) (body : ControlBody)
  /-- Route `GET /status/:login`. -/
  | statusLogin (login : Option String)
  /-- Route `GET /status`. -/
  | status
  /-- Route `POST /start`. -/
  | start (body : StartBody)
  /-- Route `POST /stop`. -/
  | stop (body : StopBody)
  /-- Route `GET /list`. -/
  | list
  /-- Route `GET /platforms`. -/
  | platforms
  /-- Route `GET /lives`. -/
  | lives
  /-- Route `GET /obs-status`. -/
  | obsStatus
  /-- Route `POST /recarregar-playlists`. -/
  | recarregarPlaylists (body : ControlBody)
  /-- Route `POST /start-live`. -/
  | startLive
  /-- Route `POST /stop-live/:liveId`. -/
  | stopLive
  /-- Route `DELETE /remove-live/:liveId`. -/
  | removeLive
  /-- Route `POST /restart-live/:liveId`. -/
  | restartLive
  /-- Route `GET /live-status/:liveId`. -/
  | liveStatus
  /-- Route `GET /lives-active`. -/
  | livesActive
  /-- Route `GET /recording-status`. -/
  | recordingStatus
  /-- Route `POST /start-recording`. -/
  | startRecording
  /-- Route `POST /stop-recording`. -/
  | stopRecording
  /-- Route `POST /diagnostics`. -/
  | diagnostics (body : DiagnosticsBody)
  /-- Route `GET /source-urls`. -/
  | sourceUrls

/-- Store after the handling of a request.
* `/start`, `/stop`, `/start-recording`, `/stop-recording`, `/diagnostics`: the store of the
  outcome of the handler.
* `/ligar`, `/desligar`, `/bloquear`, `/desbloquear`, `/remover`: no statement; the store after
  the service calls of the handler.
* `/reiniciar`, `/recarregar-playlists`: no statement; without login the handler returns, else
  it calls `reiniciarStreaming`, respectively `recarregarPlaylistsAgendamentos`.
* `/status/:login`: without login the handler returns; else statement 0 is
  `SELECT * FROM configuracoes LIMIT 1` and, unless it throws, `verificarStatus` is called.
* `/start-live`, `/stop-live`, `/remove-live`, `/restart-live`, `/live-status`, `/lives-active`:
  no statement; one operation of `WowzaLiveManager` is called.
* `/status`, `/list`, `/platforms`, `/lives`, `/obs-status`, `/recording-status`,
  `/source-urls`: `SELECT` statements only, and no service call. -/
def storeAfter (env : Env) (svc : Services) (rewrite : List Streaming → List Streaming)
    (user : User) (request : Request) (s : Store) : Store :=
  match request with
  | Request.ligar body => afterCalls rewrite (ligar svc body).calls s
  | Request.desligar body => afterCalls rewrite (desligar svc body).calls s
  | Request.reiniciar body =>
    match truthyStr body.login with
    | none => s
    | some _ => afterService rewrite s
  | Request.bloquear actor body => afterCalls rewrite (bloquear svc actor body).calls s
  | Request.desbloquear actor body => afterCalls rewrite (desbloquear svc actor body).calls s
  | Request.remover actor body => afterCalls rewrite (remover svc actor body).calls s
  | Request.statusLogin login =>
    match truthyStr login with
    | none => s
    | some _ =>
      match env.dbThrows 0 with
      | some _ => s
      | none => afterService rewrite s
  | Request.status => s
  | Request.start body => (start env user body s).store
  | Request.stop body => (stop env user body s).store
  | Request.list => s
  | Request.platforms => s
  | Request.lives => s
  | Request.obsStatus => s
  | Request.recarregarPlaylists body =>
    match truthyStr body.login with
    | none => s
    | some _ => afterService rewrite s
  | Request.startLive => afterService rewrite s
  | Request.stopLive => afterService rewrite s
  | Request.removeLive => afterService rewrite s
  | Request.restartLive => afterService rewrite s
  | Request.liveStatus => afterService rewrite s
  | Request.livesActive => afterService rewrite s
  | Request.recordingStatus => s
  | Request.startRecording => (startRecording env user s).store
  | Request.stopRecording => (stopRecording env user s).store
  | Request.diagnostics body => (diagnostics env user body s).store
  | Request.sourceUrls => s

/-! ## Invariants of the session tables -/

/-- Each owner has at most one transmission with status `ativa`. -/
def OneActiveTransmission (s : Store) : Prop :=
  ∀ owner : Nat, (selectActiveTransmissions s owner).length ≤ 1

/-- Each owner has at most one recording session with status `recording`. -/
def OneActiveRecording (s : Store) : Prop :=
  ∀ owner : Nat, (selectActiveRecordings s owner).length ≤ 1

/-- Executable form of `OneActiveTransmission`: the owner of each row has at most one active
transmission. -/
def oneActiveTransmissionCheck (s : Store) : Bool :=
  s.transmissoes.all (fun t => (selectActiveTransmissions s t.codigo_stm).length ≤ 1)

/-- Executable form of `OneActiveRecording`. -/
def oneActiveRecordingCheck (s : Store) : Bool :=
  s.recording_sessions.all (fun r => (selectActiveRecordings s r.codigo_stm).length ≤ 1)

/-! ## A concrete scenario

Owner 7 (`joao`) has playlist 3 with one video of theirs, an active server and the active
transmission 10; owner 8 (`maria`) has the active transmission 11, the playlist 4 and the
recording session 21 in progress. -/

/-- Environment in which no store statement throws, with the given answer of the manifest
service and the given process id of the spawned child. -/
def demoEnv (smil : SmilResult) (pid : Option Nat) : Env :=
  { dbThrows := fun _ => none,
    dbErrorType := fun _ => "Error",
    now := fun k => 1000 + k,
    generatePlaylistSMIL := fun _ _ _ _ => smil,
    executeCommand := fun _ _ => SshResult.result "loaded" "",
    production := false,
    pathJoin := fun parts => "/".intercalate parts,
    mkdirThrows := fun _ => false,
    isoString := "2024-01-02T03:04:05.678Z",
    spawn := fun _ _ => SpawnResult.child pid,
    killThrows := fun _ _ => true,
    statSize := fun _ => none,
    toFixedMB := fun _ => "0.00" }

/-- Owner 7. -/
def joao : User := { id := 7, usuario := some "joao" }

/-- Owner 8. -/
def maria : User := { id := 8, usuario := some "maria" }

/-- Active server 1 of the scenario. -/
def demoServer : WowzaServer :=
  { codigo := 1, ip := "10.0.0.1", dominio := some "stm.example.com", status := "ativo" }

/-- Active transmission 10 of owner 7. -/
def demoTransmission10 : Transmissao :=
  { codigo := 10, codigo_stm := 7, titulo := some "Ao vivo", descricao := "",
    codigo_playlist := some 3, status := TransmissaoStatus.ativa, data_inicio := 900,
    data_fim := none, tipo_transmissao := "playlist" }

/-- Active transmission 11 of owner 8. -/
def demoTransmission11 : Transmissao :=
  { codigo := 11, codigo_stm := 8, titulo := some "Show", descricao := "",
    codigo_playlist := some 4, status := TransmissaoStatus.ativa, data_inicio := 950,
    data_fim := none, tipo_transmissao := "playlist" }

/-- Recording session 21 of owner 8, in progress. -/
def demoRecording21 : RecordingSession :=
  { codigo := 21, codigo_stm := 8, arquivo_destino := "recording_a.mp4",
    caminho_completo := some "/var/www/html/content/maria/gravacoes/recording_a.mp4",
    status := RecordingStatus.recording, data_inicio := 960, data_fim := none,
    tamanho_arquivo := 0, process_id := some 4242 }

/-- Store of the scenario. -/
def demoStore : Store :=
  { playlists := [{ id := 3, nome := "Manhã", codigo_stm := 7 },
      { id := 4, nome := "Tarde", codigo_stm := 8 }],
    playlist_videos := [{ playlist_id := 3, video_id := 1 }],
    videos := [{ id := 1, codigo_cliente := 7 }],
    streamings := [{ codigo_cliente := 7, codigo_servidor := some 1 }],
    wowza_servers := [demoServer],
    transmissoes := [demoTransmission10, demoTransmission11],
    next_transmissao := 12,
    recording_sessions := [demoRecording21],
    next_recording := 22 }

/-- Remote channel on which the owner's application is not loaded (the running-check answers
an empty output) and the activation command answers `out`. -/
def demoChannel (out : String) : Option Nat → String → SshResult :=
  fun _ command =>
    if includes command "startAppInstance" = true then SshResult.result out ""
    else SshResult.result "" ""

/-- Remote channel that throws on every command. -/
def demoChannelDown : Option Nat → String → SshResult :=
  fun _ _ => SshResult.throws "connect ETIMEDOUT"

/-- Store of the scenario in which owner 7 also has the playlist 5, with the same video. -/
def demoStore2 : Store :=
  { demoStore with
    playlists := { id := 5, nome := "Noite", codigo_stm := 7 } :: demoStore.playlists,
    playlist_videos := { playlist_id := 5, video_id := 1 } :: demoStore.playlist_videos }

/-- Service whose endpoint is already on and already unblocked: `ligarStreaming` reports
`alreadyActive`, every other operation succeeds. -/
def demoServices : Services :=
  { ligarStreaming := fun _ => ServiceAnswer.result [("success", Json.bool false),
      ("alreadyActive", Json.bool true), ("message", Json.str "Streaming já está ligado")],
    desligarStreaming := fun _ => ServiceAnswer.result [("success", Json.bool true)],
    bloquearStreaming := fun _ _ => ServiceAnswer.result [("success", Json.bool true)],
    desbloquearStreaming := fun _ _ => ServiceAnswer.result [("success", Json.bool true)],
    removerStreaming := fun _ _ => ServiceAnswer.result [("success", Json.bool true)] }

/-- Catalog with one active platform and one inactive platform. -/
def demoCatalog : List StreamingPlatform :=
  [{ id := Json.num 1, nome := "YouTube", rtmp_base_url := Json.str "rtmp://a.rtmp.youtube.com/live2/",
     requer_stream_key := Json.num 1, supports_https := Json.num 1, special_config := Json.null,
     ativo := 1 },
   { id := Json.num 2, nome := "Antiga", rtmp_base_url := Json.str "rtmp://old.example.com/live/",
     requer_stream_key := Json.num 1, supports_https := Json.num 0, special_config := Json.null,
     ativo := 0 }]

/-- Store of the scenario in which the server of owner 7 is not active. -/
def demoStoreServerDown : Store :=
  { demoStore with wowza_servers := [{ demoServer with status := "inativo" }] }

/-- Active server 2, on another host. -/
def demoServer2 : WowzaServer :=
  { codigo := 2, ip := "10.0.0.2", dominio := some "stm2.example.com", status := "ativo" }

/-- Store of the scenario in which the streaming of owner 7 is on server 2, server 1 being
there too. -/
def demoStoreTwoServers : Store :=
  { demoStore with
    streamings := [{ codigo_cliente := 7, codigo_servidor := some 2 }],
    wowza_servers := [demoServer, demoServer2] }

/-- Body of a `/start` request for playlist 3. -/
def demoStart : StartBody := { titulo := some "Novo", descricao := none, playlist_id := some 3 }

/-! # Properties -/

/-! ## Active transmissions under the two statements -/

theorem filter_active_map_finalize (l : List Transmissao) (codigo now owner : Nat) :
    (l.map (fun t =>
        if t.codigo = codigo then
          { t with status := TransmissaoStatus.finalizada, data_fim := some now }
        else t)).filter (fun t => t.codigo_stm = owner ∧ t.status = TransmissaoStatus.ativa)
      = (l.filter (fun t => t.codigo_stm = owner ∧ t.status = TransmissaoStatus.ativa)).filter
          (fun t => t.codigo ≠ codigo) := by
  induction l with
  | nil => rfl
  | cons t ts ih =>
    rw [List.map_cons, List.filter_cons, ih]
    by_cases hc : t.codigo = codigo
    · by_cases ha : t.codigo_stm = owner ∧ t.status = TransmissaoStatus.ativa
      · simp [List.filter_cons, hc, ha]
      · simp [List.filter_cons, hc, ha]
    · by_cases ha : t.codigo_stm = owner ∧ t.status = TransmissaoStatus.ativa
      · simp [List.filter_cons, hc, ha]
      · simp [List.filter_cons, hc, ha]

theorem selectActive_finalize (s : Store) (codigo now owner : Nat) :
    selectActiveTransmissions (finalizeTransmission s codigo now) owner
      = (selectActiveTransmissions s owner).filter (fun t => t.codigo ≠ codigo) :=
  filter_active_map_finalize s.transmissoes codigo now owner

theorem selectActive_insert (s : Store) (userId : Nat) (titulo : Option String)
    (descricao : String) (playlist_id now owner : Nat) :
    selectActiveTransmissions (insertTransmission s userId titulo descricao playlist_id now) owner
      = selectActiveTransmissions s owner
        ++ (if userId = owner then [newTransmission s userId titulo descricao playlist_id now]
            else []) := by
  unfold selectActiveTransmissions insertTransmission
  by_cases h : userId = owner
  · simp [List.filter_append, List.filter_cons, newTransmission, h]
  · simp [List.filter_append, List.filter_cons, newTransmission, h]

theorem oneActive_finalize (s : Store) (codigo now : Nat) (h : OneActiveTransmission s) :
    OneActiveTransmission (finalizeTransmission s codigo now) := by
  intro owner
  rw [selectActive_finalize]
  exact le_trans (List.length_filter_le _ _) (h owner)

theorem oneActive_insert (s : Store) (userId : Nat) (titulo : Option String)
    (descricao : String) (playlist_id now : Nat) (h : OneActiveTransmission s)
    (hnone : selectActiveTransmissions s userId = []) :
    OneActiveTransmission (insertTransmission s userId titulo descricao playlist_id now) := by
  intro owner
  rw [selectActive_insert]
  by_cases ho : userId = owner
  · subst ho
    simp [hnone]
  · simpa [ho] using h owner

theorem selectActive_finalize_head (s : Store) (userId now : Nat) (active : Transmissao)
    (rest : List Transmissao) (h : OneActiveTransmission s)
    (hsel : selectActiveTransmissions s userId = active :: rest) :
    selectActiveTransmissions (finalizeTransmission s active.codigo now) userId = [] := by
  have hlen := h userId
  rw [hsel] at hlen
  have hrest : rest = [] := by
    cases rest with
    | nil => rfl
    | cons r rs => simp at hlen
  rw [selectActive_finalize, hsel, hrest]
  simp

theorem oneActive_startInsert (env : Env) (user : User) (body : StartBody) (s1 : Store)
    (effects1 : List Effect) (playlist : Playlist) (playlist_id total : Nat)
    (serverId : Option Nat) (servidor : String) (h : OneActiveTransmission s1)
    (hnone : selectActiveTransmissions s1 user.id = []) :
    OneActiveTransmission
      (startInsert env user body s1 effects1 playlist playlist_id total serverId servidor).store := by
  have hins := oneActive_insert s1 user.id body.titulo (body.descricao.getD "") playlist_id
    (env.now 6) h hnone
  unfold startInsert
  repeat' first | split | dsimp only
  all_goals first
    | exact h
    | exact hins

theorem oneActive_startTransmission (env : Env) (user : User) (body : StartBody) (s : Store)
    (playlist : Playlist) (playlist_id total : Nat) (serverId : Option Nat) (servidor : String)
    (h : OneActiveTransmission s) :
    OneActiveTransmission
      (startTransmission env user body s playlist playlist_id total serverId servidor).store := by
  unfold startTransmission
  split
  · exact h
  · split
    · next hsel => exact oneActive_startInsert _ _ _ _ _ _ _ _ _ _ h hsel
    · next active rest hsel =>
      split
      · exact h
      · exact oneActive_startInsert _ _ _ _ _ _ _ _ _ _ (oneActive_finalize _ _ _ h)
          (selectActive_finalize_head s user.id _ active rest h hsel)

theorem oneActive_start (env : Env) (user : User) (body : StartBody) (s : Store)
    (h : OneActiveTransmission s) : OneActiveTransmission (start env user body s).store := by
  unfold start
  repeat' first | split | dsimp only
  all_goals first
    | exact h
    | exact oneActive_startTransmission _ _ _ _ _ _ _ _ _ h

theorem oneActive_stop (env : Env) (user : User) (body : StopBody) (s : Store)
    (h : OneActiveTransmission s) : OneActiveTransmission (stop env user body s).store := by
  unfold stop
  repeat' first | split | dsimp only
  all_goals first
    | exact h
    | exact oneActive_finalize _ _ _ h

theorem oneActive_of_check (s : Store) (h : oneActiveTransmissionCheck s = true) :
    OneActiveTransmission s := by
  intro owner
  cases hsel : selectActiveTransmissions s owner with
  | nil => simp
  | cons t ts =>
    have hmem : t ∈ selectActiveTransmissions s owner := by simp [hsel]
    unfold selectActiveTransmissions at hmem
    rw [List.mem_filter] at hmem
    have hown : t.codigo_stm = owner := by simpa using (of_decide_eq_true hmem.2).1
    unfold oneActiveTransmissionCheck at h
    rw [List.all_eq_true] at h
    have := h t hmem.1
    rw [hown, hsel] at this
    simpa using this

/-- C1: from a store in which each owner has at most one transmission with status `ativa`,
any single call of the `/start` handler or of the `/stop` handler, whatever the request and
whatever the store, the manifest service and the remote channel answer (so whether the call
ends in success or in a failure response), leads to a store in which each owner again has at
most one transmission with status `ativa`. -/
theorem one_active_transmission_preserved (env : Env) (user : User) (s : Store)
    (h : OneActiveTransmission s) :
    (∀ body : StartBody, OneActiveTransmission (start env user body s).store) ∧
    (∀ body : StopBody, OneActiveTransmission (stop env user body s).store) :=
  ⟨fun body => oneActive_start env user body s h, fun body => oneActive_stop env user body s h⟩

/-- Witness of C1 in the concrete scenario. -/
theorem one_active_transmission_preserved_witness :
    OneActiveTransmission demoStore ∧
    OneActiveTransmission (start (demoEnv SmilResult.success none) joao demoStart demoStore).store ∧
    OneActiveTransmission
      (stop (demoEnv SmilResult.success none) joao { transmission_id := some 10 } demoStore).store :=
  have h := one_active_transmission_preserved (demoEnv SmilResult.success none) joao demoStore
    (oneActive_of_check demoStore (by decide))
  ⟨oneActive_of_check demoStore (by decide), h.1 demoStart, h.2 { transmission_id := some 10 }⟩

/-! ## The write path of `/start` -/

theorem start_eq_startTransmission (env : Env) (user : User) (body : StartBody) (s : Store)
    (pid : Nat) (playlist : Playlist) (playlists : List Playlist) (server : WowzaServer)
    (servers : List WowzaServer)
    (hpid : truthyNat body.playlist_id = some pid)
    (hpl : selectPlaylists s pid user.id = playlist :: playlists)
    (hvid : countPlaylistVideos s pid user.id ≠ 0)
    (hsrv : selectActiveServers s (serverIdOf s user.id) = server :: servers)
    (hdb : ∀ k, env.dbThrows k = none) :
    start env user body s
      = startTransmission env user body s playlist pid (countPlaylistVideos s pid user.id)
          (serverIdOf s user.id) (hostOf server) := by
  unfold start
  simp only [hpid, hdb, hpl, hsrv, if_neg hvid]

theorem startInsert_store (env : Env) (user : User) (body : StartBody) (s1 : Store)
    (effects1 : List Effect) (playlist : Playlist) (playlist_id total : Nat)
    (serverId : Option Nat) (servidor : String) (hdb : env.dbThrows 6 = none) :
    (startInsert env user body s1 effects1 playlist playlist_id total serverId servidor).store
      = insertTransmission s1 user.id body.titulo (body.descricao.getD "") playlist_id
          (env.now 6) := by
  unfold startInsert
  simp only [hdb]
  split <;> rfl

theorem startInsert_effects (env : Env) (user : User) (body : StartBody) (s1 : Store)
    (effects1 : List Effect) (playlist : Playlist) (playlist_id total : Nat)
    (serverId : Option Nat) (servidor : String) (hdb : env.dbThrows 6 = none) :
    ∃ tail,
      (startInsert env user body s1 effects1 playlist playlist_id total serverId servidor).effects
        = effects1 ++ Effect.dbWrite (DbWrite.insertTransmissao s1.next_transmissao) :: tail := by
  unfold startInsert
  simp only [hdb]
  split
  · exact ⟨Effect.generatePlaylistSMIL user.id (userLoginOf user) serverId playlist_id
      :: activateApplication env serverId (userLoginOf user), by simp⟩
  · exact ⟨_, rfl⟩
  · exact ⟨_, rfl⟩

theorem startInsert_success (env : Env) (user : User) (body : StartBody) (s1 : Store)
    (effects1 : List Effect) (playlist : Playlist) (playlist_id total : Nat)
    (serverId : Option Nat) (servidor : String) (hdb : env.dbThrows 6 = none)
    (hsmil : env.generatePlaylistSMIL user.id (userLoginOf user) serverId playlist_id
      = SmilResult.success) :
    (startInsert env user body s1 effects1 playlist playlist_id total serverId servidor).response
      = startSuccess env playlist playlist_id total servidor (userLoginOf user)
          s1.next_transmissao := by
  unfold startInsert
  simp only [hdb, hsmil]

theorem mem_finalize_of_mem (s : Store) (now : Nat) (t : Transmissao)
    (h : t ∈ s.transmissoes) :
    { t with status := TransmissaoStatus.finalizada, data_fim := some now }
      ∈ (finalizeTransmission s t.codigo now).transmissoes := by
  unfold finalizeTransmission
  simp only [List.mem_map]
  exact ⟨t, h, by simp⟩

/-- C2: when `/start` is called by an owner who has an active transmission (`active` is the
row the handler selects), the playlist validation and the server lookup pass and no store
statement throws, the call is not rejected: the handler first executes the update that sets
the status of `active` to `finalizada` and its end timestamp to the current time, then
inserts the new row with status `ativa` (the resulting store is the insertion applied to the
finalized store, and the update is logged before the insertion), and it answers success
whenever the manifest is provisioned. -/
theorem start_finalizes_active_before_insert (env : Env) (user : User) (body : StartBody)
    (s : Store) (pid : Nat) (active : Transmissao) (rest : List Transmissao)
    (hpid : truthyNat body.playlist_id = some pid)
    (hpl : selectPlaylists s pid user.id ≠ [])
    (hvid : countPlaylistVideos s pid user.id ≠ 0)
    (hsrv : selectActiveServers s (serverIdOf s user.id) ≠ [])
    (hdb : ∀ k, env.dbThrows k = none)
    (hact : selectActiveTransmissions s user.id = active :: rest) :
    (start env user body s).store
        = insertTransmission (finalizeTransmission s active.codigo (env.now 5)) user.id
            body.titulo (body.descricao.getD "") pid (env.now 6)
    ∧ { active with status := TransmissaoStatus.finalizada, data_fim := some (env.now 5) }
        ∈ (start env user body s).store.transmissoes
    ∧ (∃ created ∈ (start env user body s).store.transmissoes,
        created.codigo = s.next_transmissao ∧ created.codigo_stm = user.id
          ∧ created.status = TransmissaoStatus.ativa)
    ∧ (∃ tail, (start env user body s).effects
        = Effect.dbWrite (DbWrite.updateTransmissao active.codigo)
          :: Effect.dbWrite (DbWrite.insertTransmissao s.next_transmissao) :: tail)
    ∧ (env.generatePlaylistSMIL user.id (userLoginOf user) (serverIdOf s user.id) pid
          = SmilResult.success →
        (start env user body s).response.status = 200
          ∧ (start env user body s).response.body.field "success" = some (Json.bool true)) := by
  obtain ⟨playlist, playlists, hpl⟩ := List.exists_cons_of_ne_nil hpl
  obtain ⟨server, servers, hsrv⟩ := List.exists_cons_of_ne_nil hsrv
  have hactive : active ∈ s.transmissoes := by
    have : active ∈ selectActiveTransmissions s user.id := by simp [hact]
    exact (List.mem_filter.mp this).1
  have hstart : start env user body s
      = startInsert env user body (finalizeTransmission s active.codigo (env.now 5))
          [Effect.dbWrite (DbWrite.updateTransmissao active.codigo)] playlist pid
          (countPlaylistVideos s pid user.id) (serverIdOf s user.id) (hostOf server) := by
    rw [start_eq_startTransmission env user body s pid playlist playlists server servers hpid
      hpl hvid hsrv hdb]
    unfold startTransmission
    simp only [hdb, hact]
  have hstore := startInsert_store env user body
    (finalizeTransmission s active.codigo (env.now 5))
    [Effect.dbWrite (DbWrite.updateTransmissao active.codigo)] playlist pid
    (countPlaylistVideos s pid user.id) (serverIdOf s user.id) (hostOf server) (hdb 6)
  rw [hstart]
  refine ⟨hstore, ?_, ?_, ?_, ?_⟩
  · rw [hstore]
    unfold insertTransmission
    exact List.mem_append_left _ (mem_finalize_of_mem s (env.now 5) active hactive)
  · rw [hstore]
    refine ⟨newTransmission (finalizeTransmission s active.codigo (env.now 5)) user.id
      body.titulo (body.descricao.getD "") pid (env.now 6), ?_, rfl, rfl, rfl⟩
    unfold insertTransmission
    simp
  · obtain ⟨tail, htail⟩ := startInsert_effects env user body
      (finalizeTransmission s active.codigo (env.now 5))
      [Effect.dbWrite (DbWrite.updateTransmissao active.codigo)] playlist pid
      (countPlaylistVideos s pid user.id) (serverIdOf s user.id) (hostOf server) (hdb 6)
    exact ⟨tail, htail⟩
  · intro hsmil
    rw [startInsert_success env user body _ _ playlist pid _ _ _ (hdb 6) hsmil]
    exact ⟨rfl, rfl⟩

/-- Witness of C2: owner 7 starts playlist 3 while transmission 10 is active. -/
theorem start_finalizes_active_before_insert_witness :
    (start (demoEnv SmilResult.success none) joao demoStart demoStore).store
        = insertTransmission (finalizeTransmission demoStore 10 1005) 7 (some "Novo") "" 3 1006
    ∧ { demoTransmission10 with status := TransmissaoStatus.finalizada, data_fim := some 1005 }
        ∈ (start (demoEnv SmilResult.success none) joao demoStart demoStore).store.transmissoes :=
  have h := start_finalizes_active_before_insert (demoEnv SmilResult.success none) joao
    demoStart demoStore 3 demoTransmission10 [] rfl (by decide) (by decide) (by decide)
    (fun _ => rfl) (by decide)
  ⟨h.1, h.2.1⟩

/-- C3, evaluated on the code: owner 7 starts playlist 3 and the manifest service answers
`success: false` (first three facts) or throws (last three).  The handler answers 500 with
`success: false`, and the row 12 it has just inserted is still selected as the owner's active
transmission: it is left with status `ativa`. -/
theorem start_manifest_failure_leaves_row_active :
    (start (demoEnv (SmilResult.failure (Json.str "disk full")) none) joao demoStart
        demoStore).response.status = 500
    ∧ (start (demoEnv (SmilResult.failure (Json.str "disk full")) none) joao demoStart
        demoStore).response.body.field "success" = some (Json.bool false)
    ∧ selectActiveTransmissions
        (start (demoEnv (SmilResult.failure (Json.str "disk full")) none) joao demoStart
          demoStore).store 7
        = [{ codigo := 12, codigo_stm := 7, titulo := some "Novo", descricao := "",
             codigo_playlist := some 3, status := TransmissaoStatus.ativa, data_inicio := 1006,
             data_fim := none, tipo_transmissao := "playlist" }]
    ∧ (start (demoEnv (SmilResult.throws "ENOENT") none) joao demoStart
        demoStore).response.status = 500
    ∧ (start (demoEnv (SmilResult.throws "ENOENT") none) joao demoStart
        demoStore).response.body.field "success" = some (Json.bool false)
    ∧ selectActiveTransmissions
        (start (demoEnv (SmilResult.throws "ENOENT") none) joao demoStart demoStore).store 7
        = [{ codigo := 12, codigo_stm := 7, titulo := some "Novo", descricao := "",
             codigo_playlist := some 3, status := TransmissaoStatus.ativa, data_inicio := 1006,
             data_fim := none, tipo_transmissao := "playlist" }] :=
  ⟨rfl, rfl, by decide, rfl, rfl, by decide⟩

/-! ## Validation failures of `/start` -/

/-- C4: a `/start` request whose playlist id is missing, or names no playlist of the calling
owner, or names a playlist with no video owned by the caller, gets a failure response
(`success: false` with an error status), whatever the environment answers, and has no side
effect: the store is unchanged (no transmission row is written or updated) and no call is
issued (no manifest provisioning, no remote command). -/
theorem start_validation_failure_no_effect (env : Env) (user : User) (body : StartBody)
    (s : Store)
    (h : truthyNat body.playlist_id = none
      ∨ ∃ pid, truthyNat body.playlist_id = some pid
          ∧ (selectPlaylists s pid user.id = [] ∨ countPlaylistVideos s pid user.id = 0)) :
    (start env user body s).store = s
    ∧ (start env user body s).effects = []
    ∧ (start env user body s).response.body.field "success" = some (Json.bool false)
    ∧ 400 ≤ (start env user body s).response.status := by
  unfold start
  repeat' first | split | dsimp only
  all_goals first
    | (refine ⟨rfl, rfl, rfl, ?_⟩; simp [startCaught, caught])
    | (exfalso; simp_all)

/-- Witness of C4: owner 7 asks to start playlist 4, which belongs to owner 8. -/
theorem start_validation_failure_no_effect_witness :
    selectPlaylists demoStore 4 7 = []
    ∧ (start (demoEnv SmilResult.success none) joao
        { titulo := none, descricao := none, playlist_id := some 4 } demoStore).store = demoStore
    ∧ (start (demoEnv SmilResult.success none) joao
        { titulo := none, descricao := none, playlist_id := some 4 } demoStore).effects = [] :=
  have h := start_validation_failure_no_effect (demoEnv SmilResult.success none) joao
    { titulo := none, descricao := none, playlist_id := some 4 } demoStore
    (Or.inr ⟨4, rfl, Or.inl (by decide)⟩)
  ⟨by decide, h.1, h.2.1⟩

/-! ## Ownership check of `/stop` -/

theorem truthyNat_of_ne_zero (n : Nat) (h : n ≠ 0) : truthyNat (some n) = some n := by
  cases n with
  | zero => exact absurd rfl h
  | succ m => rfl

/-- C5: `/stop` called by an owner with the id of a transmission `t` that belongs to another
owner (ids are positive and identify one row, and the lookup statement does not throw) answers
404 `Transmissão não encontrada`, leaves the store unchanged (every row, that of the other
owner included) and issues no call; the response is the one given for that id in any store
that holds no transmission with it. -/
theorem stop_foreign_transmission_not_found (env : Env) (user : User) (s : Store)
    (t : Transmissao)
    (hmem : t ∈ s.transmissoes) (hown : t.codigo_stm ≠ user.id) (hid : t.codigo ≠ 0)
    (hkey : ∀ t' ∈ s.transmissoes, t'.codigo = t.codigo → t' = t)
    (hdb : env.dbThrows 0 = none) :
    (stop env user { transmission_id := some t.codigo } s).response.status = 404
    ∧ (stop env user { transmission_id := some t.codigo } s).response.body
        = Json.obj [("success", Json.bool false), ("error", Json.str "Transmissão não encontrada")]
    ∧ (stop env user { transmission_id := some t.codigo } s).store = s
    ∧ t ∈ (stop env user { transmission_id := some t.codigo } s).store.transmissoes
    ∧ (stop env user { transmission_id := some t.codigo } s).effects = []
    ∧ ∀ s' : Store, (∀ t' ∈ s'.transmissoes, t'.codigo ≠ t.codigo) →
        (stop env user { transmission_id := some t.codigo } s').response.status
            = (stop env user { transmission_id := some t.codigo } s).response.status
          ∧ (stop env user { transmission_id := some t.codigo } s').response.body
            = (stop env user { transmission_id := some t.codigo } s).response.body := by
  have hsel : selectTransmission s t.codigo user.id = [] := by
    unfold selectTransmission
    rw [List.filter_eq_nil_iff]
    intro t' ht'
    simp only [decide_eq_true_eq, not_and]
    intro hc
    rw [hkey t' ht' hc]
    exact hown
  have hstop : stop env user { transmission_id := some t.codigo } s
      = ⟨s, [], { status := 404, body := Json.obj [("success", Json.bool false),
          ("error", Json.str "Transmissão não encontrada")] }⟩ := by
    unfold stop
    simp only [truthyNat_of_ne_zero t.codigo hid, hdb, hsel]
  refine ⟨by rw [hstop], by rw [hstop], by rw [hstop], by rw [hstop]; exact hmem,
    by rw [hstop], ?_⟩
  intro s' hs'
  have hsel' : selectTransmission s' t.codigo user.id = [] := by
    unfold selectTransmission
    rw [List.filter_eq_nil_iff]
    intro t' ht'
    simp only [decide_eq_true_eq, not_and]
    intro hc
    exact absurd hc (hs' t' ht')
  have hstop' : stop env user { transmission_id := some t.codigo } s'
      = ⟨s', [], { status := 404, body := Json.obj [("success", Json.bool false),
          ("error", Json.str "Transmissão não encontrada")] }⟩ := by
    unfold stop
    simp only [truthyNat_of_ne_zero t.codigo hid, hdb, hsel']
  rw [hstop, hstop']
  exact ⟨rfl, rfl⟩

/-- Witness of C5: owner 7 asks to stop transmission 11, which belongs to owner 8. -/
theorem stop_foreign_transmission_not_found_witness :
    demoTransmission11 ∈ demoStore.transmissoes
    ∧ (stop (demoEnv SmilResult.success none) joao { transmission_id := some 11 }
        demoStore).response.status = 404
    ∧ (stop (demoEnv SmilResult.success none) joao { transmission_id := some 11 }
        demoStore).store = demoStore :=
  have h := stop_foreign_transmission_not_found (demoEnv SmilResult.success none) joao demoStore
    demoTransmission11 (by decide) (by decide) (by decide) (by decide) rfl
  ⟨by decide, h.1, h.2.2.1⟩

/-! ## Active recordings under the two statements -/

theorem filter_recording_map_stop (l : List RecordingSession) (codigo fileSize now owner : Nat) :
    (l.map (fun r =>
        if r.codigo = codigo then
          { r with status := RecordingStatus.stopped, data_fim := some now,
                   tamanho_arquivo := fileSize }
        else r)).filter (fun r => r.codigo_stm = owner ∧ r.status = RecordingStatus.recording)
      = (l.filter (fun r => r.codigo_stm = owner ∧ r.status = RecordingStatus.recording)).filter
          (fun r => r.codigo ≠ codigo) := by
  induction l with
  | nil => rfl
  | cons r rs ih =>
    rw [List.map_cons, List.filter_cons, ih]
    by_cases hc : r.codigo = codigo
    · by_cases ha : r.codigo_stm = owner ∧ r.status = RecordingStatus.recording
      · simp [List.filter_cons, hc, ha]
      · simp [List.filter_cons, hc, ha]
    · by_cases ha : r.codigo_stm = owner ∧ r.status = RecordingStatus.recording
      · simp [List.filter_cons, hc, ha]
      · simp [List.filter_cons, hc, ha]

theorem selectRecordings_stop (s : Store) (codigo fileSize now owner : Nat) :
    selectActiveRecordings (stopRecordingRow s codigo fileSize now) owner
      = (selectActiveRecordings s owner).filter (fun r => r.codigo ≠ codigo) :=
  filter_recording_map_stop s.recording_sessions codigo fileSize now owner

theorem selectRecordings_insert (s : Store) (userId : Nat) (fileName fullPath : String)
    (now : Nat) (pid : Option Nat) (owner : Nat) :
    selectActiveRecordings (insertRecording s userId fileName fullPath now pid) owner
      = selectActiveRecordings s owner
        ++ (if userId = owner then [newRecording s userId fileName fullPath now pid] else []) := by
  unfold selectActiveRecordings insertRecording
  by_cases h : userId = owner
  · simp [List.filter_append, List.filter_cons, newRecording, h]
  · simp [List.filter_append, List.filter_cons, newRecording, h]

theorem oneRecording_stop (s : Store) (codigo fileSize now : Nat) (h : OneActiveRecording s) :
    OneActiveRecording (stopRecordingRow s codigo fileSize now) := by
  intro owner
  rw [selectRecordings_stop]
  exact le_trans (List.length_filter_le _ _) (h owner)

theorem oneRecording_insert (s : Store) (userId : Nat) (fileName fullPath : String)
    (now : Nat) (pid : Option Nat) (h : OneActiveRecording s)
    (hnone : selectActiveRecordings s userId = []) :
    OneActiveRecording (insertRecording s userId fileName fullPath now pid) := by
  intro owner
  rw [selectRecordings_insert]
  by_cases ho : userId = owner
  · subst ho
    simp [hnone]
  · simpa [ho] using h owner

theorem oneRecording_startCapture (env : Env) (user : User) (s : Store)
    (effects0 : List Effect) (h : OneActiveRecording s)
    (hnone : selectActiveRecordings s user.id = []) :
    OneActiveRecording (startCapture env user s effects0).store := by
  unfold startCapture
  repeat' first | split | dsimp only
  all_goals first
    | exact h
    | exact oneRecording_insert _ _ _ _ _ _ h hnone

theorem oneRecording_startRecordingCheck (env : Env) (user : User) (s : Store)
    (effects0 : List Effect) (h : OneActiveRecording s) :
    OneActiveRecording (startRecordingCheck env user s effects0).store := by
  unfold startRecordingCheck
  split
  · exact h
  · split
    · exact h
    · next hnone => exact oneRecording_startCapture env user s effects0 h hnone

theorem oneRecording_startRecording (env : Env) (user : User) (s : Store)
    (h : OneActiveRecording s) : OneActiveRecording (startRecording env user s).store := by
  unfold startRecording
  repeat' first | split | dsimp only
  all_goals first
    | exact h
    | exact oneRecording_startRecordingCheck _ _ _ _ h

theorem oneRecording_stopRecording (env : Env) (user : User) (s : Store)
    (h : OneActiveRecording s) : OneActiveRecording (stopRecording env user s).store := by
  unfold stopRecording
  repeat' first | split | dsimp only
  all_goals first
    | exact h
    | exact oneRecording_stop _ _ _ _ h

theorem oneRecording_of_check (s : Store) (h : oneActiveRecordingCheck s = true) :
    OneActiveRecording s := by
  intro owner
  cases hsel : selectActiveRecordings s owner with
  | nil => simp
  | cons r rs =>
    have hmem : r ∈ selectActiveRecordings s owner := by simp [hsel]
    unfold selectActiveRecordings at hmem
    rw [List.mem_filter] at hmem
    have hown : r.codigo_stm = owner := by simpa using (of_decide_eq_true hmem.2).1
    unfold oneActiveRecordingCheck at h
    rw [List.all_eq_true] at h
    have := h r hmem.1
    rw [hown, hsel] at this
    simpa using this

/-- C6: from a store in which each owner has at most one recording session with status
`recording`, any single call of the `/start-recording` handler or of the `/stop-recording`
handler, whatever the environment answers (so successful or not), leads to a store in which
each owner again has at most one recording session with status `recording`. -/
theorem one_active_recording_preserved (env : Env) (user : User) (s : Store)
    (h : OneActiveRecording s) :
    OneActiveRecording (startRecording env user s).store
    ∧ OneActiveRecording (stopRecording env user s).store :=
  ⟨oneRecording_startRecording env user s h, oneRecording_stopRecording env user s h⟩

/-- Witness of C6 in the concrete scenario, for owner 7 who has no recording in progress. -/
theorem one_active_recording_preserved_witness :
    OneActiveRecording demoStore
    ∧ OneActiveRecording (startRecording (demoEnv SmilResult.success (some 555)) joao
        demoStore).store
    ∧ OneActiveRecording (stopRecording (demoEnv SmilResult.success (some 555)) joao
        demoStore).store :=
  have h := one_active_recording_preserved (demoEnv SmilResult.success (some 555)) joao demoStore
    (oneRecording_of_check demoStore (by decide))
  ⟨oneRecording_of_check demoStore (by decide), h.1, h.2⟩

/-! ## Rejections and no-ops of the recording handlers -/

/-- C7: `/start-recording` called by an identified owner who already has a recording session
with status `recording` (no store statement throwing) is rejected with `success: false` and
the error `Já existe uma gravação em andamento`; the store is unchanged (no session row is
inserted, the existing one is untouched) and no call is issued (no process is spawned). -/
theorem start_recording_rejected_when_active (env : Env) (user : User) (s : Store)
    (hid : user.id ≠ 0) (hdb : ∀ k, env.dbThrows k = none)
    (hact : selectActiveRecordings s user.id ≠ []) :
    (startRecording env user s).response.body
        = Json.obj [("success", Json.bool false),
            ("error", Json.str "Já existe uma gravação em andamento")]
    ∧ (startRecording env user s).store = s
    ∧ (startRecording env user s).effects = [] := by
  obtain ⟨r, rs, hact⟩ := List.exists_cons_of_ne_nil hact
  have hrun : startRecording env user s
      = ⟨s, [], { status := 200, body := Json.obj [("success", Json.bool false),
          ("error", Json.str "Já existe uma gravação em andamento")] }⟩ := by
    unfold startRecording
    simp only [if_neg hid, hdb]
    unfold startRecordingCheck
    simp only [hdb, hact]
  rw [hrun]
  exact ⟨rfl, rfl, rfl⟩

/-- Witness of C7: owner 8 has the recording session 21 in progress. -/
theorem start_recording_rejected_when_active_witness :
    selectActiveRecordings demoStore 8 = [demoRecording21]
    ∧ (startRecording (demoEnv SmilResult.success (some 555)) maria demoStore).store = demoStore
    ∧ (startRecording (demoEnv SmilResult.success (some 555)) maria demoStore).effects = [] :=
  have h := start_recording_rejected_when_active (demoEnv SmilResult.success (some 555)) maria
    demoStore (by decide) (fun _ => rfl) (by decide)
  ⟨by decide, h.2.1, h.2.2⟩

/-- C8 as stated fails: owner 7 has no recording in progress, and `/stop-recording` answers a
body whose `success` member is `false`, not `true`; the body has only the members `success`
and `error`, hence no flag. -/
theorem stop_recording_none_active_not_success :
    selectActiveRecordings demoStore 7 = []
    ∧ (stopRecording (demoEnv SmilResult.success none) joao demoStore).response.body.field
        "success" ≠ some (Json.bool true)
    ∧ (stopRecording (demoEnv SmilResult.success none) joao demoStore).response.body
        = Json.obj [("success", Json.bool false),
            ("error", Json.str "Nenhuma gravação ativa encontrada")] := by
  refine ⟨by decide, ?_, rfl⟩
  have e : (stopRecording (demoEnv SmilResult.success none) joao demoStore).response.body.field
      "success" = some (Json.bool false) := rfl
  rw [e]
  intro h
  cases h

/-- C8 as amended: `/stop-recording` called by an owner who has no recording session with
status `recording` (the lookup statement not throwing) answers HTTP 200 with the body
`success: false`, `error: Nenhuma gravação ativa encontrada` and no other member; the store is
unchanged and no call is issued. -/
theorem stop_recording_none_active (env : Env) (user : User) (s : Store)
    (hdb : env.dbThrows 0 = none) (hnone : selectActiveRecordings s user.id = []) :
    (stopRecording env user s).response.status = 200
    ∧ (stopRecording env user s).response.body
        = Json.obj [("success", Json.bool false),
            ("error", Json.str "Nenhuma gravação ativa encontrada")]
    ∧ (stopRecording env user s).store = s
    ∧ (stopRecording env user s).effects = [] := by
  have hrun : stopRecording env user s
      = ⟨s, [], { status := 200, body := Json.obj [("success", Json.bool false),
          ("error", Json.str "Nenhuma gravação ativa encontrada")] }⟩ := by
    unfold stopRecording
    simp only [hdb, hnone]
  rw [hrun]
  exact ⟨rfl, rfl, rfl, rfl⟩

/-- Witness of the amended C8: owner 7 has no recording in progress. -/
theorem stop_recording_none_active_witness :
    (stopRecording (demoEnv SmilResult.success none) joao demoStore).response.status = 200
    ∧ (stopRecording (demoEnv SmilResult.success none) joao demoStore).store = demoStore :=
  have h := stop_recording_none_active (demoEnv SmilResult.success none) joao demoStore rfl
    (by decide)
  ⟨h.1, h.2.2.1⟩

/-! ## Completion of `/stop-recording` -/

theorem mem_stopRecordingRow_of_mem (s : Store) (fileSize now : Nat) (r : RecordingSession)
    (h : r ∈ s.recording_sessions) :
    { r with status := RecordingStatus.stopped, data_fim := some now,
             tamanho_arquivo := fileSize }
      ∈ (stopRecordingRow s r.codigo fileSize now).recording_sessions := by
  unfold stopRecordingRow
  simp only [List.mem_map]
  exact ⟨r, h, by simp⟩

/-- C9: for an owner with an active recording session (`recording` is the row the handler
selects) and no store statement throwing, `/stop-recording` answers success and sets that
session to status `stopped` with the end timestamp and the measured size, for every
environment: whether or not `process.kill` throws and whether or not `fs.stat` throws.  When
`fs.stat` throws or the session stores no path, the size written to the row and returned in
`fileSize` is 0. -/
theorem stop_recording_completes (env : Env) (user : User) (s : Store)
    (recording : RecordingSession) (rest : List RecordingSession)
    (hdb : ∀ k, env.dbThrows k = none)
    (hact : selectActiveRecordings s user.id = recording :: rest) :
    (stopRecording env user s).response.status = 200
    ∧ (stopRecording env user s).response.body.field "success" = some (Json.bool true)
    ∧ (stopRecording env user s).response.body.field "fileSize"
        = some (Json.num (measuredSize env recording))
    ∧ (stopRecording env user s).store
        = stopRecordingRow s recording.codigo (measuredSize env recording) (env.now 1)
    ∧ { recording with status := RecordingStatus.stopped, data_fim := some (env.now 1),
                       tamanho_arquivo := measuredSize env recording }
        ∈ (stopRecording env user s).store.recording_sessions
    ∧ ((truthyStr recording.caminho_completo = none
          ∨ ∃ path, truthyStr recording.caminho_completo = some path ∧ env.statSize path = none)
        → measuredSize env recording = 0) := by
  have hmem : recording ∈ s.recording_sessions := by
    have : recording ∈ selectActiveRecordings s user.id := by simp [hact]
    exact (List.mem_filter.mp this).1
  have hrun : (stopRecording env user s).store
        = stopRecordingRow s recording.codigo (measuredSize env recording) (env.now 1)
      ∧ (stopRecording env user s).response.status = 200
      ∧ (stopRecording env user s).response.body.field "success" = some (Json.bool true)
      ∧ (stopRecording env user s).response.body.field "fileSize"
          = some (Json.num (measuredSize env recording)) := by
    unfold stopRecording
    simp only [hdb, hact]
    exact ⟨trivial, trivial, rfl, rfl⟩
  refine ⟨hrun.2.1, hrun.2.2.1, hrun.2.2.2, hrun.1, ?_, ?_⟩
  · rw [hrun.1]
    exact mem_stopRecordingRow_of_mem s _ _ recording hmem
  · rintro (h | ⟨path, hpath, hstat⟩)
    · unfold measuredSize
      simp only [h]
    · unfold measuredSize
      simp only [hpath, hstat, Option.getD_none]

/-- Witness of C9: owner 8 stops the recording session 21 in an environment where
`process.kill` throws (the process has exited) and `fs.stat` throws. -/
theorem stop_recording_completes_witness :
    (stopRecording (demoEnv SmilResult.success none) maria demoStore).response.status = 200
    ∧ { demoRecording21 with status := RecordingStatus.stopped, data_fim := some 1001,
                             tamanho_arquivo := 0 }
        ∈ (stopRecording (demoEnv SmilResult.success none) maria
            demoStore).store.recording_sessions :=
  have h := stop_recording_completes (demoEnv SmilResult.success none) maria demoStore
    demoRecording21 [] (fun _ => rfl) (by decide)
  ⟨h.1, h.2.2.2.2.1⟩

/-! ## Spawn failure in `/start-recording` -/

theorem errorRows_insertRecording (s : Store) (userId : Nat) (fileName fullPath : String)
    (now : Nat) (pid : Option Nat) :
    (insertRecording s userId fileName fullPath now pid).recording_sessions.filter
        (fun r => r.status = RecordingStatus.error)
      = s.recording_sessions.filter (fun r => r.status = RecordingStatus.error) := by
  unfold insertRecording
  simp [List.filter_append, List.filter_cons, newRecording]

theorem errorRows_startRecording (env : Env) (user : User) (s : Store) :
    (startRecording env user s).store.recording_sessions.filter
        (fun r => r.status = RecordingStatus.error)
      = s.recording_sessions.filter (fun r => r.status = RecordingStatus.error) := by
  unfold startRecording startRecordingCheck startCapture
  repeat' first | split | dsimp only
  all_goals first
    | rfl
    | exact errorRows_insertRecording _ _ _ _ _ _

/-- C10, evaluated on the code: owner 7 starts a recording and `spawn` yields no process id
(the capture process could not be started).  The handler spawns, binds the undefined process
id in the `INSERT`, which the driver rejects, and answers 500 `success: false` with the
driver's error as details.  No session is written: the store is the store before the call,
so no session of it records the failure with status `error`.  In general no call of
`/start-recording`, whatever the environment answers, adds or sets a session with status
`error`. -/
theorem start_recording_spawn_failure_records_no_error :
    (startRecording (demoEnv SmilResult.success none) joao demoStore).response.status = 500
    ∧ (startRecording (demoEnv SmilResult.success none) joao demoStore).response.body.field
        "success" = some (Json.bool false)
    ∧ (startRecording (demoEnv SmilResult.success none) joao demoStore).response.body.field
        "details" = some (Json.str undefinedBindMessage)
    ∧ (startRecording (demoEnv SmilResult.success none) joao demoStore).effects.filter
        Effect.isSpawn
        = [Effect.spawn "ffmpeg" (ffmpegArgsOf (demoEnv SmilResult.success none) joao demoStore)]
    ∧ (startRecording (demoEnv SmilResult.success none) joao demoStore).store = demoStore
    ∧ (startRecording (demoEnv SmilResult.success none) joao
        demoStore).store.recording_sessions.filter
          (fun r => r.status = RecordingStatus.error) = []
    ∧ ∀ (env : Env) (user : User) (s : Store),
        (startRecording env user s).store.recording_sessions.filter
            (fun r => r.status = RecordingStatus.error)
          = s.recording_sessions.filter (fun r => r.status = RecordingStatus.error) :=
  ⟨rfl, rfl, rfl, by decide, by decide, by decide, errorRows_startRecording⟩

/-! ## Frame of `/stop` -/

/-- C11: `/stop` called by the owner of an existing transmission with id `tid` (no store
statement throwing) answers 200 `success: true`; the store after the call is the store before
it in which the rows of `transmissoes` with `codigo = tid` have status `finalizada` and end
timestamp `NOW()`, every other row and every other table being unchanged; the only effect is
that update, so no command is executed on the remote channel. -/
theorem stop_finalizes_only_given_row (env : Env) (user : User) (s : Store) (tid : Nat)
    (hid : tid ≠ 0) (hdb : ∀ k, env.dbThrows k = none)
    (hown : selectTransmission s tid user.id ≠ []) :
    (stop env user { transmission_id := some tid } s).store
        = { s with transmissoes := s.transmissoes.map (fun t =>
              if t.codigo = tid then
                { t with status := TransmissaoStatus.finalizada, data_fim := some (env.now 2) }
              else t) }
    ∧ (∀ t ∈ s.transmissoes, t.codigo ≠ tid →
        t ∈ (stop env user { transmission_id := some tid } s).store.transmissoes)
    ∧ (stop env user { transmission_id := some tid } s).response.status = 200
    ∧ (stop env user { transmission_id := some tid } s).response.body.field "success"
        = some (Json.bool true)
    ∧ (stop env user { transmission_id := some tid } s).effects
        = [Effect.dbWrite (DbWrite.updateTransmissao tid)]
    ∧ ∀ (serverId : Option Nat) (command : String),
        Effect.executeCommand serverId command
          ∉ (stop env user { transmission_id := some tid } s).effects := by
  obtain ⟨t0, ts, hsel⟩ := List.exists_cons_of_ne_nil hown
  have hrun : stop env user { transmission_id := some tid } s
      = ⟨finalizeTransmission s tid (env.now 2),
          [Effect.dbWrite (DbWrite.updateTransmissao tid)],
          { status := 200, body := Json.obj [("success", Json.bool true),
            ("message", Json.str "Transmissão finalizada com sucesso")] }⟩ := by
    unfold stop
    simp only [truthyNat_of_ne_zero tid hid, hdb, hsel]
  rw [hrun]
  refine ⟨rfl, ?_, rfl, rfl, rfl, ?_⟩
  · intro t ht hne
    unfold finalizeTransmission
    simp only [List.mem_map]
    exact ⟨t, ht, by simp [hne]⟩
  · intro serverId command hmem
    simp at hmem

/-- Witness of C11: owner 7 stops their transmission 10. -/
theorem stop_finalizes_only_given_row_witness :
    (stop (demoEnv SmilResult.success none) joao { transmission_id := some 10 }
        demoStore).store.transmissoes
      = [{ demoTransmission10 with status := TransmissaoStatus.finalizada,
                                   data_fim := some 1002 }, demoTransmission11]
    ∧ (stop (demoEnv SmilResult.success none) joao { transmission_id := some 10 }
        demoStore).effects = [Effect.dbWrite (DbWrite.updateTransmissao 10)] :=
  have h := stop_finalizes_only_given_row (demoEnv SmilResult.success none) joao demoStore 10
    (by decide) (fun _ => rfl) (by decide)
  ⟨by rw [h.1]; decide, h.2.2.2.2.1⟩

/-! ## The response of `/start` and the remote channel -/

theorem startInsert_remote_indep (env : Env) (ssh : Option Nat → String → SshResult)
    (user : User) (body : StartBody) (s1 : Store) (effects1 : List Effect)
    (playlist : Playlist) (playlist_id total : Nat) (serverId : Option Nat)
    (servidor : String) :
    (startInsert { env with executeCommand := ssh } user body s1 effects1 playlist playlist_id
        total serverId servidor).response
      = (startInsert env user body s1 effects1 playlist playlist_id total serverId
          servidor).response
    ∧ (startInsert { env with executeCommand := ssh } user body s1 effects1 playlist playlist_id
        total serverId servidor).store
      = (startInsert env user body s1 effects1 playlist playlist_id total serverId
          servidor).store := by
  unfold startInsert
  dsimp only
  cases env.dbThrows 6 with
  | some m => exact ⟨rfl, rfl⟩
  | none =>
    dsimp only
    cases env.generatePlaylistSMIL user.id (userLoginOf user) serverId playlist_id with
    | success => exact ⟨rfl, rfl⟩
    | failure error => exact ⟨rfl, rfl⟩
    | throws m => exact ⟨rfl, rfl⟩

theorem startTransmission_remote_indep (env : Env) (ssh : Option Nat → String → SshResult)
    (user : User) (body : StartBody) (s : Store) (playlist : Playlist)
    (playlist_id total : Nat) (serverId : Option Nat) (servidor : String) :
    (startTransmission { env with executeCommand := ssh } user body s playlist playlist_id total
        serverId servidor).response
      = (startTransmission env user body s playlist playlist_id total serverId
          servidor).response
    ∧ (startTransmission { env with executeCommand := ssh } user body s playlist playlist_id
        total serverId servidor).store
      = (startTransmission env user body s playlist playlist_id total serverId
          servidor).store := by
  unfold startTransmission
  dsimp only
  cases env.dbThrows 4 with
  | some m => exact ⟨rfl, rfl⟩
  | none =>
    dsimp only
    cases selectActiveTransmissions s user.id with
    | nil => exact startInsert_remote_indep env ssh user body s [] _ _ _ _ _
    | cons active rest =>
      dsimp only
      cases env.dbThrows 5 with
      | some m => exact ⟨rfl, rfl⟩
      | none => exact startInsert_remote_indep env ssh user body _ _ _ _ _ _ _

theorem start_remote_indep (env : Env) (ssh : Option Nat → String → SshResult) (user : User)
    (body : StartBody) (s : Store) :
    (start { env with executeCommand := ssh } user body s).response
      = (start env user body s).response
    ∧ (start { env with executeCommand := ssh } user body s).store
      = (start env user body s).store := by
  unfold start
  dsimp only
  cases truthyNat body.playlist_id with
  | none => exact ⟨rfl, rfl⟩
  | some pid =>
    dsimp only
    cases env.dbThrows 0 with
    | some m => exact ⟨rfl, rfl⟩
    | none =>
      dsimp only
      cases selectPlaylists s pid user.id with
      | nil => exact ⟨rfl, rfl⟩
      | cons playlist playlists =>
        dsimp only
        cases env.dbThrows 1 with
        | some m => exact ⟨rfl, rfl⟩
        | none =>
          dsimp only
          by_cases hvid : countPlaylistVideos s pid user.id = 0
          · simp only [hvid, if_true]
            exact ⟨trivial, trivial⟩
          · simp only [if_neg hvid]
            cases env.dbThrows 2 with
            | some m => exact ⟨rfl, rfl⟩
            | none =>
              dsimp only
              cases env.dbThrows 3 with
              | some m => exact ⟨rfl, rfl⟩
              | none =>
                dsimp only
                cases selectActiveServers s (serverIdOf s user.id) with
                | nil => exact ⟨rfl, rfl⟩
                | cons server servers =>
                  exact startTransmission_remote_indep env ssh user body s _ _ _ _ _

theorem finalize_next_transmissao (s : Store) (codigo now : Nat) :
    (finalizeTransmission s codigo now).next_transmissao = s.next_transmissao := rfl

theorem startInsert_success_inv (env : Env) (user : User) (body : StartBody) (s1 : Store)
    (effects1 : List Effect) (playlist : Playlist) (playlist_id total : Nat)
    (serverId : Option Nat) (servidor : String)
    (h : (startInsert env user body s1 effects1 playlist playlist_id total serverId
      servidor).response.body.field "success" = some (Json.bool true)) :
    (startInsert env user body s1 effects1 playlist playlist_id total serverId
        servidor).response
      = startSuccess env playlist playlist_id total servidor (userLoginOf user)
          s1.next_transmissao := by
  unfold startInsert at h ⊢
  dsimp only at h ⊢
  cases hdb : env.dbThrows 6 with
  | some m =>
    rw [hdb] at h
    simp [startCaught, caught, Json.field] at h
  | none =>
    rw [hdb] at h
    dsimp only at h ⊢
    cases hsmil : env.generatePlaylistSMIL user.id (userLoginOf user) serverId playlist_id with
    | success => rfl
    | failure error =>
      rw [hsmil] at h
      simp [Json.field] at h
    | throws m =>
      rw [hsmil] at h
      simp [Json.field] at h

theorem startTransmission_success_inv (env : Env) (user : User) (body : StartBody) (s : Store)
    (playlist : Playlist) (playlist_id total : Nat) (serverId : Option Nat) (servidor : String)
    (h : (startTransmission env user body s playlist playlist_id total serverId
      servidor).response.body.field "success" = some (Json.bool true)) :
    (startTransmission env user body s playlist playlist_id total serverId servidor).response
      = startSuccess env playlist playlist_id total servidor (userLoginOf user)
          s.next_transmissao := by
  unfold startTransmission at h ⊢
  cases hdb : env.dbThrows 4 with
  | some m =>
    rw [hdb] at h
    simp [startCaught, caught, Json.field] at h
  | none =>
    rw [hdb] at h
    dsimp only at h ⊢
    cases hsel : selectActiveTransmissions s user.id with
    | nil =>
      rw [hsel] at h
      exact startInsert_success_inv env user body s [] _ _ _ _ _ h
    | cons active rest =>
      rw [hsel] at h
      dsimp only at h ⊢
      cases hdb5 : env.dbThrows 5 with
      | some m =>
        rw [hdb5] at h
        simp [startCaught, caught, Json.field] at h
      | none =>
        rw [hdb5] at h
        exact startInsert_success_inv env user body _ _ _ _ _ _ _ h

theorem start_success_inv (env : Env) (user : User) (body : StartBody) (s : Store)
    (h : (start env user body s).response.body.field "success" = some (Json.bool true)) :
    ∃ pid playlist playlists server servers,
      truthyNat body.playlist_id = some pid
      ∧ selectPlaylists s pid user.id = playlist :: playlists
      ∧ selectActiveServers s (serverIdOf s user.id) = server :: servers
      ∧ (start env user body s).response
          = startSuccess env playlist pid (countPlaylistVideos s pid user.id) (hostOf server)
              (userLoginOf user) s.next_transmissao := by
  unfold start at h ⊢
  dsimp only at h ⊢
  cases hpid : truthyNat body.playlist_id with
  | none =>
    rw [hpid] at h
    simp [Json.field] at h
  | some pid =>
    rw [hpid] at h
    dsimp only at h ⊢
    cases hdb0 : env.dbThrows 0 with
    | some m =>
      rw [hdb0] at h
      simp [startCaught, caught, Json.field] at h
    | none =>
      rw [hdb0] at h
      dsimp only at h ⊢
      cases hpl : selectPlaylists s pid user.id with
      | nil =>
        rw [hpl] at h
        simp [Json.field] at h
      | cons playlist playlists =>
        rw [hpl] at h
        dsimp only at h ⊢
        cases hdb1 : env.dbThrows 1 with
        | some m =>
          rw [hdb1] at h
          simp [startCaught, caught, Json.field] at h
        | none =>
          rw [hdb1] at h
          dsimp only at h ⊢
          by_cases hvid : countPlaylistVideos s pid user.id = 0
          · rw [if_pos hvid] at h
            simp [Json.field] at h
          · rw [if_neg hvid] at h ⊢
            cases hdb2 : env.dbThrows 2 with
            | some m =>
              rw [hdb2] at h
              simp [startCaught, caught, Json.field] at h
            | none =>
              rw [hdb2] at h
              dsimp only at h ⊢
              cases hdb3 : env.dbThrows 3 with
              | some m =>
                rw [hdb3] at h
                simp [startCaught, caught, Json.field] at h
              | none =>
                rw [hdb3] at h
                dsimp only at h ⊢
                cases hsrv : selectActiveServers s (serverIdOf s user.id) with
                | nil =>
                  rw [hsrv] at h
                  simp [Json.field] at h
                | cons server servers =>
                  rw [hsrv] at h
                  exact ⟨pid, playlist, playlists, server, servers,
                    rfl, hpl, rfl,
                    startTransmission_success_inv env user body s _ _ _ _ _ h⟩

theorem startTransmission_success (env : Env) (user : User) (body : StartBody) (s : Store)
    (playlist : Playlist) (playlist_id total : Nat) (serverId : Option Nat) (servidor : String)
    (hdb : ∀ k, env.dbThrows k = none)
    (hsmil : env.generatePlaylistSMIL user.id (userLoginOf user) serverId playlist_id
      = SmilResult.success) :
    (startTransmission env user body s playlist playlist_id total serverId servidor).response
      = startSuccess env playlist playlist_id total servidor (userLoginOf user)
          s.next_transmissao := by
  unfold startTransmission
  simp only [hdb]
  cases selectActiveTransmissions s user.id with
  | nil => exact startInsert_success env user body s [] _ _ _ _ _ (hdb 6) hsmil
  | cons active rest =>
    exact startInsert_success env user body _ _ _ _ _ _ _ (hdb 6) hsmil

/-- C12: once the playlist validation and the server lookup have passed, no store statement
throws and the manifest service answers success, `/start` answers 200 `success: true` with the
id of the inserted transmission and the player URLs, whatever the remote channel `ssh` answers
to the running-check and to the activation command (an output containing `ERROR`, an empty
output, an exception). -/
theorem start_succeeds_whatever_remote_answers (env : Env)
    (ssh : Option Nat → String → SshResult) (user : User) (body : StartBody) (s : Store)
    (pid : Nat) (playlist : Playlist) (playlists : List Playlist) (server : WowzaServer)
    (servers : List WowzaServer)
    (hpid : truthyNat body.playlist_id = some pid)
    (hpl : selectPlaylists s pid user.id = playlist :: playlists)
    (hvid : countPlaylistVideos s pid user.id ≠ 0)
    (hsrv : selectActiveServers s (serverIdOf s user.id) = server :: servers)
    (hdb : ∀ k, env.dbThrows k = none)
    (hsmil : env.generatePlaylistSMIL user.id (userLoginOf user) (serverIdOf s user.id) pid
      = SmilResult.success) :
    (start { env with executeCommand := ssh } user body s).response.status = 200
    ∧ (start { env with executeCommand := ssh } user body s).response.body.field "success"
        = some (Json.bool true)
    ∧ (start { env with executeCommand := ssh } user body s).response.body.field
        "transmission_id" = some (Json.num s.next_transmissao)
    ∧ (start { env with executeCommand := ssh } user body s).response.body.field "player_urls"
        = some (Json.obj (playerUrls env (hostOf server) (userLoginOf user) pid)) := by
  have hresp : (start { env with executeCommand := ssh } user body s).response
      = startSuccess env playlist pid (countPlaylistVideos s pid user.id) (hostOf server)
          (userLoginOf user) s.next_transmissao := by
    rw [(start_remote_indep env ssh user body s).1,
      start_eq_startTransmission env user body s pid playlist playlists server servers hpid hpl
        hvid hsrv hdb]
    exact startTransmission_success env user body s _ _ _ _ _ hdb hsmil
  rw [hresp]
  exact ⟨rfl, rfl, rfl, rfl⟩

/-- Witness of C12: owner 7 starts playlist 3 while the remote channel throws. -/
theorem start_succeeds_whatever_remote_answers_witness :
    (start { demoEnv SmilResult.success none with executeCommand := demoChannelDown } joao
        demoStart demoStore).response.status = 200
    ∧ (start { demoEnv SmilResult.success none with executeCommand := demoChannelDown } joao
        demoStart demoStore).response.body.field "transmission_id" = some (Json.num 12) :=
  have h := start_succeeds_whatever_remote_answers (demoEnv SmilResult.success none)
    demoChannelDown joao demoStart demoStore 3 { id := 3, nome := "Manhã", codigo_stm := 7 }
    [] demoServer [] rfl (by decide) (by decide) (by decide) (fun _ => rfl) rfl
  ⟨h.1, h.2.2.1⟩

set_option maxRecDepth 8000 in
/-- C13 as stated fails: owner 7 starts playlist 3 on a channel where the application is not
loaded.  When the activation command answers an output containing `ERROR`, when it answers an
empty output and when the channel throws, the activation is issued or attempted and the
response is the very response of a start whose activation answers a clean output: no warning
is carried by the result. -/
theorem start_activation_warning_not_in_result :
    activateApplication
        { demoEnv SmilResult.success none with executeCommand := demoChannel "ERROR: failed" }
        (some 1) "joao"
      = [Effect.executeCommand (some 1) (jmxCommand ++ " getApplicationInstanceInfo joao"),
         Effect.executeCommand (some 1) (jmxCommand ++ " startAppInstance joao")]
    ∧ includes "ERROR: failed" "ERROR" = true
    ∧ (start { demoEnv SmilResult.success none with executeCommand := demoChannel "ERROR: failed" }
        joao demoStart demoStore).response
      = (start { demoEnv SmilResult.success none with executeCommand := demoChannel "started" }
        joao demoStart demoStore).response
    ∧ (start { demoEnv SmilResult.success none with executeCommand := demoChannel "" }
        joao demoStart demoStore).response
      = (start { demoEnv SmilResult.success none with executeCommand := demoChannel "started" }
        joao demoStart demoStore).response
    ∧ (start { demoEnv SmilResult.success none with executeCommand := demoChannelDown }
        joao demoStart demoStore).response
      = (start { demoEnv SmilResult.success none with executeCommand := demoChannel "started" }
        joao demoStart demoStore).response :=
  ⟨by decide, by decide, rfl, rfl, rfl⟩

/-- C13 as amended: the answers of the remote channel, warnings included, are only logged:
the response of `/start` and the store after the call are the same for any two behaviours of
the remote channel, all else being equal. -/
theorem start_result_ignores_remote_answers (env : Env)
    (ssh1 ssh2 : Option Nat → String → SshResult) (user : User) (body : StartBody)
    (s : Store) :
    (start { env with executeCommand := ssh1 } user body s).response
      = (start { env with executeCommand := ssh2 } user body s).response
    ∧ (start { env with executeCommand := ssh1 } user body s).store
      = (start { env with executeCommand := ssh2 } user body s).store := by
  have h1 := start_remote_indep env ssh1 user body s
  have h2 := start_remote_indep env ssh2 user body s
  exact ⟨h1.1.trans h2.1.symm, h1.2.trans h2.2.symm⟩

/-! ## Player URLs of `/start` -/

/-- C14: for every successful `/start`, the member `wowza_url` of `player_urls` is
`https://host/login/login/playlist.m3u8`.  Here `host` is that of the owner's active server:
the first row of `wowza_servers` with status `ativo` whose `codigo` is the `codigo_servidor`
of the owner's first row of `streamings` (server 1 when the owner has no such row), its
`dominio` when set and not empty, otherwise its `ip`; and `login` is the owner's `usuario`
when set and not empty, otherwise `user_` followed by the owner id. -/
theorem start_wowza_url (env : Env) (user : User) (body : StartBody) (s : Store)
    (h : (start env user body s).response.body.field "success" = some (Json.bool true)) :
    ∃ (serverId : Option Nat) (server : WowzaServer) (servers : List WowzaServer)
      (host login : String),
      serverId = (match s.streamings.filter (fun r => r.codigo_cliente = user.id) with
          | r :: _ => r.codigo_servidor
          | [] => some 1)
      ∧ s.wowza_servers.filter (fun w => some w.codigo = serverId ∧ w.status = "ativo")
          = server :: servers
      ∧ host = (match server.dominio with
          | some d => if d = "" then server.ip else d
          | none => server.ip)
      ∧ login = (match user.usuario with
          | some u => if u = "" then "user_" ++ toString user.id else u
          | none => "user_" ++ toString user.id)
      ∧ ((start env user body s).response.body.field "player_urls").bind
            (fun urls => urls.field "wowza_url")
          = some (Json.str ("https://" ++ host ++ "/" ++ login ++ "/" ++ login
              ++ "/playlist.m3u8")) := by
  obtain ⟨pid, playlist, playlists, server, servers, _, _, hsrv, hresp⟩ :=
    start_success_inv env user body s h
  refine ⟨serverIdOf s user.id, server, servers, hostOf server, userLoginOf user, rfl, hsrv,
    ?_, ?_, ?_⟩
  · unfold hostOf truthyStr
    cases server.dominio with
    | none => rfl
    | some d => by_cases hd : d = "" <;> simp [hd]
  · unfold userLoginOf truthyStr
    cases user.usuario with
    | none => rfl
    | some u => by_cases hu : u = "" <;> simp [hu]
  · rw [hresp]
    rfl

/-- Witness of C14: owner 7 (`joao`), whose streaming is on server 2, starts playlist 3 in a
store that also holds server 1; the URL is on the host of server 2. -/
theorem start_wowza_url_witness :
    ((start (demoEnv SmilResult.success none) joao demoStart
        demoStoreTwoServers).response.body.field "player_urls").bind
          (fun urls => urls.field "wowza_url")
      = some (Json.str "https://stm2.example.com/joao/joao/playlist.m3u8") := by
  obtain ⟨serverId, server, servers, host, login, hsid, hsel, hhost, hlogin, hurl⟩ :=
    start_wowza_url (demoEnv SmilResult.success none) joao demoStart demoStoreTwoServers rfl
  have hsid2 : serverId = some 2 := hsid
  subst hsid2
  have hfilter : demoStoreTwoServers.wowza_servers.filter
      (fun w => some w.codigo = some 2 ∧ w.status = "ativo") = [demoServer2] := by decide
  rw [hfilter] at hsel
  injection hsel with hserver _
  subst hserver
  have hh : host = "stm2.example.com" := hhost
  have hl : login = "joao" := hlogin
  rw [hurl, hh, hl]
  rfl

theorem playerUrls_member (env : Env) (playlist : Playlist) (pid total : Nat)
    (servidor userLogin : String) (tid : Nat) :
    (startSuccess env playlist pid total servidor userLogin tid).body.field "player_urls"
      = some (Json.obj (playerUrls env servidor userLogin pid)) := rfl

set_option maxRecDepth 8000 in
/-- C15 as stated fails: two successful starts of owner 7 (`joao`) on the same server host,
hence with the same host, login and manifest name, return different `player_urls` when only
the runtime environment differs (`NODE_ENV` is `production` in the second call), and when only
the playlist id differs (playlist 3, then playlist 5). -/
theorem start_player_urls_depend_on_environment_and_playlist :
    (start (demoEnv SmilResult.success none) joao demoStart demoStore2).response.body.field
        "success" = some (Json.bool true)
    ∧ (start { demoEnv SmilResult.success none with production := true } joao demoStart
        demoStore2).response.body.field "success" = some (Json.bool true)
    ∧ (start (demoEnv SmilResult.success none) joao { demoStart with playlist_id := some 5 }
        demoStore2).response.body.field "success" = some (Json.bool true)
    ∧ (start (demoEnv SmilResult.success none) joao demoStart demoStore2).response.body.field
        "player_urls"
      ≠ (start { demoEnv SmilResult.success none with production := true } joao demoStart
        demoStore2).response.body.field "player_urls"
    ∧ (start (demoEnv SmilResult.success none) joao demoStart demoStore2).response.body.field
        "player_urls"
      ≠ (start (demoEnv SmilResult.success none) joao { demoStart with playlist_id := some 5 }
        demoStore2).response.body.field "player_urls" := by
  refine ⟨rfl, rfl, rfl, ?_, ?_⟩
  · intro h
    have h' := congrArg
      (fun urls : Option Json => (urls.bind (fun u => u.field "iframe")).bind Json.asString) h
    revert h'
    decide
  · intro h
    have h' := congrArg
      (fun urls : Option Json => (urls.bind (fun u => u.field "iframe")).bind Json.asString) h
    revert h'
    decide

/-- C15 as amended: the `player_urls` of two successful starts with the same server host and
the same owner login (the manifest name is the constant `playlists_agendamentos.smil`) have
the same `direct_hls`, `direct_rtmp` and `wowza_url`; they are identical as a whole when,
in addition, the playlist id and the `NODE_ENV` production flag are the same, on which the
`iframe` URL depends. -/
theorem start_player_urls_determined (env1 env2 : Env) (user1 user2 : User)
    (body1 body2 : StartBody) (s1 s2 : Store)
    (h1 : (start env1 user1 body1 s1).response.body.field "success" = some (Json.bool true))
    (h2 : (start env2 user2 body2 s2).response.body.field "success" = some (Json.bool true))
    (hhost : (selectActiveServers s1 (serverIdOf s1 user1.id)).head?.map hostOf
      = (selectActiveServers s2 (serverIdOf s2 user2.id)).head?.map hostOf)
    (hlogin : userLoginOf user1 = userLoginOf user2) :
    (∀ key : String, key = "direct_hls" ∨ key = "direct_rtmp" ∨ key = "wowza_url" →
      ((start env1 user1 body1 s1).response.body.field "player_urls").bind
          (fun urls => urls.field key)
        = ((start env2 user2 body2 s2).response.body.field "player_urls").bind
          (fun urls => urls.field key))
    ∧ (truthyNat body1.playlist_id = truthyNat body2.playlist_id →
        env1.production = env2.production →
        (start env1 user1 body1 s1).response.body.field "player_urls"
          = (start env2 user2 body2 s2).response.body.field "player_urls") := by
  obtain ⟨pid1, playlist1, playlists1, server1, servers1, hpid1, _, hsrv1, hresp1⟩ :=
    start_success_inv env1 user1 body1 s1 h1
  obtain ⟨pid2, playlist2, playlists2, server2, servers2, hpid2, _, hsrv2, hresp2⟩ :=
    start_success_inv env2 user2 body2 s2 h2
  have hh : hostOf server1 = hostOf server2 := by
    simpa [hsrv1, hsrv2] using hhost
  rw [hresp1, hresp2, playerUrls_member, playerUrls_member, hh, hlogin]
  constructor
  · rintro key (rfl | rfl | rfl) <;> rfl
  · intro hpid hprod
    have hp : pid1 = pid2 := by
      rw [hpid1, hpid2] at hpid
      exact Option.some.inj hpid
    unfold playerUrls
    rw [hp, hprod]

/-- Witness of the amended C15: owner 7 starts playlist 3 in two stores with the same server,
in two environments that differ in the answer of the spawn only. -/
theorem start_player_urls_determined_witness :
    (start (demoEnv SmilResult.success none) joao demoStart demoStore).response.body.field
        "player_urls"
      = (start (demoEnv SmilResult.success (some 5)) joao demoStart
          demoStore2).response.body.field "player_urls" :=
  (start_player_urls_determined (demoEnv SmilResult.success none)
    (demoEnv SmilResult.success (some 5)) joao joao demoStart demoStart demoStore demoStore2
    rfl rfl (by decide) rfl).2 rfl rfl

/-! ## Role check of `/bloquear`, `/desbloquear` and `/remover` -/

theorem truthyStr_eq_some (o : Option String) (r : String) (h : truthyStr o = some r) :
    o = some r := by
  unfold truthyStr at h
  cases o with
  | none => simp at h
  | some v =>
    by_cases hv : v = ""
    · simp [hv] at h
    · simp only [if_neg hv] at h
      exact h

theorem restricted_rejects (operation : String → String → ServiceAnswer)
    (call : String → String → ServiceCall) (caughtMessage : String) (actor : Actor)
    (body : ControlBody)
    (hrole : userTypeOf actor ≠ some "admin" ∧ userTypeOf actor ≠ some "revenda") :
    (restricted operation call caughtMessage actor body).calls = []
    ∧ 400 ≤ (restricted operation call caughtMessage actor body).response.status
    ∧ (restricted operation call caughtMessage actor body).response.body.field "success"
        = some (Json.bool false)
    ∧ (truthyStr body.login ≠ none →
        (restricted operation call caughtMessage actor body).response.status = 403
        ∧ (restricted operation call caughtMessage actor body).response.body
            = Json.obj [("success", Json.bool false),
                ("message", Json.str "Acesso não autorizado")]) := by
  unfold restricted
  dsimp only
  cases hlogin : truthyStr body.login with
  | none => exact ⟨rfl, show 400 ≤ 400 from by decide, rfl, fun h => absurd rfl h⟩
  | some login =>
    dsimp only
    cases htype : truthyStr (userTypeOf actor) with
    | none => exact ⟨rfl, show 400 ≤ 403 from by decide, rfl, fun _ => ⟨rfl, rfl⟩⟩
    | some role =>
      have hut := truthyStr_eq_some _ _ htype
      have hne : role ≠ "admin" ∧ role ≠ "revenda" := by
        rw [hut] at hrole
        exact ⟨fun h => hrole.1 (by rw [h]), fun h => hrole.2 (by rw [h])⟩
      dsimp only
      rw [if_pos hne]
      exact ⟨rfl, show 400 ≤ 403 from by decide, rfl, fun _ => ⟨rfl, rfl⟩⟩

/-- C16: for each of `/bloquear`, `/desbloquear` and `/remover`, when the role of the actor is
absent or is neither `admin` nor `revenda`, the request fails (`success: false` with an error
status) and no operation of `StreamingControlService` is called; when a login is supplied the
failure is 403 `Acesso não autorizado`. -/
theorem restricted_routes_reject_insufficient_role (svc : Services) (actor : Actor)
    (body : ControlBody)
    (hrole : userTypeOf actor ≠ some "admin" ∧ userTypeOf actor ≠ some "revenda") :
    ((bloquear svc actor body).calls = []
      ∧ 400 ≤ (bloquear svc actor body).response.status
      ∧ (bloquear svc actor body).response.body.field "success" = some (Json.bool false)
      ∧ (truthyStr body.login ≠ none →
          (bloquear svc actor body).response.status = 403
          ∧ (bloquear svc actor body).response.body
              = Json.obj [("success", Json.bool false),
                  ("message", Json.str "Acesso não autorizado")]))
    ∧ ((desbloquear svc actor body).calls = []
      ∧ 400 ≤ (desbloquear svc actor body).response.status
      ∧ (desbloquear svc actor body).response.body.field "success" = some (Json.bool false)
      ∧ (truthyStr body.login ≠ none →
          (desbloquear svc actor body).response.status = 403
          ∧ (desbloquear svc actor body).response.body
              = Json.obj [("success", Json.bool false),
                  ("message", Json.str "Acesso não autorizado")]))
    ∧ ((remover svc actor body).calls = []
      ∧ 400 ≤ (remover svc actor body).response.status
      ∧ (remover svc actor body).response.body.field "success" = some (Json.bool false)
      ∧ (truthyStr body.login ≠ none →
          (remover svc actor body).response.status = 403
          ∧ (remover svc actor body).response.body
              = Json.obj [("success", Json.bool false),
                  ("message", Json.str "Acesso não autorizado")])) :=
  ⟨restricted_rejects _ _ _ actor body hrole, restricted_rejects _ _ _ actor body hrole,
    restricted_rejects _ _ _ actor body hrole⟩

/-- Witness of C16: an actor with role `cliente` asks to remove the streaming `joao`. -/
theorem restricted_routes_reject_insufficient_role_witness :
    (remover demoServices { type := none, tipo := some "cliente" } { login := some "joao" }).calls
      = []
    ∧ (remover demoServices { type := none, tipo := some "cliente" }
        { login := some "joao" }).response.status = 403 :=
  have h := restricted_routes_reject_insufficient_role demoServices
    { type := none, tipo := some "cliente" } { login := some "joao" }
    ⟨by decide, by decide⟩
  ⟨h.2.2.1, (h.2.2.2.2.2 (by decide)).1⟩

/-! ## Already-in-state results of `/ligar` and `/desligar` -/

theorem toggle_status (fields : List (String × Json)) (flag : String) :
    ((Json.obj fields).truthyField flag = true →
      (if (Json.obj fields).truthyField "success" = true then (200 : Nat)
        else if (Json.obj fields).truthyField flag = true then 200 else 500) = 200)
    ∧ ((if (Json.obj fields).truthyField "success" = true then (200 : Nat)
        else if (Json.obj fields).truthyField flag = true then 200 else 500) = 500
      ↔ (Json.obj fields).truthyField "success" = false
        ∧ (Json.obj fields).truthyField flag = false) := by
  cases (Json.obj fields).truthyField "success" <;> cases (Json.obj fields).truthyField flag
    <;> simp

/-- C17: for `/ligar` and `/desligar` called with a login, when the service returns a result:
the body of the response is that result, unchanged; when the result reports the endpoint
already in the requested state (`alreadyActive`, respectively `alreadyInactive`, truthy) the
status is 200; and the status is 500 exactly when `success` is falsy and that flag is falsy. -/
theorem toggle_already_in_state_passes_through (svc : Services) (login : String)
    (fields : List (String × Json)) (hlogin : login ≠ "") :
    (svc.ligarStreaming login = ServiceAnswer.result fields →
      (ligar svc { login := some login }).response.body = Json.obj fields
      ∧ ((Json.obj fields).truthyField "alreadyActive" = true →
          (ligar svc { login := some login }).response.status = 200)
      ∧ ((ligar svc { login := some login }).response.status = 500
          ↔ (Json.obj fields).truthyField "success" = false
            ∧ (Json.obj fields).truthyField "alreadyActive" = false))
    ∧ (svc.desligarStreaming login = ServiceAnswer.result fields →
      (desligar svc { login := some login }).response.body = Json.obj fields
      ∧ ((Json.obj fields).truthyField "alreadyInactive" = true →
          (desligar svc { login := some login }).response.status = 200)
      ∧ ((desligar svc { login := some login }).response.status = 500
          ↔ (Json.obj fields).truthyField "success" = false
            ∧ (Json.obj fields).truthyField "alreadyInactive" = false)) := by
  have hl : truthyStr (some login) = some login := by
    unfold truthyStr
    simp [hlogin]
  constructor
  · intro hsvc
    have hstatus : (ligar svc { login := some login }).response.status
        = (if (Json.obj fields).truthyField "success" = true then (200 : Nat)
            else if (Json.obj fields).truthyField "alreadyActive" = true then 200 else 500)
        ∧ (ligar svc { login := some login }).response.body = Json.obj fields := by
      unfold ligar
      simp only [hl, hsvc]
      split <;> exact ⟨rfl, rfl⟩
    rw [hstatus.1]
    exact ⟨hstatus.2, (toggle_status fields "alreadyActive").1,
      (toggle_status fields "alreadyActive").2⟩
  · intro hsvc
    have hstatus : (desligar svc { login := some login }).response.status
        = (if (Json.obj fields).truthyField "success" = true then (200 : Nat)
            else if (Json.obj fields).truthyField "alreadyInactive" = true then 200 else 500)
        ∧ (desligar svc { login := some login }).response.body = Json.obj fields := by
      unfold desligar
      simp only [hl, hsvc]
      split <;> exact ⟨rfl, rfl⟩
    rw [hstatus.1]
    exact ⟨hstatus.2, (toggle_status fields "alreadyInactive").1,
      (toggle_status fields "alreadyInactive").2⟩

/-- Witness of C17: `/ligar` for the streaming `joao`, which the service reports already on
with `success: false`. -/
theorem toggle_already_in_state_passes_through_witness :
    (ligar demoServices { login := some "joao" }).response.status = 200
    ∧ (ligar demoServices { login := some "joao" }).response.body
        = Json.obj [("success", Json.bool false), ("alreadyActive", Json.bool true),
            ("message", Json.str "Streaming já está ligado")] :=
  have h := (toggle_already_in_state_passes_through demoServices "joao"
    [("success", Json.bool false), ("alreadyActive", Json.bool true),
      ("message", Json.str "Streaming já está ligado")] (by decide)).1 rfl
  ⟨h.2.1 (by decide), h.1⟩

/-! ## Results of `/diagnostics` -/

theorem knownStatus_wowza (s : Store) (serverId : Option Nat) :
    KnownStatus (wowzaDiagnostic s serverId) := by
  unfold wowzaDiagnostic
  split
  · split
    · exact Or.inl rfl
    · exact Or.inr (Or.inr rfl)
  · exact Or.inr (Or.inr rfl)

theorem knownStatus_selected (user : User) (testType : Option String) (s : Store)
    (serverId : Option Nat) :
    ∀ entry ∈ selectedDiagnostics user testType s serverId, KnownStatus entry := by
  intro entry hmem
  unfold selectedDiagnostics at hmem
  simp only [List.mem_append] at hmem
  rcases hmem with (hmem | hmem) | hmem
  · split at hmem
    · rw [List.mem_singleton] at hmem
      rw [hmem]
      exact knownStatus_wowza s serverId
    · simp at hmem
  · split at hmem
    · rw [List.mem_singleton] at hmem
      rw [hmem]
      exact Or.inl rfl
    · simp at hmem
  · split at hmem
    · rw [List.mem_singleton] at hmem
      rw [hmem]
      exact Or.inl rfl
    · simp at hmem

theorem selected_nil_of_no_test (user : User) (testType : Option String) (s : Store)
    (serverId : Option Nat) (hall : testType ≠ some "all") (hwowza : testType ≠ some "wowza")
    (hm3u8 : testType ≠ some "m3u8") (hssl : testType ≠ some "ssl") :
    selectedDiagnostics user testType s serverId = [] := by
  unfold selectedDiagnostics
  simp [hall, hwowza, hm3u8, hssl]

/-- C18: for every owner and every test selector, `/diagnostics`, when its store reads do not
throw, changes nothing and answers `success: true` with a non-empty list `results` in which
the status of every entry is one of `success`, `warning`, `error`; when the owner has a
streaming configured and the selector is none of `all`, `wowza`, `m3u8`, `ssl`, the list is
exactly the one `warning` entry `Nenhum teste executado`. -/
theorem diagnostics_results_nonempty (env : Env) (user : User) (body : DiagnosticsBody)
    (s : Store) (hdb : ∀ k, env.dbThrows k = none) :
    (diagnostics env user body s).store = s
    ∧ (diagnostics env user body s).effects = []
    ∧ ∃ results : List Json,
        (diagnostics env user body s).response.body
          = Json.obj [("success", Json.bool true), ("results", Json.arr results)]
        ∧ results ≠ []
        ∧ (∀ entry ∈ results,
            entry.field "status" = some (Json.str "success")
              ∨ entry.field "status" = some (Json.str "warning")
              ∨ entry.field "status" = some (Json.str "error"))
        ∧ (s.streamings.filter (fun r => r.codigo_cliente = user.id) ≠ [] →
            body.testType ≠ some "all" → body.testType ≠ some "wowza" →
            body.testType ≠ some "m3u8" → body.testType ≠ some "ssl" →
            results = [Json.obj [("status", Json.str "warning"),
              ("title", Json.str "Nenhum teste executado"),
              ("message", Json.str "Selecione um tipo de diagnóstico válido")]]) := by
  unfold diagnostics
  simp only [hdb, ite_self]
  cases hrows : s.streamings.filter (fun r => r.codigo_cliente = user.id) with
  | nil =>
    refine ⟨rfl, rfl, _, rfl, by simp, ?_, fun h => absurd rfl h⟩
    intro entry hmem
    rw [List.mem_singleton] at hmem
    rw [hmem]
    exact Or.inr (Or.inr rfl)
  | cons row rows =>
    refine ⟨rfl, rfl, _, rfl, ?_, ?_, ?_⟩
    · split
      · simp
      · next hlen =>
        intro hnil
        rw [hnil] at hlen
        exact hlen rfl
    · intro entry hmem
      split at hmem
      · rw [List.mem_singleton] at hmem
        rw [hmem]
        exact Or.inr (Or.inl rfl)
      · exact knownStatus_selected user body.testType s row.codigo_servidor entry hmem
    · intro _ hall hwowza hm3u8 hssl
      rw [selected_nil_of_no_test user body.testType s row.codigo_servidor hall hwowza hm3u8
        hssl]
      rfl

/-- Witness of C18: owner 7, who has a streaming, asks for the unknown test `dns`. -/
theorem diagnostics_results_nonempty_witness :
    ∃ results : List Json,
      (diagnostics (demoEnv SmilResult.success none) joao { testType := some "dns" }
          demoStore).response.body
        = Json.obj [("success", Json.bool true), ("results", Json.arr results)]
      ∧ results ≠ [] :=
  have h := diagnostics_results_nonempty (demoEnv SmilResult.success none) joao
    { testType := some "dns" } demoStore (fun _ => rfl)
  match h.2.2 with
  | ⟨results, hbody, hne, _, _⟩ => ⟨results, hbody, hne⟩

/-! ## No transmission is deleted -/

theorem sameTransmission_refl (t : Transmissao) : SameTransmission t t :=
  ⟨rfl, rfl, rfl, rfl, rfl, rfl, rfl⟩

theorem forall₂_sameTransmission_refl (l : List Transmissao) :
    List.Forall₂ SameTransmission l l := by
  induction l with
  | nil => exact List.Forall₂.nil
  | cons t ts ih => exact List.Forall₂.cons (sameTransmission_refl t) ih

theorem kept_of_eq (s s' : Store) (h : s'.transmissoes = s.transmissoes) :
    TransmissionsKept s s' :=
  ⟨s.transmissoes, [], by simp [h], forall₂_sameTransmission_refl s.transmissoes⟩

theorem forall₂_sameTransmission_map (f : Transmissao → Transmissao)
    (hf : ∀ t, SameTransmission t (f t)) (l kept : List Transmissao)
    (h : List.Forall₂ SameTransmission l kept) :
    List.Forall₂ SameTransmission l (kept.map f) := by
  induction h with
  | nil => exact List.Forall₂.nil
  | @cons a b l1 l2 hab _ ih =>
    refine List.Forall₂.cons ?_ ih
    obtain ⟨h1, h2, h3, h4, h5, h6, h7⟩ := hab
    obtain ⟨g1, g2, g3, g4, g5, g6, g7⟩ := hf b
    exact ⟨g1.trans h1, g2.trans h2, g3.trans h3, g4.trans h4, g5.trans h5, g6.trans h6,
      g7.trans h7⟩

theorem kept_finalize (s s1 : Store) (codigo now : Nat) (h : TransmissionsKept s s1) :
    TransmissionsKept s (finalizeTransmission s1 codigo now) := by
  obtain ⟨kept, added, hs1, hkept⟩ := h
  have hf : ∀ t : Transmissao, SameTransmission t
      (if t.codigo = codigo then
        { t with status := TransmissaoStatus.finalizada, data_fim := some now }
      else t) := by
    intro t
    by_cases hc : t.codigo = codigo
    · simp only [if_pos hc]
      exact ⟨rfl, rfl, rfl, rfl, rfl, rfl, rfl⟩
    · simp only [if_neg hc]
      exact sameTransmission_refl t
  refine ⟨kept.map (fun t => if t.codigo = codigo then
      { t with status := TransmissaoStatus.finalizada, data_fim := some now } else t),
    added.map (fun t => if t.codigo = codigo then
      { t with status := TransmissaoStatus.finalizada, data_fim := some now } else t),
    ?_, forall₂_sameTransmission_map _ hf _ _ hkept⟩
  unfold finalizeTransmission
  simp only [hs1, List.map_append]

theorem kept_insert (s s1 : Store) (userId : Nat) (titulo : Option String)
    (descricao : String) (playlist_id now : Nat) (h : TransmissionsKept s s1) :
    TransmissionsKept s (insertTransmission s1 userId titulo descricao playlist_id now) := by
  obtain ⟨kept, added, hs1, hkept⟩ := h
  refine ⟨kept, added ++ [newTransmission s1 userId titulo descricao playlist_id now], ?_,
    hkept⟩
  unfold insertTransmission
  simp only [hs1, List.append_assoc]

theorem kept_startInsert (env : Env) (user : User) (body : StartBody) (s s1 : Store)
    (effects1 : List Effect) (playlist : Playlist) (playlist_id total : Nat)
    (serverId : Option Nat) (servidor : String) (h : TransmissionsKept s s1) :
    TransmissionsKept s
      (startInsert env user body s1 effects1 playlist playlist_id total serverId
        servidor).store := by
  unfold startInsert
  repeat' first | split | dsimp only
  all_goals first
    | exact h
    | exact kept_insert _ _ _ _ _ _ _ h

theorem kept_startTransmission (env : Env) (user : User) (body : StartBody) (s : Store)
    (playlist : Playlist) (playlist_id total : Nat) (serverId : Option Nat)
    (servidor : String) :
    TransmissionsKept s
      (startTransmission env user body s playlist playlist_id total serverId servidor).store := by
  unfold startTransmission
  repeat' first | split | dsimp only
  all_goals first
    | exact kept_of_eq s s rfl
    | exact kept_startInsert _ _ _ _ _ _ _ _ _ _ _ (kept_of_eq s s rfl)
    | exact kept_startInsert _ _ _ _ _ _ _ _ _ _ _ (kept_finalize _ _ _ _ (kept_of_eq s s rfl))

theorem kept_start (env : Env) (user : User) (body : StartBody) (s : Store) :
    TransmissionsKept s (start env user body s).store := by
  unfold start
  repeat' first | split | dsimp only
  all_goals first
    | exact kept_of_eq s s rfl
    | exact kept_startTransmission _ _ _ _ _ _ _ _ _

theorem kept_stop (env : Env) (user : User) (body : StopBody) (s : Store) :
    TransmissionsKept s (stop env user body s).store := by
  unfold stop
  repeat' first | split | dsimp only
  all_goals first
    | exact kept_of_eq s s rfl
    | exact kept_finalize _ _ _ _ (kept_of_eq s s rfl)

theorem transmissoes_startRecording (env : Env) (user : User) (s : Store) :
    (startRecording env user s).store.transmissoes = s.transmissoes := by
  unfold startRecording startRecordingCheck startCapture
  repeat' first | split | dsimp only
  all_goals rfl

theorem transmissoes_stopRecording (env : Env) (user : User) (s : Store) :
    (stopRecording env user s).store.transmissoes = s.transmissoes := by
  unfold stopRecording
  repeat' first | split | dsimp only
  all_goals rfl

theorem transmissoes_diagnostics (env : Env) (user : User) (body : DiagnosticsBody)
    (s : Store) : (diagnostics env user body s).store.transmissoes = s.transmissoes := by
  unfold diagnostics
  repeat' first | split | dsimp only

theorem transmissoes_afterCalls (rewrite : List Streaming → List Streaming)
    (calls : List ServiceCall) (s : Store) :
    (afterCalls rewrite calls s).transmissoes = s.transmissoes := by
  unfold afterCalls
  induction calls generalizing s with
  | nil => rfl
  | cons call calls ih =>
    rw [List.foldl_cons, ih]
    rfl

theorem kept_storeAfter (env : Env) (svc : Services)
    (rewrite : List Streaming → List Streaming) (user : User) (request : Request)
    (s : Store) : TransmissionsKept s (storeAfter env svc rewrite user request s) := by
  cases request with
  | ligar body => exact kept_of_eq _ _ (transmissoes_afterCalls rewrite _ s)
  | desligar body => exact kept_of_eq _ _ (transmissoes_afterCalls rewrite _ s)
  | reiniciar body =>
    unfold storeAfter
    dsimp only
    split <;> exact kept_of_eq _ _ rfl
  | bloquear actor body => exact kept_of_eq _ _ (transmissoes_afterCalls rewrite _ s)
  | desbloquear actor body => exact kept_of_eq _ _ (transmissoes_afterCalls rewrite _ s)
  | remover actor body => exact kept_of_eq _ _ (transmissoes_afterCalls rewrite _ s)
  | statusLogin login =>
    unfold storeAfter
    dsimp only
    split
    · exact kept_of_eq _ _ rfl
    · split <;> exact kept_of_eq _ _ rfl
  | status => exact kept_of_eq _ _ rfl
  | start body => exact kept_start env user body s
  | stop body => exact kept_stop env user body s
  | list => exact kept_of_eq _ _ rfl
  | platforms => exact kept_of_eq _ _ rfl
  | lives => exact kept_of_eq _ _ rfl
  | obsStatus => exact kept_of_eq _ _ rfl
  | recarregarPlaylists body =>
    unfold storeAfter
    dsimp only
    split <;> exact kept_of_eq _ _ rfl
  | startLive => exact kept_of_eq _ _ rfl
  | stopLive => exact kept_of_eq _ _ rfl
  | removeLive => exact kept_of_eq _ _ rfl
  | restartLive => exact kept_of_eq _ _ rfl
  | liveStatus => exact kept_of_eq _ _ rfl
  | livesActive => exact kept_of_eq _ _ rfl
  | recordingStatus => exact kept_of_eq _ _ rfl
  | startRecording => exact kept_of_eq _ _ (transmissoes_startRecording env user s)
  | stopRecording => exact kept_of_eq _ _ (transmissoes_stopRecording env user s)
  | diagnostics body => exact kept_of_eq _ _ (transmissoes_diagnostics env user body s)
  | sourceUrls => exact kept_of_eq _ _ rfl

theorem forall₂_sameTransmission_mem (l kept : List Transmissao)
    (h : List.Forall₂ SameTransmission l kept) :
    ∀ t ∈ l, ∃ t' ∈ kept, SameTransmission t t' := by
  induction h with
  | nil =>
    intro t ht
    cases ht
  | @cons a b l1 l2 hab _ ih =>
    intro t ht
    rcases List.mem_cons.mp ht with heq | hmem
    · rw [heq]
      exact ⟨b, List.mem_cons_self b l2, hab⟩
    · obtain ⟨t', ht', hsame⟩ := ih t hmem
      exact ⟨t', List.mem_cons_of_mem b ht', hsame⟩

theorem kept_mem (s s' : Store) (h : TransmissionsKept s s') :
    ∀ t ∈ s.transmissoes, ∃ t' ∈ s'.transmissoes, SameTransmission t t' := by
  obtain ⟨kept, added, hs', hkept⟩ := h
  intro t ht
  obtain ⟨t', ht', hsame⟩ := forall₂_sameTransmission_mem _ _ hkept t ht
  exact ⟨t', by rw [hs']; exact List.mem_append_left added ht', hsame⟩

/-- C19: no route of the module deletes a transmission.  For every request to any of the 26
routes, every store and whatever the environment and the services answer, each row of
`transmissoes` present before the call is present after it, in the same position, with the
same identity, owner, title, description, playlist, start timestamp and kind: only its status
and end timestamp may differ.  For `/start` and `/stop`, the two routes that write the table,
the store after the call is that of the handler. -/
theorem transmissions_never_deleted (env : Env) (svc : Services)
    (rewrite : List Streaming → List Streaming) (user : User) (s : Store) :
    (∀ request : Request, TransmissionsKept s (storeAfter env svc rewrite user request s))
    ∧ (∀ (request : Request), ∀ t ∈ s.transmissoes,
        ∃ t' ∈ (storeAfter env svc rewrite user request s).transmissoes,
          t'.codigo = t.codigo ∧ t'.codigo_stm = t.codigo_stm ∧ t'.titulo = t.titulo
            ∧ t'.descricao = t.descricao ∧ t'.codigo_playlist = t.codigo_playlist
            ∧ t'.data_inicio = t.data_inicio ∧ t'.tipo_transmissao = t.tipo_transmissao)
    ∧ (∀ body : StartBody,
        storeAfter env svc rewrite user (Request.start body) s = (start env user body s).store)
    ∧ (∀ body : StopBody,
        storeAfter env svc rewrite user (Request.stop body) s = (stop env user body s).store) :=
  ⟨fun request => kept_storeAfter env svc rewrite user request s,
    fun request => kept_mem _ _ (kept_storeAfter env svc rewrite user request s),
    fun _ => rfl, fun _ => rfl⟩

/-! ## Overlapping start calls -/

theorem startOn_self (env : Env) (user : User) (body : StartBody) (s : Store) :
    startOn env user body s s = start env user body s := rfl

theorem startRecordingOn_self (env : Env) (user : User) (s : Store) :
    startRecordingOn env user s s = startRecording env user s := rfl

set_option maxRecDepth 8000 in
/-- C20, evaluated on the code.  The handlers with separate read and write stores are the
handlers themselves when the two stores coincide.  Two `/start-recording` calls of owner 7
overlap: both execute their lookup on the scenario store, where owner 7 has no recording in
progress, then the first call inserts its session and the second call inserts its own.  Both
answer `success: true` and owner 7 is left with the two sessions 22 and 23 in status
`recording`.  Likewise two overlapping `/start` calls of owner 7, which both select the
transmission 10 as the active one, leave the two transmissions 12 and 13 with status `ativa`.
The resulting stores break the one-active invariants. -/
theorem overlapping_starts_leave_two_active :
    (∀ (env : Env) (user : User) (body : StartBody) (s : Store),
      startOn env user body s s = start env user body s)
    ∧ (∀ (env : Env) (user : User) (s : Store),
      startRecordingOn env user s s = startRecording env user s)
    ∧ selectActiveRecordings demoStore 7 = []
    ∧ (startRecording (demoEnv SmilResult.success (some 555)) joao
        demoStore).response.body.field "success" = some (Json.bool true)
    ∧ (startRecordingOn (demoEnv SmilResult.success (some 556)) joao demoStore
        (startRecording (demoEnv SmilResult.success (some 555)) joao
          demoStore).store).response.body.field "success" = some (Json.bool true)
    ∧ (selectActiveRecordings
        (startRecordingOn (demoEnv SmilResult.success (some 556)) joao demoStore
          (startRecording (demoEnv SmilResult.success (some 555)) joao
            demoStore).store).store 7).map (fun r => (r.codigo, r.process_id))
        = [(22, some 555), (23, some 556)]
    ∧ ¬ OneActiveRecording
        (startRecordingOn (demoEnv SmilResult.success (some 556)) joao demoStore
          (startRecording (demoEnv SmilResult.success (some 555)) joao
            demoStore).store).store
    ∧ (selectActiveTransmissions demoStore 7).map (fun t => t.codigo) = [10]
    ∧ (start (demoEnv SmilResult.success none) joao demoStart
        demoStore).response.body.field "success" = some (Json.bool true)
    ∧ (startOn (demoEnv SmilResult.success none) joao demoStart demoStore
        (start (demoEnv SmilResult.success none) joao demoStart
          demoStore).store).response.body.field "success" = some (Json.bool true)
    ∧ (selectActiveTransmissions
        (startOn (demoEnv SmilResult.success none) joao demoStart demoStore
          (start (demoEnv SmilResult.success none) joao demoStart demoStore).store).store
        7).map (fun t => t.codigo) = [12, 13]
    ∧ ¬ OneActiveTransmission
        (startOn (demoEnv SmilResult.success none) joao demoStart demoStore
          (start (demoEnv SmilResult.success none) joao demoStart demoStore).store).store := by
  have hrec : (selectActiveRecordings
      (startRecordingOn (demoEnv SmilResult.success (some 556)) joao demoStore
        (startRecording (demoEnv SmilResult.success (some 555)) joao
          demoStore).store).store 7).length = 2 := by decide
  have htx : (selectActiveTransmissions
      (startOn (demoEnv SmilResult.success none) joao demoStart demoStore
        (start (demoEnv SmilResult.success none) joao demoStart demoStore).store).store
      7).length = 2 := by decide
  refine ⟨startOn_self, startRecordingOn_self, by decide, rfl, rfl, by decide, ?_, by decide,
    rfl, rfl, by decide, ?_⟩
  · intro h
    have := h 7
    rw [hrec] at this
    exact absurd this (by decide)
  · intro h
    have := h 7
    rw [htx] at this
    exact absurd this (by decide)

/-! ## Outcome of a successful `/start` -/

theorem startInsert_success_outcome (env : Env) (user : User) (body : StartBody) (s1 : Store)
    (effects1 : List Effect) (playlist : Playlist) (playlist_id total : Nat)
    (serverId : Option Nat) (servidor : String)
    (h : (startInsert env user body s1 effects1 playlist playlist_id total serverId
      servidor).response.body.field "success" = some (Json.bool true)) :
    (startInsert env user body s1 effects1 playlist playlist_id total serverId servidor).store
        = insertTransmission s1 user.id body.titulo (body.descricao.getD "") playlist_id
            (env.now 6)
    ∧ (startInsert env user body s1 effects1 playlist playlist_id total serverId
        servidor).effects
        = effects1 ++ [Effect.dbWrite (DbWrite.insertTransmissao s1.next_transmissao),
            Effect.generatePlaylistSMIL user.id (userLoginOf user) serverId playlist_id]
          ++ activateApplication env serverId (userLoginOf user) := by
  unfold startInsert at h ⊢
  dsimp only at h ⊢
  cases hdb : env.dbThrows 6 with
  | some m =>
    rw [hdb] at h
    simp [startCaught, caught, Json.field] at h
  | none =>
    rw [hdb] at h
    dsimp only at h ⊢
    cases hsmil : env.generatePlaylistSMIL user.id (userLoginOf user) serverId playlist_id with
    | success => exact ⟨rfl, rfl⟩
    | failure error =>
      rw [hsmil] at h
      simp [Json.field] at h
    | throws m =>
      rw [hsmil] at h
      simp [Json.field] at h

theorem startTransmission_success_outcome (env : Env) (user : User) (body : StartBody)
    (s : Store) (playlist : Playlist) (playlist_id total : Nat) (serverId : Option Nat)
    (servidor : String)
    (h : (startTransmission env user body s playlist playlist_id total serverId
      servidor).response.body.field "success" = some (Json.bool true)) :
    ∃ (s1 : Store) (effects1 : List Effect),
      ((selectActiveTransmissions s user.id = [] ∧ s1 = s ∧ effects1 = [])
        ∨ ∃ active rest, selectActiveTransmissions s user.id = active :: rest
            ∧ s1 = finalizeTransmission s active.codigo (env.now 5)
            ∧ effects1 = [Effect.dbWrite (DbWrite.updateTransmissao active.codigo)])
      ∧ (startTransmission env user body s playlist playlist_id total serverId servidor).store
          = insertTransmission s1 user.id body.titulo (body.descricao.getD "") playlist_id
              (env.now 6)
      ∧ (startTransmission env user body s playlist playlist_id total serverId
          servidor).effects
          = effects1 ++ [Effect.dbWrite (DbWrite.insertTransmissao s.next_transmissao),
              Effect.generatePlaylistSMIL user.id (userLoginOf user) serverId playlist_id]
            ++ activateApplication env serverId (userLoginOf user) := by
  unfold startTransmission at h ⊢
  cases hdb : env.dbThrows 4 with
  | some m =>
    rw [hdb] at h
    simp [startCaught, caught, Json.field] at h
  | none =>
    rw [hdb] at h
    dsimp only at h ⊢
    cases hsel : selectActiveTransmissions s user.id with
    | nil =>
      rw [hsel] at h
      have hout := startInsert_success_outcome env user body s [] _ _ _ _ _ h
      exact ⟨s, [], Or.inl ⟨rfl, rfl, rfl⟩, hout.1, hout.2⟩
    | cons active rest =>
      rw [hsel] at h
      dsimp only at h ⊢
      cases hdb5 : env.dbThrows 5 with
      | some m =>
        rw [hdb5] at h
        simp [startCaught, caught, Json.field] at h
      | none =>
        rw [hdb5] at h
        have hout := startInsert_success_outcome env user body _ _ _ _ _ _ _ h
        exact ⟨_, _, Or.inr ⟨active, rest, rfl, rfl, rfl⟩, hout.1, hout.2⟩

theorem start_success_outcome (env : Env) (user : User) (body : StartBody) (s : Store)
    (h : (start env user body s).response.body.field "success" = some (Json.bool true)) :
    ∃ (pid : Nat) (playlist : Playlist) (playlists : List Playlist) (s1 : Store)
      (effects1 : List Effect),
      truthyNat body.playlist_id = some pid
      ∧ selectPlaylists s pid user.id = playlist :: playlists
      ∧ ((selectActiveTransmissions s user.id = [] ∧ s1 = s ∧ effects1 = [])
        ∨ ∃ active rest, selectActiveTransmissions s user.id = active :: rest
            ∧ s1 = finalizeTransmission s active.codigo (env.now 5)
            ∧ effects1 = [Effect.dbWrite (DbWrite.updateTransmissao active.codigo)])
      ∧ (start env user body s).store
          = insertTransmission s1 user.id body.titulo (body.descricao.getD "") pid (env.now 6)
      ∧ (start env user body s).effects
          = effects1 ++ [Effect.dbWrite (DbWrite.insertTransmissao s.next_transmissao),
              Effect.generatePlaylistSMIL user.id (userLoginOf user) (serverIdOf s user.id) pid]
            ++ activateApplication env (serverIdOf s user.id) (userLoginOf user) := by
  unfold start at h ⊢
  dsimp only at h ⊢
  cases hpid : truthyNat body.playlist_id with
  | none =>
    rw [hpid] at h
    simp [Json.field] at h
  | some pid =>
    rw [hpid] at h
    dsimp only at h ⊢
    cases hdb0 : env.dbThrows 0 with
    | some m =>
      rw [hdb0] at h
      simp [startCaught, caught, Json.field] at h
    | none =>
      rw [hdb0] at h
      dsimp only at h ⊢
      cases hpl : selectPlaylists s pid user.id with
      | nil =>
        rw [hpl] at h
        simp [Json.field] at h
      | cons playlist playlists =>
        rw [hpl] at h
        dsimp only at h ⊢
        cases hdb1 : env.dbThrows 1 with
        | some m =>
          rw [hdb1] at h
          simp [startCaught, caught, Json.field] at h
        | none =>
          rw [hdb1] at h
          dsimp only at h ⊢
          by_cases hvid : countPlaylistVideos s pid user.id = 0
          · rw [if_pos hvid] at h
            simp [Json.field] at h
          · rw [if_neg hvid] at h ⊢
            cases hdb2 : env.dbThrows 2 with
            | some m =>
              rw [hdb2] at h
              simp [startCaught, caught, Json.field] at h
            | none =>
              rw [hdb2] at h
              dsimp only at h ⊢
              cases hdb3 : env.dbThrows 3 with
              | some m =>
                rw [hdb3] at h
                simp [startCaught, caught, Json.field] at h
              | none =>
                rw [hdb3] at h
                dsimp only at h ⊢
                cases hsrv : selectActiveServers s (serverIdOf s user.id) with
                | nil =>
                  rw [hsrv] at h
                  simp [Json.field] at h
                | cons server servers =>
                  rw [hsrv] at h
                  obtain ⟨s1, effects1, hcase, hstore, heff⟩ :=
                    startTransmission_success_outcome env user body s _ _ _ _ _ h
                  exact ⟨pid, playlist, playlists, s1, effects1, rfl, hpl, hcase, hstore,
                    heff⟩

/-! ## Remote commands of `/start` -/

theorem checkCommand_ne_startCommand (login : String) :
    jmxCommand ++ " getApplicationInstanceInfo " ++ login
      ≠ jmxCommand ++ " startAppInstance " ++ login := by
  intro h
  have hd := congrArg String.data h
  simp only [String.data_append, List.append_assoc] at hd
  have hd' := List.append_cancel_left hd
  simp only [List.cons_append] at hd'
  injection hd' with _ hd'
  injection hd' with hchar _
  exact absurd hchar (by decide)

theorem includes_empty_loaded : includes "" "loaded" = false := by decide

theorem activateApplication_cases (env : Env) (serverId : Option Nat) (userLogin : String) :
    ((∃ stdout stderr,
        env.executeCommand serverId (jmxCommand ++ " getApplicationInstanceInfo " ++ userLogin)
          = SshResult.result stdout stderr ∧ includes stdout "loaded" = false)
      ∧ activateApplication env serverId userLogin
        = [Effect.executeCommand serverId
            (jmxCommand ++ " getApplicationInstanceInfo " ++ userLogin),
           Effect.executeCommand serverId (jmxCommand ++ " startAppInstance " ++ userLogin)])
    ∨ ((¬ ∃ stdout stderr,
        env.executeCommand serverId (jmxCommand ++ " getApplicationInstanceInfo " ++ userLogin)
          = SshResult.result stdout stderr ∧ includes stdout "loaded" = false)
      ∧ activateApplication env serverId userLogin
        = [Effect.executeCommand serverId
            (jmxCommand ++ " getApplicationInstanceInfo " ++ userLogin)]) := by
  unfold activateApplication
  dsimp only
  cases hssh : env.executeCommand serverId
      (jmxCommand ++ " getApplicationInstanceInfo " ++ userLogin) with
  | throws m =>
    right
    refine ⟨?_, rfl⟩
    rintro ⟨stdout, stderr, heq, _⟩
    cases heq
  | result stdout stderr =>
    dsimp only
    by_cases hrun : stdout ≠ "" ∧ includes stdout "loaded" = true
    · right
      rw [if_pos hrun]
      refine ⟨?_, rfl⟩
      rintro ⟨stdout', stderr', heq, hinc⟩
      cases heq
      rw [hrun.2] at hinc
      cases hinc
    · left
      rw [if_neg hrun]
      refine ⟨⟨stdout, stderr, rfl, ?_⟩, rfl⟩
      by_cases hempty : stdout = ""
      · rw [hempty]
        exact includes_empty_loaded
      · cases hinc : includes stdout "loaded" with
        | false => rfl
        | true => exact absurd ⟨hempty, hinc⟩ hrun

theorem filter_isExecuteCommand_start (env : Env) (user : User) (body : StartBody) (s : Store)
    (h : (start env user body s).response.body.field "success" = some (Json.bool true)) :
    (start env user body s).effects.filter Effect.isExecuteCommand
      = activateApplication env (serverIdOf s user.id) (userLoginOf user) := by
  obtain ⟨pid, playlist, playlists, s1, effects1, _, _, hcase, _, heff⟩ :=
    start_success_outcome env user body s h
  rw [heff]
  have hact : (activateApplication env (serverIdOf s user.id) (userLoginOf user)).filter
      Effect.isExecuteCommand
      = activateApplication env (serverIdOf s user.id) (userLoginOf user) := by
    rcases activateApplication_cases env (serverIdOf s user.id) (userLoginOf user) with
      ⟨_, hc⟩ | ⟨_, hc⟩
    · rw [hc]
      rfl
    · rw [hc]
      rfl
  rcases hcase with ⟨_, _, he⟩ | ⟨active, rest, _, _, he⟩
  · rw [he, List.filter_append, List.filter_append, hact]
    rfl
  · rw [he, List.filter_append, List.filter_append, hact]
    rfl

/-- C21: in a successful `/start` (the manifest has been provisioned), the commands executed
on the remote channel are the running-check command `getApplicationInstanceInfo` for the
owner's application, exactly once, followed by at most the activation command
`startAppInstance`; the activation command is issued if and only if the running check
returned normally with an output that does not contain `loaded`.  In particular no
activation command is issued when the application is reported as loaded. -/
theorem start_remote_commands (env : Env) (user : User) (body : StartBody) (s : Store)
    (h : (start env user body s).response.body.field "success" = some (Json.bool true)) :
    (∃ rest, (start env user body s).effects.filter Effect.isExecuteCommand
        = Effect.executeCommand (serverIdOf s user.id)
            (jmxCommand ++ " getApplicationInstanceInfo " ++ userLoginOf user) :: rest
      ∧ (rest = [] ∨ rest = [Effect.executeCommand (serverIdOf s user.id)
            (jmxCommand ++ " startAppInstance " ++ userLoginOf user)]))
    ∧ (start env user body s).effects.count
        (Effect.executeCommand (serverIdOf s user.id)
          (jmxCommand ++ " getApplicationInstanceInfo " ++ userLoginOf user)) = 1
    ∧ (Effect.executeCommand (serverIdOf s user.id)
          (jmxCommand ++ " startAppInstance " ++ userLoginOf user)
        ∈ (start env user body s).effects
      ↔ ∃ stdout stderr,
          env.executeCommand (serverIdOf s user.id)
            (jmxCommand ++ " getApplicationInstanceInfo " ++ userLoginOf user)
            = SshResult.result stdout stderr
          ∧ includes stdout "loaded" = false)
    ∧ (∀ stdout stderr,
        env.executeCommand (serverIdOf s user.id)
            (jmxCommand ++ " getApplicationInstanceInfo " ++ userLoginOf user)
          = SshResult.result stdout stderr →
        includes stdout "loaded" = true →
        Effect.executeCommand (serverIdOf s user.id)
            (jmxCommand ++ " startAppInstance " ++ userLoginOf user)
          ∉ (start env user body s).effects) := by
  have hfilter := filter_isExecuteCommand_start env user body s h
  have hne := checkCommand_ne_startCommand (userLoginOf user)
  have hmem : ∀ e : Effect, e.isExecuteCommand = true →
      (e ∈ (start env user body s).effects
        ↔ e ∈ activateApplication env (serverIdOf s user.id) (userLoginOf user)) := by
    intro e he
    rw [← hfilter, List.mem_filter]
    exact ⟨fun hm => ⟨hm, he⟩, fun hm => hm.1⟩
  have hcount : ∀ e : Effect, e.isExecuteCommand = true →
      (start env user body s).effects.count e
        = (activateApplication env (serverIdOf s user.id) (userLoginOf user)).count e := by
    intro e he
    rw [← hfilter, List.count_filter he]
  have hiff : (Effect.executeCommand (serverIdOf s user.id)
          (jmxCommand ++ " startAppInstance " ++ userLoginOf user)
        ∈ (start env user body s).effects
      ↔ ∃ stdout stderr,
          env.executeCommand (serverIdOf s user.id)
            (jmxCommand ++ " getApplicationInstanceInfo " ++ userLoginOf user)
            = SshResult.result stdout stderr
          ∧ includes stdout "loaded" = false) := by
    rw [hmem (Effect.executeCommand (serverIdOf s user.id)
      (jmxCommand ++ " startAppInstance " ++ userLoginOf user)) rfl]
    rcases activateApplication_cases env (serverIdOf s user.id) (userLoginOf user) with
      ⟨hc, hact⟩ | ⟨hc, hact⟩
    · rw [hact]
      exact ⟨fun _ => hc, fun _ => by simp⟩
    · rw [hact]
      refine ⟨fun hm => ?_, fun hx => absurd hx hc⟩
      rw [List.mem_singleton] at hm
      injection hm with _ hcmd
      exact absurd hcmd.symm hne
  refine ⟨?_, ?_, hiff, ?_⟩
  · rw [hfilter]
    rcases activateApplication_cases env (serverIdOf s user.id) (userLoginOf user) with
      ⟨_, hact⟩ | ⟨_, hact⟩
    · exact ⟨_, hact, Or.inr rfl⟩
    · exact ⟨_, hact, Or.inl rfl⟩
  · rw [hcount (Effect.executeCommand (serverIdOf s user.id)
      (jmxCommand ++ " getApplicationInstanceInfo " ++ userLoginOf user)) rfl]
    have hne' : Effect.executeCommand (serverIdOf s user.id)
          (jmxCommand ++ " startAppInstance " ++ userLoginOf user)
        ≠ Effect.executeCommand (serverIdOf s user.id)
          (jmxCommand ++ " getApplicationInstanceInfo " ++ userLoginOf user) := by
      intro heq
      injection heq with _ hcmd
      exact absurd hcmd.symm hne
    rcases activateApplication_cases env (serverIdOf s user.id) (userLoginOf user) with
      ⟨_, hact⟩ | ⟨_, hact⟩
    · rw [hact]
      simp [List.count_cons, hne']
    · rw [hact]
      simp
  · intro stdout stderr hres hloaded hm
    obtain ⟨stdout', stderr', hres', hinc⟩ := hiff.mp hm
    rw [hres] at hres'
    cases hres'
    rw [hloaded] at hinc
    cases hinc

set_option maxRecDepth 8000 in
/-- Witness of C21: owner 7 starts playlist 3 on a channel where the application is not
loaded; the running check is sent once and the activation command is issued. -/
theorem start_remote_commands_witness :
    (start { demoEnv SmilResult.success none with executeCommand := demoChannel "started" } joao
        demoStart demoStore).effects.count
        (Effect.executeCommand (serverIdOf demoStore joao.id)
          (jmxCommand ++ " getApplicationInstanceInfo " ++ userLoginOf joao)) = 1
    ∧ Effect.executeCommand (serverIdOf demoStore joao.id)
          (jmxCommand ++ " startAppInstance " ++ userLoginOf joao)
        ∈ (start { demoEnv SmilResult.success none with executeCommand := demoChannel "started" }
            joao demoStart demoStore).effects :=
  have h := start_remote_commands
    { demoEnv SmilResult.success none with executeCommand := demoChannel "started" } joao
    demoStart demoStore rfl
  ⟨h.2.1, h.2.2.1.mpr ⟨"", "", rfl, by decide⟩⟩

/-! ## Outcome of a successful `/start-recording` -/

theorem startCapture_success_outcome (env : Env) (user : User) (s : Store)
    (effects0 : List Effect)
    (h : (startCapture env user s effects0).response.body.field "success"
      = some (Json.bool true)) :
    ∃ pid, env.spawn "ffmpeg" (ffmpegArgsOf env user s) = SpawnResult.child pid
      ∧ (startCapture env user s effects0).store
          = insertRecording s user.id (recordingFileName env) (recordingFullPath env user)
              (env.now 5) pid
      ∧ (startCapture env user s effects0).effects
          = effects0
            ++ [Effect.mkdir (env.pathJoin ["/var/www/html/content", userLoginOf user,
                  "gravacoes"]),
                Effect.spawn "ffmpeg" (ffmpegArgsOf env user s)]
            ++ [Effect.dbWrite (DbWrite.insertRecording s.next_recording)]
      ∧ (startCapture env user s effects0).response.body
          = Json.obj [
              ("success", Json.bool true),
              ("recordingId", Json.num s.next_recording),
              ("fileName", Json.str (recordingFileName env)),
              ("fullPath", Json.str (recordingFullPath env user)),
              ("message", Json.str "Gravação iniciada com sucesso"),
              ("streamUrl", Json.str (streamUrlOf s user))] := by
  unfold startCapture at h ⊢
  dsimp only at h ⊢
  cases hdb3 : env.dbThrows 3 with
  | some m =>
    rw [hdb3] at h
    simp [startRecordingCaught, Json.field] at h
  | none =>
    rw [hdb3] at h
    dsimp only at h ⊢
    cases hdb4 : env.dbThrows 4 with
    | some m =>
      rw [hdb4] at h
      simp [startRecordingCaught, Json.field] at h
    | none =>
      rw [hdb4] at h
      dsimp only at h ⊢
      have hargs : ["-i", "https://" ++ wowzaHostOf s (serverIdOf s user.id) ++ "/"
            ++ userLoginOf user ++ "/" ++ userLoginOf user ++ "/playlist.m3u8", "-c", "copy",
            "-bsf:a", "aac_adtstoasc", "-y",
            env.pathJoin [env.pathJoin ["/var/www/html/content", userLoginOf user, "gravacoes"],
              "recording_" ++ recordingTimestamp env.isoString ++ ".mp4"]]
          = ffmpegArgsOf env user s := rfl
      rw [hargs] at h ⊢
      cases hspawn : env.spawn "ffmpeg" (ffmpegArgsOf env user s) with
      | throws m type =>
        rw [hspawn] at h
        simp [startRecordingCaught, Json.field] at h
      | child pid =>
        rw [hspawn] at h
        dsimp only at h ⊢
        cases pid with
        | none => simp [startRecordingCaught, Json.field] at h
        | some p =>
          dsimp only at h ⊢
          cases hdb5 : env.dbThrows 5 with
          | some m =>
            rw [hdb5] at h
            simp [startRecordingCaught, Json.field] at h
          | none => exact ⟨some p, rfl, rfl, rfl, rfl⟩

theorem startRecording_success_outcome (env : Env) (user : User) (s : Store)
    (h : (startRecording env user s).response.body.field "success" = some (Json.bool true)) :
    ∃ (pid : Option Nat) (effects0 : List Effect),
      selectActiveRecordings s user.id = []
      ∧ (effects0 = [] ∨ effects0 = [Effect.dbWrite DbWrite.createRecordingTable])
      ∧ env.spawn "ffmpeg" (ffmpegArgsOf env user s) = SpawnResult.child pid
      ∧ (startRecording env user s).store
          = insertRecording s user.id (recordingFileName env) (recordingFullPath env user)
              (env.now 5) pid
      ∧ (startRecording env user s).effects
          = effects0
            ++ [Effect.mkdir (env.pathJoin ["/var/www/html/content", userLoginOf user,
                  "gravacoes"]),
                Effect.spawn "ffmpeg" (ffmpegArgsOf env user s)]
            ++ [Effect.dbWrite (DbWrite.insertRecording s.next_recording)]
      ∧ (startRecording env user s).response.body
          = Json.obj [
              ("success", Json.bool true),
              ("recordingId", Json.num s.next_recording),
              ("fileName", Json.str (recordingFileName env)),
              ("fullPath", Json.str (recordingFullPath env user)),
              ("message", Json.str "Gravação iniciada com sucesso"),
              ("streamUrl", Json.str (streamUrlOf s user))] := by
  have hcheck : ∀ effects0 : List Effect,
      (startRecordingCheck env user s effects0).response.body.field "success"
        = some (Json.bool true) →
      selectActiveRecordings s user.id = []
      ∧ startRecordingCheck env user s effects0 = startCapture env user s effects0 := by
    intro effects0 hc
    unfold startRecordingCheck at hc ⊢
    cases hdb2 : env.dbThrows 2 with
    | some m =>
      rw [hdb2] at hc
      simp [startRecordingCaught, Json.field] at hc
    | none =>
      rw [hdb2] at hc
      dsimp only at hc ⊢
      cases hsel : selectActiveRecordings s user.id with
      | cons r rs =>
        rw [hsel] at hc
        simp [Json.field] at hc
      | nil => exact ⟨rfl, rfl⟩
  unfold startRecording at h ⊢
  by_cases hid : user.id = 0
  · rw [if_pos hid] at h
    simp [Json.field] at h
  · rw [if_neg hid] at h ⊢
    cases hdb0 : env.dbThrows 0 with
    | none =>
      rw [hdb0] at h
      dsimp only at h ⊢
      obtain ⟨hnone, heq⟩ := hcheck [] h
      rw [heq] at h ⊢
      obtain ⟨pid, hspawn, hstore, heff, hbody⟩ := startCapture_success_outcome env user s [] h
      exact ⟨pid, [], hnone, Or.inl rfl, hspawn, hstore, heff, hbody⟩
    | some m0 =>
      rw [hdb0] at h
      dsimp only at h ⊢
      cases hdb1 : env.dbThrows 1 with
      | some m =>
        rw [hdb1] at h
        simp [Json.field] at h
      | none =>
        rw [hdb1] at h
        dsimp only at h ⊢
        obtain ⟨hnone, heq⟩ := hcheck _ h
        rw [heq] at h ⊢
        obtain ⟨pid, hspawn, hstore, heff, hbody⟩ :=
          startCapture_success_outcome env user s _ h
        exact ⟨pid, _, hnone, Or.inr rfl, hspawn, hstore, heff, hbody⟩

/-! ## The process id from `/start-recording` to `/stop-recording` -/

theorem filter_isKill_killEffects (recording : RecordingSession) :
    (killEffects recording).filter Effect.isKill = killEffects recording := by
  unfold killEffects
  split <;> rfl

theorem filter_isKill_statEffects (recording : RecordingSession) :
    (statEffects recording).filter Effect.isKill = [] := by
  unfold statEffects
  split <;> rfl

theorem filter_isKill_stopRecording (env : Env) (user : User) (s : Store)
    (recording : RecordingSession) (rest : List RecordingSession)
    (hdb : env.dbThrows 0 = none)
    (hsel : selectActiveRecordings s user.id = recording :: rest) :
    (stopRecording env user s).effects.filter Effect.isKill = killEffects recording := by
  unfold stopRecording
  simp only [hdb, hsel]
  cases env.dbThrows 1 with
  | some m =>
    simp only [List.filter_append, filter_isKill_killEffects, filter_isKill_statEffects]
    simp [Effect.isKill]
  | none =>
    simp only [List.filter_append, filter_isKill_killEffects, filter_isKill_statEffects]
    simp [Effect.isKill]

/-- C22: after a successful `/start-recording` of an owner, a `/stop-recording` of the same
owner on the resulting store (its lookup not throwing) selects the session that the start
inserted, whose stored process id is the one of the child returned by `spawn`; the signals
it sends are exactly one `SIGTERM` (never another signal) to that process id, and none at all
when no process id is stored. -/
theorem recording_pid_round_trip (env env' : Env) (user : User) (s : Store)
    (hstart : (startRecording env user s).response.body.field "success"
      = some (Json.bool true))
    (hdb : env'.dbThrows 0 = none) :
    ∃ pid : Option Nat,
      env.spawn "ffmpeg" (ffmpegArgsOf env user s) = SpawnResult.child pid
      ∧ (∃ row, selectActiveRecordings (startRecording env user s).store user.id = [row]
          ∧ row.codigo = s.next_recording ∧ row.process_id = pid)
      ∧ (stopRecording env' user (startRecording env user s).store).effects.filter
            Effect.isKill
          = (match truthyNat pid with
            | some p => [Effect.kill p "SIGTERM"]
            | none => []) := by
  obtain ⟨pid, effects0, hnone, _, hspawn, hstore, _, _⟩ :=
    startRecording_success_outcome env user s hstart
  have hsel : selectActiveRecordings (startRecording env user s).store user.id
      = [newRecording s user.id (recordingFileName env) (recordingFullPath env user)
          (env.now 5) pid] := by
    rw [hstore, selectRecordings_insert, hnone]
    simp
  refine ⟨pid, hspawn, ⟨_, hsel, rfl, rfl⟩, ?_⟩
  rw [filter_isKill_stopRecording env' user _ _ [] hdb hsel]
  rfl

/-- Witness of C22: owner 7 starts a recording whose process has id 555, then stops it. -/
theorem recording_pid_round_trip_witness :
    ∃ pid : Option Nat,
      (demoEnv SmilResult.success (some 555)).spawn "ffmpeg"
          (ffmpegArgsOf (demoEnv SmilResult.success (some 555)) joao demoStore)
        = SpawnResult.child pid
      ∧ (∃ row, selectActiveRecordings
            (startRecording (demoEnv SmilResult.success (some 555)) joao demoStore).store
            joao.id = [row]
          ∧ row.codigo = demoStore.next_recording ∧ row.process_id = pid)
      ∧ (stopRecording (demoEnv SmilResult.success none) joao
            (startRecording (demoEnv SmilResult.success (some 555)) joao
              demoStore).store).effects.filter Effect.isKill
          = (match truthyNat pid with
            | some p => [Effect.kill p "SIGTERM"]
            | none => []) :=
  recording_pid_round_trip (demoEnv SmilResult.success (some 555))
    (demoEnv SmilResult.success none) joao demoStore rfl rfl

/-! ## Arguments of the capture process -/

/-- C23: for every accepted `/start-recording` (`success: true`), exactly one process is
spawned, `ffmpeg` with the arguments `-i sourceUrl -c copy -bsf:a aac_adtstoasc -y fullPath`,
where `sourceUrl` is `https://host/login/login/playlist.m3u8`.  Here `host` is that of the
owner's server: the first row of `wowza_servers` whose `codigo` is the `codigo_servidor` of
the owner's first row of `streamings` (server 1 when the owner has no such row), its `dominio`
when set and not empty, else its `ip`, and `stmv1.udicast.com` when there is no such server
row; and `fullPath` is the path stored on the inserted session and returned to the caller. -/
theorem start_recording_spawn_arguments (env : Env) (user : User) (s : Store)
    (h : (startRecording env user s).response.body.field "success" = some (Json.bool true)) :
    ∃ (serverId : Option Nat) (host fullPath : String),
      serverId = (match s.streamings.filter (fun r => r.codigo_cliente = user.id) with
          | r :: _ => r.codigo_servidor
          | [] => some 1)
      ∧ host = (match s.wowza_servers.filter (fun w => some w.codigo = serverId) with
          | w :: _ =>
            (match w.dominio with
              | some d => if d = "" then w.ip else d
              | none => w.ip)
          | [] => "stmv1.udicast.com")
      ∧ (startRecording env user s).effects.filter Effect.isSpawn
          = [Effect.spawn "ffmpeg" ["-i", "https://" ++ host ++ "/" ++ userLoginOf user ++ "/"
              ++ userLoginOf user ++ "/playlist.m3u8", "-c", "copy", "-bsf:a",
              "aac_adtstoasc", "-y", fullPath]]
      ∧ (startRecording env user s).response.body.field "fullPath" = some (Json.str fullPath)
      ∧ (startRecording env user s).response.body.field "recordingId"
          = some (Json.num s.next_recording)
      ∧ ∃ row ∈ (startRecording env user s).store.recording_sessions,
          row.codigo = s.next_recording ∧ row.codigo_stm = user.id
            ∧ row.caminho_completo = some fullPath := by
  obtain ⟨pid, effects0, _, heff0, _, hstore, heff, hbody⟩ :=
    startRecording_success_outcome env user s h
  refine ⟨serverIdOf s user.id, wowzaHostOf s (serverIdOf s user.id),
    recordingFullPath env user, rfl, ?_, ?_, ?_, ?_, ?_⟩
  · unfold wowzaHostOf
    cases s.wowza_servers.filter (fun w => some w.codigo = serverIdOf s user.id) with
    | nil => rfl
    | cons w ws =>
      dsimp only
      unfold hostOf truthyStr
      cases w.dominio with
      | none => rfl
      | some d => by_cases hd : d = "" <;> simp [hd]
  · rw [heff]
    rcases heff0 with he | he
    · rw [he]
      rfl
    · rw [he]
      rfl
  · rw [hbody]
    rfl
  · rw [hbody]
    rfl
  · rw [hstore]
    refine ⟨newRecording s user.id (recordingFileName env) (recordingFullPath env user)
      (env.now 5) pid, ?_, rfl, rfl, rfl⟩
    unfold insertRecording
    simp

/-- Witness of C23: owner 7 (`joao`), whose streaming is on server 2, starts a recording in a
store that also holds server 1; the source URL is on the host of server 2. -/
theorem start_recording_spawn_arguments_witness :
    (startRecording (demoEnv SmilResult.success (some 555)) joao
        demoStoreTwoServers).effects.filter Effect.isSpawn
      = [Effect.spawn "ffmpeg" ["-i", "https://stm2.example.com/joao/joao/playlist.m3u8", "-c",
          "copy", "-bsf:a", "aac_adtstoasc", "-y",
          "/var/www/html/content/joao/gravacoes/recording_2024-01-02T03-04-05.mp4"]]
    ∧ (startRecording (demoEnv SmilResult.success (some 555)) joao
        demoStoreTwoServers).response.body.field "fullPath"
      = some (Json.str
          "/var/www/html/content/joao/gravacoes/recording_2024-01-02T03-04-05.mp4") := by
  obtain ⟨serverId, host, fullPath, hsid, hhost, hspawn, hpath, _, _⟩ :=
    start_recording_spawn_arguments (demoEnv SmilResult.success (some 555)) joao
      demoStoreTwoServers rfl
  have hsid2 : serverId = some 2 := hsid
  subst hsid2
  have hh : host = "stm2.example.com" := hhost
  have hconcrete : (startRecording (demoEnv SmilResult.success (some 555)) joao
      demoStoreTwoServers).response.body.field "fullPath"
      = some (Json.str
          "/var/www/html/content/joao/gravacoes/recording_2024-01-02T03-04-05.mp4") := rfl
  have hfull : fullPath
      = "/var/www/html/content/joao/gravacoes/recording_2024-01-02T03-04-05.mp4" := by
    rw [hpath] at hconcrete
    injection hconcrete with hj
    injection hj
  rw [hspawn, hpath, hh, hfull]
  exact ⟨rfl, rfl⟩

/-! ## The platform catalog -/

theorem selectActivePlatforms_perm (le : String → String → Bool)
    (table : List StreamingPlatform) :
    (selectActivePlatforms le table).Perm (table.filter (fun p => p.ativo = 1)) :=
  List.perm_insertionSort _ _

/-- C24: `GET /platforms` always answers 200 `success: true` with a non-empty list
`platforms`.  When the read succeeds and the catalog has at least one active row, the list is
the active rows (all of them, ordered by `nome`); when it has none, the list is the default
catalog; when the read throws, the list is the default catalog of the `catch` block.  The two
default catalogs are the same list: the entries `youtube`, `facebook`, `twitch`, `custom`, in
that order, with the same members. -/
theorem platforms_catalog (env : Env) (le : String → String → Bool)
    (table : List StreamingPlatform) :
    (platforms env le table).status = 200
    ∧ (platforms env le table).body.field "success" = some (Json.bool true)
    ∧ (∃ list, (platforms env le table).body.field "platforms" = some (Json.arr list)
        ∧ list ≠ [])
    ∧ (env.dbThrows 0 = none → table.filter (fun p => p.ativo = 1) ≠ [] →
        (platforms env le table).body.field "platforms"
          = some (Json.arr ((selectActivePlatforms le table).map StreamingPlatform.toJson)))
    ∧ (selectActivePlatforms le table).Perm (table.filter (fun p => p.ativo = 1))
    ∧ (env.dbThrows 0 = none → table.filter (fun p => p.ativo = 1) = [] →
        (platforms env le table).body.field "platforms" = some (Json.arr defaultPlatforms))
    ∧ (env.dbThrows 0 ≠ none →
        (platforms env le table).body.field "platforms"
          = some (Json.arr defaultPlatformsCaught))
    ∧ defaultPlatformsCaught = defaultPlatforms
    ∧ defaultPlatforms.map (fun entry => entry.field "id")
        = [some (Json.str "youtube"), some (Json.str "facebook"), some (Json.str "twitch"),
           some (Json.str "custom")] := by
  have hperm := selectActivePlatforms_perm le table
  refine ⟨?_, ?_, ?_, ?_, hperm, ?_, ?_, rfl, rfl⟩
  · unfold platforms
    cases env.dbThrows 0 with
    | some m => rfl
    | none =>
      dsimp only
      cases selectActivePlatforms le table <;> rfl
  · unfold platforms
    cases env.dbThrows 0 with
    | some m => rfl
    | none =>
      dsimp only
      cases selectActivePlatforms le table <;> rfl
  · unfold platforms
    cases env.dbThrows 0 with
    | some m => exact ⟨_, rfl, by simp [defaultPlatformsCaught]⟩
    | none =>
      dsimp only
      cases selectActivePlatforms le table with
      | nil => exact ⟨_, rfl, by simp [defaultPlatforms]⟩
      | cons row rows => exact ⟨_, rfl, by simp⟩
  · intro hdb hne
    unfold platforms
    rw [hdb]
    dsimp only
    cases hsel : selectActivePlatforms le table with
    | nil =>
      rw [hsel] at hperm
      exact absurd hperm.symm.eq_nil hne
    | cons row rows => rfl
  · intro hdb hnil
    unfold platforms
    rw [hdb]
    dsimp only
    cases hsel : selectActivePlatforms le table with
    | nil => rfl
    | cons row rows =>
      rw [hsel, hnil] at hperm
      exact absurd hperm.eq_nil (by simp)
  · intro hdb
    unfold platforms
    cases hthrows : env.dbThrows 0 with
    | some m => rfl
    | none => exact absurd hthrows hdb

/-- Witness of C24: the catalog holds the active platform `YouTube` and an inactive one. -/
theorem platforms_catalog_witness :
    (platforms (demoEnv SmilResult.success none) (fun _ _ => true) demoCatalog).body.field
        "platforms"
      = some (Json.arr ((selectActivePlatforms (fun _ _ => true) demoCatalog).map
          StreamingPlatform.toJson))
    ∧ (selectActivePlatforms (fun _ _ => true) demoCatalog).map (fun p => p.nome)
      = ["YouTube"] :=
  ⟨(platforms_catalog (demoEnv SmilResult.success none) (fun _ _ => true) demoCatalog).2.2.2.1
      rfl (fun h => absurd (congrArg List.length h) (by decide)),
    by decide⟩

/-! ## Server lookup of `/start` -/

/-- C25: when the owner's server row is missing or not active (the lookup returns no row),
`/start` fails before any write, whatever the environment answers: the store is unchanged (no
transmission is inserted, an active transmission of the owner is not finalized) and no call
is issued (no manifest provisioning, no remote command); when the playlist validation passes
and no store statement throws, the failure is 500 `Servidor não encontrado ou inativo`. -/
theorem start_without_active_server (env : Env) (user : User) (body : StartBody) (s : Store)
    (hsrv : selectActiveServers s (serverIdOf s user.id) = []) :
    (start env user body s).store = s
    ∧ (start env user body s).effects = []
    ∧ (start env user body s).response.body.field "success" = some (Json.bool false)
    ∧ 400 ≤ (start env user body s).response.status
    ∧ (∀ pid, truthyNat body.playlist_id = some pid →
        selectPlaylists s pid user.id ≠ [] → countPlaylistVideos s pid user.id ≠ 0 →
        (∀ k, env.dbThrows k = none) →
        (start env user body s).response.status = 500
        ∧ (start env user body s).response.body
            = Json.obj [("success", Json.bool false),
                ("error", Json.str "Servidor não encontrado ou inativo")]) := by
  refine ⟨?_, ?_, ?_, ?_, ?_⟩
  · unfold start
    repeat' first | split | dsimp only
    all_goals first
      | rfl
      | (exfalso; simp_all)
  · unfold start
    repeat' first | split | dsimp only
    all_goals first
      | rfl
      | (exfalso; simp_all)
  · unfold start
    repeat' first | split | dsimp only
    all_goals first
      | rfl
      | (exfalso; simp_all)
  · unfold start
    repeat' first | split | dsimp only
    all_goals first
      | simp [startCaught, caught]
      | (exfalso; simp_all)
  · intro pid hpid hpl hvid hdb
    obtain ⟨playlist, playlists, hpl⟩ := List.exists_cons_of_ne_nil hpl
    have hrun : start env user body s
        = ⟨s, [], { status := 500, body := Json.obj [("success", Json.bool false),
            ("error", Json.str "Servidor não encontrado ou inativo")] }⟩ := by
      unfold start
      simp only [hpid, hdb, hpl, hsrv, if_neg hvid]
    rw [hrun]
    exact ⟨rfl, rfl⟩

/-- Witness of C25: owner 7 starts playlist 3 while their server is not active and their
transmission 10 is active. -/
theorem start_without_active_server_witness :
    selectActiveServers demoStoreServerDown (serverIdOf demoStoreServerDown joao.id) = []
    ∧ (start (demoEnv SmilResult.success none) joao demoStart demoStoreServerDown).store
        = demoStoreServerDown
    ∧ (start (demoEnv SmilResult.success none) joao demoStart
        demoStoreServerDown).response.body
        = Json.obj [("success", Json.bool false),
            ("error", Json.str "Servidor não encontrado ou inativo")] :=
  have h := start_without_active_server (demoEnv SmilResult.success none) joao demoStart
    demoStoreServerDown (by decide)
  ⟨by decide, h.1, (h.2.2.2.2 3 rfl (by decide) (by decide) (fun _ => rfl)).2⟩

/-! ## `GET /status` after `/start` and `/stop` -/

theorem latestStatusRow_mem (s : Store) (userId : Nat) (row : Transmissao × Option Playlist)
    (h : latestStatusRow s userId = some row) : row ∈ statusRows s userId := by
  unfold latestStatusRow at h
  have hmem : row ∈ (statusRows s userId).insertionSort
      (fun a b => b.1.data_inicio ≤ a.1.data_inicio) := List.mem_of_mem_head? h
  exact (List.perm_insertionSort _ _).mem_iff.mp hmem

theorem latestStatusRow_none (s : Store) (userId : Nat) (h : statusRows s userId = []) :
    latestStatusRow s userId = none := by
  unfold latestStatusRow
  rw [h]
  rfl

theorem latestStatusRow_some (s : Store) (userId : Nat) (h : statusRows s userId ≠ []) :
    ∃ row, latestStatusRow s userId = some row := by
  unfold latestStatusRow
  cases hsort : (statusRows s userId).insertionSort
      (fun a b => b.1.data_inicio ≤ a.1.data_inicio) with
  | nil =>
    have hperm := List.perm_insertionSort (fun a b : Transmissao × Option Playlist =>
      b.1.data_inicio ≤ a.1.data_inicio) (statusRows s userId)
    rw [hsort] at hperm
    exact absurd hperm.symm.eq_nil h
  | cons row rows => exact ⟨row, rfl⟩

theorem statusRows_nil (s : Store) (userId : Nat)
    (h : selectActiveTransmissions s userId = []) : statusRows s userId = [] := by
  unfold statusRows
  rw [h]
  rfl

theorem statusRows_single (s : Store) (userId pid : Nat) (t : Transmissao) (p : Playlist)
    (hsel : selectActiveTransmissions s userId = [t]) (hpl : t.codigo_playlist = some pid)
    (hp : p ∈ s.playlists) (hpid : p.id = pid) :
    statusRows s userId ≠ []
    ∧ ∀ row ∈ statusRows s userId, row.1 = t ∧ ∃ q, row.2 = some q ∧ q.id = pid := by
  have hfilter : p ∈ s.playlists.filter (fun q => t.codigo_playlist = some q.id) := by
    rw [List.mem_filter]
    exact ⟨hp, by simp [hpl, hpid]⟩
  unfold statusRows
  rw [hsel]
  simp only [List.flatMap_cons, List.flatMap_nil, List.append_nil]
  cases hjoin : s.playlists.filter (fun q => t.codigo_playlist = some q.id) with
  | nil =>
    rw [hjoin] at hfilter
    simp at hfilter
  | cons q qs =>
    dsimp only
    refine ⟨by simp, ?_⟩
    intro row hrow
    rw [List.mem_map] at hrow
    obtain ⟨q', hq', hrow⟩ := hrow
    rw [← hrow]
    refine ⟨rfl, q', rfl, ?_⟩
    rw [← hjoin, List.mem_filter] at hq'
    have hq := of_decide_eq_true hq'.2
    rw [hpl] at hq
    exact (Option.some.inj hq).symm

theorem stop_success_store (env : Env) (user : User) (body : StopBody) (s : Store)
    (h : (stop env user body s).response.body.field "success" = some (Json.bool true)) :
    ∃ tid, truthyNat body.transmission_id = some tid
      ∧ (stop env user body s).store = finalizeTransmission s tid (env.now 2) := by
  unfold stop at h ⊢
  dsimp only at h ⊢
  cases hid : truthyNat body.transmission_id with
  | none =>
    rw [hid] at h
    simp [Json.field] at h
  | some tid =>
    rw [hid] at h
    dsimp only at h ⊢
    cases hdb0 : env.dbThrows 0 with
    | some m =>
      rw [hdb0] at h
      simp [stopCaught, caught, Json.field] at h
    | none =>
      rw [hdb0] at h
      dsimp only at h ⊢
      cases hsel : selectTransmission s tid user.id with
      | nil =>
        rw [hsel] at h
        simp [Json.field] at h
      | cons t ts =>
        rw [hsel] at h
        dsimp only at h ⊢
        cases hdb2 : env.dbThrows 2 with
        | some m =>
          rw [hdb2] at h
          simp [stopCaught, caught, Json.field] at h
        | none => exact ⟨tid, rfl, rfl⟩

theorem truthyNat_eq_some (o : Option Nat) (n : Nat) (h : truthyNat o = some n) :
    o = some n ∧ n ≠ 0 := by
  cases o with
  | none => cases h
  | some m =>
    cases m with
    | zero => cases h
    | succ k =>
      have hk : k + 1 = n := Option.some.inj h
      rw [← hk]
      exact ⟨rfl, Nat.succ_ne_zero k⟩

theorem start_success_active (env : Env) (user : User) (body : StartBody) (s : Store)
    (hinv : OneActiveTransmission s)
    (h : (start env user body s).response.body.field "success" = some (Json.bool true)) :
    ∃ (pid : Nat) (playlist : Playlist) (created : Transmissao),
      pid ≠ 0 ∧ playlist ∈ (start env user body s).store.playlists ∧ playlist.id = pid
      ∧ selectActiveTransmissions (start env user body s).store user.id = [created]
      ∧ created.codigo = s.next_transmissao ∧ created.codigo_playlist = some pid := by
  obtain ⟨pid, playlist, playlists, s1, effects1, hpid, hpl, hcase, hstore, _⟩ :=
    start_success_outcome env user body s h
  have hmem : playlist ∈ selectPlaylists s pid user.id := by simp [hpl]
  unfold selectPlaylists at hmem
  rw [List.mem_filter] at hmem
  have hplid : playlist.id = pid := (of_decide_eq_true hmem.2).1
  have hs1 : s1.playlists = s.playlists ∧ s1.next_transmissao = s.next_transmissao
      ∧ selectActiveTransmissions s1 user.id = [] := by
    rcases hcase with ⟨hnone, hs, _⟩ | ⟨active, rest, hsel, hs, _⟩
    · rw [hs]
      exact ⟨rfl, rfl, hnone⟩
    · rw [hs]
      exact ⟨rfl, rfl, selectActive_finalize_head s user.id _ active rest hinv hsel⟩
  refine ⟨pid, playlist,
    newTransmission s1 user.id body.titulo (body.descricao.getD "") pid (env.now 6),
    (truthyNat_eq_some _ _ hpid).2, ?_, hplid, ?_, hs1.2.1, rfl⟩
  · rw [hstore]
    unfold insertTransmission
    dsimp only
    rw [hs1.1]
    exact hmem.1
  · rw [hstore, selectActive_insert, hs1.2.2]
    simp

theorem status_live (env : Env) (user : User) (s : Store) (pid : Nat) (t : Transmissao)
    (p : Playlist) (hdb : env.dbThrows 0 = none) (hpid : pid ≠ 0)
    (hsel : selectActiveTransmissions s user.id = [t]) (hpl : t.codigo_playlist = some pid)
    (hp : p ∈ s.playlists) (hpeq : p.id = pid) :
    (status env user s).body.field "is_live" = some (Json.bool true)
    ∧ (status env user s).body.field "stream_type" = some (Json.str "playlist")
    ∧ ((status env user s).body.field "transmission").bind (fun tr => tr.field "id")
        = some (Json.num t.codigo) := by
  obtain ⟨hne, hrows⟩ := statusRows_single s user.id pid t p hsel hpl hp hpeq
  obtain ⟨row, hlatest⟩ := latestStatusRow_some s user.id hne
  obtain ⟨hrow1, q, hrow2, hq⟩ := hrows row (latestStatusRow_mem s user.id row hlatest)
  obtain ⟨rt, rp⟩ := row
  dsimp only at hrow1 hrow2
  subst hrow1
  subst hrow2
  unfold status
  rw [hdb, hlatest]
  dsimp only
  rw [Option.map_some', hq, truthyNat_of_ne_zero pid hpid]
  exact ⟨rfl, rfl, rfl⟩

theorem status_idle (env : Env) (user : User) (s : Store) (hdb : env.dbThrows 0 = none)
    (hsel : selectActiveTransmissions s user.id = []) :
    (status env user s).body
      = Json.obj [("is_live", Json.bool false), ("stream_type", Json.null),
          ("transmission", Json.null)] := by
  unfold status
  rw [hdb, latestStatusRow_none s user.id (statusRows_nil s user.id hsel)]

/-- C26: from a store that satisfies the one-active-per-owner invariant, right after a
successful `/start` of an owner, `GET /status` of that owner (its read not throwing) reports
`is_live: true`, `stream_type: playlist` and a `transmission.id` equal to the
`transmission_id` that the start returned; right after a successful `/stop` of that id it
reports `is_live: false` with `stream_type: null` and `transmission: null`. -/
theorem status_agrees_with_start_and_stop (envStart envStatus envStop envStatus' : Env)
    (user : User) (body : StartBody) (s : Store)
    (hinv : OneActiveTransmission s)
    (hstart : (start envStart user body s).response.body.field "success"
      = some (Json.bool true))
    (hread : envStatus.dbThrows 0 = none) (hread' : envStatus'.dbThrows 0 = none) :
    (start envStart user body s).response.body.field "transmission_id"
        = some (Json.num s.next_transmissao)
    ∧ (status envStatus user (start envStart user body s).store).body.field "is_live"
        = some (Json.bool true)
    ∧ (status envStatus user (start envStart user body s).store).body.field "stream_type"
        = some (Json.str "playlist")
    ∧ ((status envStatus user (start envStart user body s).store).body.field
          "transmission").bind (fun tr => tr.field "id")
        = (start envStart user body s).response.body.field "transmission_id"
    ∧ ((stop envStop user { transmission_id := some s.next_transmissao }
          (start envStart user body s).store).response.body.field "success"
          = some (Json.bool true) →
        (status envStatus' user
          (stop envStop user { transmission_id := some s.next_transmissao }
            (start envStart user body s).store).store).body
          = Json.obj [("is_live", Json.bool false), ("stream_type", Json.null),
              ("transmission", Json.null)]) := by
  obtain ⟨pid, playlist, created, hpid, hpl, hplid, hsel, hcod, hcpl⟩ :=
    start_success_active envStart user body s hinv hstart
  obtain ⟨_, _, _, _, _, _, _, _, hresp⟩ := start_success_inv envStart user body s hstart
  have htid : (start envStart user body s).response.body.field "transmission_id"
      = some (Json.num s.next_transmissao) := by
    rw [hresp]
    rfl
  obtain ⟨hlive, htype, hidt⟩ := status_live envStatus user _ pid created playlist hread hpid
    hsel hcpl hpl hplid
  refine ⟨htid, hlive, htype, ?_, ?_⟩
  · rw [hidt, htid, hcod]
  · intro hstop
    obtain ⟨tid, htidv, hstore⟩ := stop_success_store envStop user _ _ hstop
    have htideq : tid = s.next_transmissao :=
      (Option.some.inj (truthyNat_eq_some _ _ htidv).1).symm
    apply status_idle envStatus' user _ hread'
    rw [hstore, selectActive_finalize, hsel, htideq]
    simp [hcod]

/-- Witness of C26: owner 7 starts playlist 3, asks for the status, stops the transmission 12
that was created, and asks for the status again. -/
theorem status_agrees_with_start_and_stop_witness :
    (status (demoEnv SmilResult.success none) joao
        (start (demoEnv SmilResult.success none) joao demoStart demoStore).store).body.field
        "is_live" = some (Json.bool true)
    ∧ ((status (demoEnv SmilResult.success none) joao
        (start (demoEnv SmilResult.success none) joao demoStart demoStore).store).body.field
          "transmission").bind (fun tr => tr.field "id")
      = (start (demoEnv SmilResult.success none) joao demoStart
          demoStore).response.body.field "transmission_id"
    ∧ (status (demoEnv SmilResult.success none) joao
        (stop (demoEnv SmilResult.success none) joao
          { transmission_id := some demoStore.next_transmissao }
          (start (demoEnv SmilResult.success none) joao demoStart demoStore).store).store).body
      = Json.obj [("is_live", Json.bool false), ("stream_type", Json.null),
          ("transmission", Json.null)] :=
  have h := status_agrees_with_start_and_stop (demoEnv SmilResult.success none)
    (demoEnv SmilResult.success none) (demoEnv SmilResult.success none)
    (demoEnv SmilResult.success none) joao demoStart demoStore
    (oneActive_of_check demoStore (by decide)) rfl rfl rfl
  ⟨h.2.1, h.2.2.2.1, h.2.2.2.2 rfl⟩

end StreamingControl
